import Mathlib

/-!
# Verification of the game-text font transcoding engine (`common/util/FontUtils.cpp`)

This file gives a shallow embedding of the transcoding engine of
`src/common/util/FontUtils.cpp` and proves properties about it.

Modelling conventions:
* C++ `std::string` values and byte buffers are modelled as `List Nat`, one entry
  per byte (values 0..255).  `std::string::length()` is `List.length` (a byte count).
* A `const char*` cursor into a NUL-terminated buffer is modelled as the list of
  bytes from the cursor on.  Reading at or past the end of that list yields the
  value 0 (the NUL terminator); advancing the pointer is `List.drop`.
* Fallible code (C++ `throw`) is modelled with `Except`.
* The process-global diagnostic accumulator `seqs` of
  `convert_korean_text_from_game` only feeds `printf` output in the bank
  destructor and never influences any transcoding result, so it is omitted.
-/

set_option maxRecDepth 100000
set_option maxHeartbeats 4000000

deriving instance DecidableEq for Except

/-- Game text versions, from the `GameTextVersion` enum used in `FontUtils.cpp`. -/
inductive GameTextVersion where
  | JAK1_V1
  | JAK1_V2
  | JAK2
deriving DecidableEq

/-- One entry of an encode table: a display character sequence (UTF-8 bytes)
paired with a game-encoding byte sequence.  Mirrors `EncodeInfo`. -/
structure EncodeInfo where
  chars : List Nat
  bytes : List Nat
deriving DecidableEq

/-- One entry of a replace table: `from_` is the encoded substring and `to_` the
display substring (named `from` and `to` in the C++; `from` and `to` are
reserved words in Lean). Mirrors `ReplaceInfo`. -/
structure ReplaceInfo where
  from_ : List Nat
  to_ : List Nat
deriving DecidableEq

/-- A font bank: version tag, encode table, replace table, passthrough byte set.
Mirrors the fields of `GameTextFontBank` (the tables are stored by value here;
the C++ stores pointers). -/
structure GameTextFontBank where
  version : GameTextVersion
  encode_info : List EncodeInfo
  replace_info : List ReplaceInfo
  passthrus : List Nat
deriving DecidableEq

/-- The `GameTextFontBank` constructor: stores the tables after sorting the
encode table by non-increasing byte-sequence length and the replace table by
non-increasing `from` length (the two `std::sort` calls with `>` comparators;
`std::sort` leaves the order of entries with equal lengths unspecified, so any
sorting algorithm yields an equally valid model; a structurally recursive
insertion sort is used so that definitions evaluate by kernel reduction). -/
def GameTextFontBank.construct (version : GameTextVersion)
    (encode_info : List EncodeInfo) (replace_info : List ReplaceInfo)
    (passthrus : List Nat) : GameTextFontBank :=
  { version
    encode_info := encode_info.insertionSort (fun a b => b.bytes.length ≤ a.bytes.length)
    replace_info := replace_info.insertionSort (fun a b => b.from_.length ≤ a.from_.length)
    passthrus }

/-- Matching a pattern against a NUL-terminated buffer suffix: compares
`in[i] == pat[i]` for every `i < pat.length`, where reading past the end of the
suffix yields the terminator byte 0.  This is the comparison loop of
`find_encode_to_utf8`. -/
def cstrMatch : List Nat → List Nat → Bool
  | _, [] => true
  | [], p :: ps => (0 == p) && cstrMatch [] ps
  | c :: cs, p :: ps => (c == p) && cstrMatch cs ps

/-- Bounded matching of `find_encode_to_game`: the loop runs while
`i < pat.length && i + off < in.size()`, so a pattern that extends past the end
of the input is compared only on the part that is in range (and the comparison
succeeds vacuously once the input is exhausted). -/
def boundedMatch : List Nat → List Nat → Bool
  | _, [] => true
  | [], _ :: _ => true
  | c :: cs, p :: ps => (c == p) && boundedMatch cs ps

/-- The shared shape of the four `find_*` loops of `GameTextFontBank`: scan the
table, skip entries failing the guard `P`, keep the entry maximising `key`
(strictly-greater comparison, so the first entry with the maximal key wins). -/
def find_best (P : α → Bool) (key : α → Nat) : List α → Option α → Option α
  | [], best => best
  | x :: xs, best =>
      find_best P key xs
        (if P x then
          match best with
          | none => some x
          | some b => if key b < key x then some x else some b
        else best)

/-- `GameTextFontBank::find_encode_to_utf8`: longest match of an encode rule's
*byte* sequence against the buffer suffix; entries with empty byte sequences are
skipped; the retained "best" maximises the *character*-sequence length
(`info.chars.length() > best_info->chars.length()` in the C++). -/
def find_encode_to_utf8 (table : List EncodeInfo) (l : List Nat) : Option EncodeInfo :=
  find_best (fun info => !(info.bytes.length == 0) && cstrMatch l info.bytes)
    (fun info => info.chars.length) table none

/-- `GameTextFontBank::find_encode_to_game` at offset `off`, with `l` the input
from `off` on: bounded comparison of the rule's character sequence, best entry
by character-sequence length. -/
def find_encode_to_game (table : List EncodeInfo) (l : List Nat) : Option EncodeInfo :=
  find_best (fun info => !(info.chars.length == 0) && boundedMatch l info.chars)
    (fun info => info.chars.length) table none

/-- `GameTextFontBank::find_replace_to_utf8` with `l` the input from the offset
on: skips empty `from` patterns and patterns longer than the rest of the input
(`in.size() - off < info.from.size()`), compares with `memcmp`, best entry by
`from` length. -/
def find_replace_to_utf8 (table : List ReplaceInfo) (l : List Nat) : Option ReplaceInfo :=
  find_best
    (fun info => !(info.from_.length == 0) && !(l.length < info.from_.length)
      && l.take info.from_.length == info.from_)
    (fun info => info.from_.length) table none

/-- `GameTextFontBank::find_replace_to_game`: as `find_replace_to_utf8` but
matching and maximising the `to` side. -/
def find_replace_to_game (table : List ReplaceInfo) (l : List Nat) : Option ReplaceInfo :=
  find_best
    (fun info => !(info.to_.length == 0) && !(l.length < info.to_.length)
      && l.take info.to_.length == info.to_)
    (fun info => info.to_.length) table none

theorem find_best_eq_some (P : α → Bool) (key : α → Nat) :
    ∀ (xs : List α) (acc : Option α) (r : α),
      find_best P key xs acc = some r → (r ∈ xs ∧ P r = true) ∨ acc = some r := by
  intro xs
  induction xs with
  | nil => intro acc r h; exact Or.inr h
  | cons x xs ih =>
    intro acc r h
    simp only [find_best] at h
    rcases ih _ r h with h' | h'
    · exact Or.inl ⟨List.mem_cons_of_mem _ h'.1, h'.2⟩
    · by_cases hP : P x = true
      · simp only [hP, if_true] at h'
        cases acc with
        | none =>
          simp only at h'
          exact Or.inl ⟨by simp [← Option.some.inj h'], by rw [← Option.some.inj h']; exact hP⟩
        | some b =>
          simp only at h'
          by_cases hk : key b < key x
          · simp only [hk, if_true] at h'
            exact Or.inl ⟨by simp [← Option.some.inj h'], by rw [← Option.some.inj h']; exact hP⟩
          · simp only [hk, if_false] at h'
            exact Or.inr h'
      · simp only [Bool.not_eq_true] at hP
        simp only [hP] at h'
        exact Or.inr h'

theorem find_best_maximal (P : α → Bool) (key : α → Nat) :
    ∀ (xs : List α) (acc : Option α) (r : α),
      find_best P key xs acc = some r →
      (∀ x ∈ xs, P x = true → key x ≤ key r) ∧ (∀ b, acc = some b → key b ≤ key r) := by
  intro xs
  induction xs with
  | nil =>
    intro acc r h
    refine ⟨by simp, ?_⟩
    intro b hb
    simp only [find_best] at h
    rw [hb] at h
    exact le_of_eq (congrArg key (Option.some.inj h))
  | cons x xs ih =>
    intro acc r h
    simp only [find_best] at h
    have ihr := ih _ r h
    constructor
    · intro y hy hPy
      rcases List.mem_cons.mp hy with hyx | hyxs
      · subst hyx
        -- the accumulator passed on always dominates `key y` when `P y` holds
        by_cases hacc : ∃ b, acc = some b
        · rcases hacc with ⟨b, rfl⟩
          by_cases hk : key b < key y
          · exact ihr.2 y (by simp [hPy, hk])
          · exact le_trans (le_of_not_lt hk) (ihr.2 b (by simp [hPy, hk]))
        · have : acc = none := by
            cases acc with
            | none => rfl
            | some b => exact absurd ⟨b, rfl⟩ hacc
          subst this
          exact ihr.2 y (by simp [hPy])
      · exact ihr.1 y hyxs hPy
    · intro b hb
      subst hb
      by_cases hP : P x = true
      · by_cases hk : key b < key x
        · exact le_trans (le_of_lt hk) (ihr.2 x (by simp [hP, hk]))
        · exact ihr.2 b (by simp [hP, hk])
      · simp only [Bool.not_eq_true] at hP
        exact ihr.2 b (by simp [hP])

theorem find_best_congr (P₁ P₂ : α → Bool) (key : α → Nat) :
    ∀ (xs : List α) (acc : Option α), (∀ x ∈ xs, P₁ x = P₂ x) →
      find_best P₁ key xs acc = find_best P₂ key xs acc := by
  intro xs
  induction xs with
  | nil => intro acc _; rfl
  | cons x xs ih =>
    intro acc hP
    simp only [find_best]
    rw [hP x (List.mem_cons_self x xs)]
    exact ih _ (fun y hy => hP y (List.mem_cons_of_mem x hy))

theorem find_replace_to_utf8_from_pos (table : List ReplaceInfo) (l : List Nat)
    (r : ReplaceInfo) (h : find_replace_to_utf8 table l = some r) : 0 < r.from_.length := by
  rcases find_best_eq_some _ _ _ _ _ h with ⟨_, hP⟩ | h'
  · simp only [Bool.and_eq_true, Bool.not_eq_true', beq_eq_false_iff_ne, ne_eq] at hP
    exact Nat.pos_of_ne_zero hP.1.1
  · cases h'

theorem find_replace_to_game_to_pos (table : List ReplaceInfo) (l : List Nat)
    (r : ReplaceInfo) (h : find_replace_to_game table l = some r) : 0 < r.to_.length := by
  rcases find_best_eq_some _ _ _ _ _ h with ⟨_, hP⟩ | h'
  · simp only [Bool.and_eq_true, Bool.not_eq_true', beq_eq_false_iff_ne, ne_eq] at hP
    exact Nat.pos_of_ne_zero hP.1.1
  · cases h'

theorem find_encode_to_game_chars_pos (table : List EncodeInfo) (l : List Nat)
    (r : EncodeInfo) (h : find_encode_to_game table l = some r) : 0 < r.chars.length := by
  rcases find_best_eq_some _ _ _ _ _ h with ⟨_, hP⟩ | h'
  · simp only [Bool.and_eq_true, Bool.not_eq_true', beq_eq_false_iff_ne, ne_eq] at hP
    exact Nat.pos_of_ne_zero hP.1
  · cases h'

theorem find_encode_to_utf8_bytes_pos (table : List EncodeInfo) (l : List Nat)
    (r : EncodeInfo) (h : find_encode_to_utf8 table l = some r) : 0 < r.bytes.length := by
  rcases find_best_eq_some _ _ _ _ _ h with ⟨_, hP⟩ | h'
  · simp only [Bool.and_eq_true, Bool.not_eq_true', beq_eq_false_iff_ne, ne_eq] at hP
    exact Nat.pos_of_ne_zero hP.1
  · cases h'

/-- The loop of `GameTextFontBank::replace_to_utf8`: walk the string; at each
position take the best `from`-side replace match and emit its `to` side, else
copy one byte.  The position index `i` of the C++ loop is modelled by recursing
on the suffix; every iteration advances by at least one byte (matched `from`
patterns are non-empty), so with fuel `l.length` (see `replace_to_utf8`) the
fuel never runs out — it only makes the recursion structural so terms evaluate
by kernel reduction. -/
def replace_to_utf8_loop (table : List ReplaceInfo) : Nat → List Nat → List Nat
  | _, [] => []
  | 0, _ :: _ => []
  | fuel + 1, c :: rest =>
    match find_replace_to_utf8 table (c :: rest) with
    | none => c :: replace_to_utf8_loop table fuel rest
    | some r => r.to_ ++ replace_to_utf8_loop table fuel ((c :: rest).drop r.from_.length)

/-- `GameTextFontBank::replace_to_utf8`. -/
def replace_to_utf8 (table : List ReplaceInfo) (l : List Nat) : List Nat :=
  replace_to_utf8_loop table l.length l

/-- The loop of `GameTextFontBank::replace_to_game`: mirror image of
`replace_to_utf8_loop`, matching the `to` side and emitting the `from` side. -/
def replace_to_game_loop (table : List ReplaceInfo) : Nat → List Nat → List Nat
  | _, [] => []
  | 0, _ :: _ => []
  | fuel + 1, c :: rest =>
    match find_replace_to_game table (c :: rest) with
    | none => c :: replace_to_game_loop table fuel rest
    | some r => r.from_ ++ replace_to_game_loop table fuel ((c :: rest).drop r.to_.length)

/-- `GameTextFontBank::replace_to_game`. -/
def replace_to_game (table : List ReplaceInfo) (l : List Nat) : List Nat :=
  replace_to_game_loop table l.length l

/-- The loop of `GameTextFontBank::encode_utf8_to_game`: walk the string; at
each position take the best character-side encode match and emit its byte
sequence, else copy one byte. -/
def encode_utf8_to_game_loop (table : List EncodeInfo) : Nat → List Nat → List Nat
  | _, [] => []
  | 0, _ :: _ => []
  | fuel + 1, c :: rest =>
    match find_encode_to_game table (c :: rest) with
    | none => c :: encode_utf8_to_game_loop table fuel rest
    | some r => r.bytes ++ encode_utf8_to_game_loop table fuel ((c :: rest).drop r.chars.length)

/-- `GameTextFontBank::encode_utf8_to_game`. -/
def encode_utf8_to_game (table : List EncodeInfo) (l : List Nat) : List Nat :=
  encode_utf8_to_game_loop table l.length l

/-- The escape-interpretation errors thrown by `convert_utf8_to_game`
("incomplete string escape code", "invalid character escape hex number",
"unknown string escape code"). -/
inductive EscapeError where
  | incompleteEscape
  | invalidHexEscape
  | invalidEscape (c : Nat)
deriving DecidableEq

/-- Modelled from the spec: `str_util::hex_char` is declared in
`string_util.h`, which is not part of the sources; the spec describes the two
characters after `\c` as hexadecimal digits, so this accepts exactly the ASCII
hexadecimal digits `0`-`9`, `a`-`f`, `A`-`F`. -/
def hex_char (c : Nat) : Bool :=
  (48 ≤ c && c ≤ 57) || (97 ≤ c && c ≤ 102) || (65 ≤ c && c ≤ 70)

/-- Value of an ASCII hexadecimal digit (the per-digit arithmetic behind the
`std::stoul(hex_num, &end, 16)` call; for inputs passing `hex_char` the
`end != 2` branch and the `value < 256` assertion of the C++ cannot trigger). -/
def hexCharVal (c : Nat) : Nat :=
  if c ≤ 57 then c - 48 else if c ≤ 70 then c - 55 else c - 87

/-- Push one output byte in front of a pending scan result, keeping an error
as it is (the C++ `throw` unwinds past all `push_back`s already done, so an
error discards every byte). -/
def prependOk (c : Nat) : Except EscapeError (List Nat) → Except EscapeError (List Nat)
  | .error e => .error e
  | .ok t => .ok (c :: t)

/-- The escape-interpretation loop of `convert_utf8_to_game` (taken when the
`escape` flag is set), with the C++ `if` chains written as literal list
patterns (byte 34 is `"`, 92 is `\`, 99 is `c`): a `"` copies itself and —
because the body does `i += 1` on top of the `for` header's `++i` — skips the
following character; `\` at the end of the string and `\c` with fewer than two
bytes left are "incomplete string escape code"; `\c` with two non-hex bytes is
"invalid character escape hex number" (for bytes passing `hex_char`, the
`std::stoul` end-position check and the `value < 256` assertion cannot fire);
`"` and `\` copy the escaped byte; any other escaped byte is "unknown string
escape code". -/
def unescape_string : List Nat → Except EscapeError (List Nat)
  | [] => .ok []
  | [34] => .ok [34]
  | 34 :: _ :: rest' => prependOk 34 (unescape_string rest')
  | [92] => .error .incompleteEscape
  | 92 :: 99 :: a :: b :: rest'' =>
    if hex_char a && hex_char b then
      prependOk (hexCharVal a * 16 + hexCharVal b) (unescape_string rest'')
    else .error .invalidHexEscape
  | 92 :: 99 :: _ => .error .incompleteEscape
  | 92 :: p :: rest' =>
    if p == 34 || p == 92 then prependOk p (unescape_string rest')
    else .error (.invalidEscape p)
  | c :: rest => prependOk c (unescape_string rest)

/-- `GameTextFontBank::convert_utf8_to_game`: optional escape interpretation,
then the replacement fold, then the byte encode.  A thrown exception aborts the
whole conversion, so the error propagates and no byte output is produced. -/
def convert_utf8_to_game (bank : GameTextFontBank) (str : List Nat) (escape : Bool) :
    Except EscapeError (List Nat) :=
  match (if escape then unescape_string str else .ok str) with
  | .error e => .error e
  | .ok newstr =>
      .ok (encode_utf8_to_game bank.encode_info (replace_to_game bank.replace_info newstr))

/-- `GameTextFontBank::valid_char_range`: digits, uppercase (plus lowercase for
JAK2) or a passthrough byte, and never the backslash. -/
def valid_char_range (bank : GameTextFontBank) (c : Nat) : Bool :=
  match bank.version with
  | .JAK1_V1 | .JAK1_V2 =>
      ((0x30 ≤ c && c ≤ 0x39) || (0x41 ≤ c && c ≤ 0x5A) || bank.passthrus.contains c)
        && !(c == 0x5C)
  | .JAK2 =>
      ((0x30 ≤ c && c ≤ 0x39) || (0x41 ≤ c && c ≤ 0x5A) || (0x61 ≤ c && c ≤ 0x7A)
          || bank.passthrus.contains c)
        && !(c == 0x5C)

/-- ASCII code of the lowercase hexadecimal digit for `n < 16` (the formatting
done by `fmt::format("\cXX")` with `{:02x}`). -/
def hexDigitLower (n : Nat) : Nat :=
  if n < 10 then 48 + n else 87 + n

/-- The main `while (*in)` loop of `convert_game_to_utf8`: stop at the NUL
byte; prefer an encode-rule match (emitting its character sequence and skipping
its byte sequence); otherwise emit a byte in the valid range (or newline, tab,
backslash, quote) literally, and everything else as a generated `\cXX` escape. -/
def convert_game_to_utf8_loop (bank : GameTextFontBank) : Nat → List Nat → List Nat
  | _, [] => []
  | 0, _ :: _ => []
  | fuel + 1, c :: rest =>
    if c == 0 then []
    else
      match find_encode_to_utf8 bank.encode_info (c :: rest) with
      | some r =>
        r.chars ++ convert_game_to_utf8_loop bank fuel ((c :: rest).drop r.bytes.length)
      | none =>
        (if valid_char_range bank c || c == 10 || c == 9 || c == 92 || c == 34 then [c]
         else [92, 99, hexDigitLower (c / 16), hexDigitLower (c % 16)])
          ++ convert_game_to_utf8_loop bank fuel rest

/-- The escape-emission pass of `convert_game_to_utf8`: raw newline, tab and
quote become `\n`, `\t`, `\"`; a backslash becomes `\\` unless it is followed
by a `c` (the start of a generated `\cXX` escape), in which case it is copied
as-is and the `c` is handled by the next iteration. -/
def escape_special_chars : List Nat → List Nat
  | [] => []
  | c :: rest =>
    if c == 10 then 92 :: 110 :: escape_special_chars rest
    else if c == 9 then 92 :: 116 :: escape_special_chars rest
    else if c == 92 then
      if rest.head? == some 99 then 92 :: escape_special_chars rest
      else 92 :: 92 :: escape_special_chars rest
    else if c == 34 then 92 :: 34 :: escape_special_chars rest
    else c :: escape_special_chars rest

/-- The literal-ASCII run of `convert_korean_text_from_game` entered after a
marker byte 3: copies bytes until NUL, 3 or 4; returns the copied bytes and the
remaining buffer (still pointing at the terminating marker, if any). -/
def korean_ascii_run : List Nat → List Nat × List Nat
  | [] => ([], [])
  | c :: rest =>
    if c == 0 || c == 3 || c == 4 then ([], c :: rest)
    else
      let p := korean_ascii_run rest
      (c :: p.1, p.2)

/-- The glyph-sequence run of `convert_korean_text_from_game`: each sub-code
prefixed by marker 5 is re-emitted as the byte pair (1, payload), every other
sub-code as (3, code); runs until NUL, 3 or 4.  When a marker 5 sits on the
last byte of the buffer the C++ reads the NUL terminator as the payload
(modelled as the byte 0). -/
def korean_seq_run : List Nat → List Nat × List Nat
  | [] => ([], [])
  | c :: rest =>
    if c == 0 || c == 3 || c == 4 then ([], c :: rest)
    else if c == 5 then
      match rest with
      | [] => ([1, 0], [])
      | d :: rest' =>
        let p := korean_seq_run rest'
        (1 :: d :: p.1, p.2)
    else
      let p := korean_seq_run rest
      (3 :: c :: p.1, p.2)

theorem korean_ascii_run_snd_le (l : List Nat) : (korean_ascii_run l).2.length ≤ l.length := by
  induction l with
  | nil => simp [korean_ascii_run]
  | cons c rest ih =>
    simp only [korean_ascii_run]
    by_cases h : (c == 0 || c == 3 || c == 4) = true
    · simp [h]
    · simp only [Bool.not_eq_true] at h
      simp only [h]
      simpa using Nat.le_succ_of_le ih

theorem korean_seq_run_snd_le (l : List Nat) : (korean_seq_run l).2.length ≤ l.length := by
  induction l using korean_seq_run.induct with
  | case1 => simp [korean_seq_run]
  | case2 c rest h => unfold korean_seq_run; simp [h]
  | case3 c h h5 => unfold korean_seq_run; simp [h, h5]
  | case4 c h h5 d rest' ih =>
    unfold korean_seq_run
    simp [h, h5]
    omega
  | case5 c rest h h5 ih =>
    unfold korean_seq_run
    simp [h, h5]
    omega

/-- `convert_korean_text_from_game`: marker 3 starts a literal ASCII run;
otherwise the byte after the marker is read as a (then unused) length byte —
with no NUL check — and a glyph-sequence run follows.  The `seqs` diagnostic
accumulator only feeds the destructor's `printf` output and is omitted. -/
def convert_korean_text_from_game_loop : Nat → List Nat → List Nat
  | _, [] => []
  | 0, _ :: _ => []
  | fuel + 1, c :: rest =>
    if c == 0 then []
    else if c == 3 then
      (korean_ascii_run rest).1
        ++ convert_korean_text_from_game_loop fuel (korean_ascii_run rest).2
    else
      (korean_seq_run (rest.drop 1)).1
        ++ convert_korean_text_from_game_loop fuel (korean_seq_run (rest.drop 1)).2

/-- `convert_korean_text_from_game`, with fuel `l.length` (each outer loop
iteration consumes at least one byte, by `korean_ascii_run_snd_le` and
`korean_seq_run_snd_le`, so the fuel never runs out). -/
def convert_korean_text_from_game (l : List Nat) : List Nat :=
  convert_korean_text_from_game_loop l.length l

/-- `GameTextFontBank::convert_game_to_utf8`: optional Korean pre-pass, main
decode loop, replacement expansion, escape emission, and a second replacement
expansion applied to the escaped text. -/
def convert_game_to_utf8 (bank : GameTextFontBank) (inp : List Nat) (korean : Bool) :
    List Nat :=
  let start := if korean then convert_korean_text_from_game inp else inp
  let temp :=
    replace_to_utf8 bank.replace_info (convert_game_to_utf8_loop bank start.length start)
  replace_to_utf8 bank.replace_info (escape_special_chars temp)

/-- Errors of the registry lookup `get_font_bank` ("unknown text version"). -/
inductive FontBankError where
  | unknownVersion
deriving DecidableEq

/-- `sTextVerEnumMap`: the name-to-version registry. -/
def sTextVerEnumMap : List (String × GameTextVersion) :=
  [("jak1-v1", GameTextVersion.JAK1_V1),
   ("jak1-v2", GameTextVersion.JAK1_V2),
   ("jak2", GameTextVersion.JAK2)]

/-- The `s_passthrus_jak1` set of `FontUtils.cpp`, as byte values. -/
def s_passthrus_jak1 : List Nat := [0x7e, 0x20, 0x2c, 0x2e, 0x2d, 0x2b, 0x28, 0x29, 0x21, 0x3a, 0x3f, 0x3d, 0x25, 0x2a, 0x2f, 0x23, 0x3b, 0x3c, 0x3e, 0x40, 0x5b, 0x5f]

/-- The `s_passthrus_jak2` set of `FontUtils.cpp`, as byte values. -/
def s_passthrus_jak2 : List Nat := [0x7e, 0x20, 0x2c, 0x2e, 0x2d, 0x2b, 0x28, 0x29, 0x21, 0x3a, 0x3f, 0x3d, 0x25, 0x2a, 0x2f, 0x23, 0x3b, 0x3c, 0x3e, 0x40, 0x5b, 0x5f, 0x5d]

/-- Entries 0-59 of `s_encode_info_jak1` (split to keep list literals small). -/
def s_encode_info_jak1_part0 : List EncodeInfo := [
  ⟨[0xcb, 0x87], [0x10]⟩,
  ⟨[0x60], [0x11]⟩,
  ⟨[0x27], [0x12]⟩,
  ⟨[0x5e], [0x13]⟩,
  ⟨[0x3c, 0x54, 0x49, 0x4c, 0x3e], [0x14]⟩,
  ⟨[0xc2, 0xa8], [0x15]⟩,
  ⟨[0xc2, 0xba], [0x16]⟩,
  ⟨[0xc2, 0xa1], [0x17]⟩,
  ⟨[0xc2, 0xbf], [0x18]⟩,
  ⟨[0xe6, 0xb5, 0xb7], [0x1a]⟩,
  ⟨[0xc3, 0x86], [0x1b]⟩,
  ⟨[0xe7, 0x95, 0x8c], [0x1c]⟩,
  ⟨[0xc3, 0x87], [0x1d]⟩,
  ⟨[0xe5, 0xad, 0xa6], [0x1e]⟩,
  ⟨[0xc3, 0x9f], [0x1f]⟩,
  ⟨[0xe3, 0x83, 0xaf], [0x24]⟩,
  ⟨[0xe3, 0x83, 0xb2], [0x26]⟩,
  ⟨[0xe3, 0x83, 0xb3], [0x27]⟩,
  ⟨[0xe5, 0xb2, 0xa9], [0x5c]⟩,
  ⟨[0xe6, 0x97, 0xa7], [0x5d]⟩,
  ⟨[0xe7, 0xa9, 0xba], [0x5e]⟩,
  ⟨[0xe3, 0x83, 0xae], [0x60]⟩,
  ⟨[0xe6, 0x92, 0x83], [0x61]⟩,
  ⟨[0xe8, 0xb3, 0xa2], [0x62]⟩,
  ⟨[0xe6, 0xb9, 0x96], [0x63]⟩,
  ⟨[0xe5, 0x8f, 0xa3], [0x64]⟩,
  ⟨[0xe8, 0xa1, 0x8c], [0x65]⟩,
  ⟨[0xe5, 0x90, 0x88], [0x66]⟩,
  ⟨[0xe5, 0xa3, 0xab], [0x67]⟩,
  ⟨[0xe5, 0xaf, 0xba], [0x68]⟩,
  ⟨[0xe5, 0xb1, 0xb1], [0x69]⟩,
  ⟨[0xe8, 0x80, 0x85], [0x6a]⟩,
  ⟨[0xe6, 0x89, 0x80], [0x6b]⟩,
  ⟨[0xe6, 0x9b, 0xb8], [0x6c]⟩,
  ⟨[0xe5, 0xb0, 0x8f], [0x6d]⟩,
  ⟨[0xe6, 0xb2, 0xbc], [0x6e]⟩,
  ⟨[0xe4, 0xb8, 0x8a], [0x6f]⟩,
  ⟨[0xe5, 0x9f, 0x8e], [0x70]⟩,
  ⟨[0xe5, 0xa0, 0xb4], [0x71]⟩,
  ⟨[0xe5, 0x87, 0xba], [0x72]⟩,
  ⟨[0xe9, 0x97, 0x87], [0x73]⟩,
  ⟨[0xe9, 0x81, 0xba], [0x74]⟩,
  ⟨[0xe9, 0xbb, 0x84], [0x75]⟩,
  ⟨[0xe5, 0xb1, 0x8b], [0x76]⟩,
  ⟨[0xe4, 0xb8, 0x8b], [0x77]⟩,
  ⟨[0xe5, 0xae, 0xb6], [0x78]⟩,
  ⟨[0xe7, 0x81, 0xab], [0x79]⟩,
  ⟨[0xe8, 0x8a, 0xb1], [0x7a]⟩,
  ⟨[0xe3, 0x83, 0xac], [0x7b]⟩,
  ⟨[0xc5, 0x92], [0x7c]⟩,
  ⟨[0xe3, 0x83, 0xad], [0x7d]⟩,
  ⟨[0xe9, 0x9d, 0x92], [0x7f]⟩,
  ⟨[0xe3, 0x83, 0xbb], [0x90]⟩,
  ⟨[0xe3, 0x82, 0x9b], [0x91]⟩,
  ⟨[0xe3, 0x82, 0x9c], [0x92]⟩,
  ⟨[0xe3, 0x83, 0xbc], [0x93]⟩,
  ⟨[0xe3, 0x80, 0x8e], [0x94]⟩,
  ⟨[0xe3, 0x80, 0x8f], [0x95]⟩,
  ⟨[0xe3, 0x81, 0x81], [0x96]⟩,
  ⟨[0xe3, 0x81, 0x82], [0x97]⟩
]

/-- Entries 60-119 of `s_encode_info_jak1` (split to keep list literals small). -/
def s_encode_info_jak1_part1 : List EncodeInfo := [
  ⟨[0xe3, 0x81, 0x83], [0x98]⟩,
  ⟨[0xe3, 0x81, 0x84], [0x99]⟩,
  ⟨[0xe3, 0x81, 0x85], [0x9a]⟩,
  ⟨[0xe3, 0x81, 0x86], [0x9b]⟩,
  ⟨[0xe3, 0x81, 0x87], [0x9c]⟩,
  ⟨[0xe3, 0x81, 0x88], [0x9d]⟩,
  ⟨[0xe3, 0x81, 0x89], [0x9e]⟩,
  ⟨[0xe3, 0x81, 0x8a], [0x9f]⟩,
  ⟨[0xe3, 0x81, 0x8b], [0xa0]⟩,
  ⟨[0xe3, 0x81, 0x8d], [0xa1]⟩,
  ⟨[0xe3, 0x81, 0x8f], [0xa2]⟩,
  ⟨[0xe3, 0x81, 0x91], [0xa3]⟩,
  ⟨[0xe3, 0x81, 0x93], [0xa4]⟩,
  ⟨[0xe3, 0x81, 0x95], [0xa5]⟩,
  ⟨[0xe3, 0x81, 0x97], [0xa6]⟩,
  ⟨[0xe3, 0x81, 0x99], [0xa7]⟩,
  ⟨[0xe3, 0x81, 0x9b], [0xa8]⟩,
  ⟨[0xe3, 0x81, 0x9d], [0xa9]⟩,
  ⟨[0xe3, 0x81, 0x9f], [0xaa]⟩,
  ⟨[0xe3, 0x81, 0xa1], [0xab]⟩,
  ⟨[0xe3, 0x81, 0xa3], [0xac]⟩,
  ⟨[0xe3, 0x81, 0xa4], [0xad]⟩,
  ⟨[0xe3, 0x81, 0xa6], [0xae]⟩,
  ⟨[0xe3, 0x81, 0xa8], [0xaf]⟩,
  ⟨[0xe3, 0x81, 0xaa], [0xb0]⟩,
  ⟨[0xe3, 0x81, 0xab], [0xb1]⟩,
  ⟨[0xe3, 0x81, 0xac], [0xb2]⟩,
  ⟨[0xe3, 0x81, 0xad], [0xb3]⟩,
  ⟨[0xe3, 0x81, 0xae], [0xb4]⟩,
  ⟨[0xe3, 0x81, 0xaf], [0xb5]⟩,
  ⟨[0xe3, 0x81, 0xb2], [0xb6]⟩,
  ⟨[0xe3, 0x81, 0xb5], [0xb7]⟩,
  ⟨[0xe3, 0x81, 0xb8], [0xb8]⟩,
  ⟨[0xe3, 0x81, 0xbb], [0xb9]⟩,
  ⟨[0xe3, 0x81, 0xbe], [0xba]⟩,
  ⟨[0xe3, 0x81, 0xbf], [0xbb]⟩,
  ⟨[0xe3, 0x82, 0x80], [0xbc]⟩,
  ⟨[0xe3, 0x82, 0x81], [0xbd]⟩,
  ⟨[0xe3, 0x82, 0x82], [0xbe]⟩,
  ⟨[0xe3, 0x82, 0x83], [0xbf]⟩,
  ⟨[0xe3, 0x82, 0x84], [0xc0]⟩,
  ⟨[0xe3, 0x82, 0x85], [0xc1]⟩,
  ⟨[0xe3, 0x82, 0x86], [0xc2]⟩,
  ⟨[0xe3, 0x82, 0x87], [0xc3]⟩,
  ⟨[0xe3, 0x82, 0x88], [0xc4]⟩,
  ⟨[0xe3, 0x82, 0x89], [0xc5]⟩,
  ⟨[0xe3, 0x82, 0x8a], [0xc6]⟩,
  ⟨[0xe3, 0x82, 0x8b], [0xc7]⟩,
  ⟨[0xe3, 0x82, 0x8c], [0xc8]⟩,
  ⟨[0xe3, 0x82, 0x8d], [0xc9]⟩,
  ⟨[0xe3, 0x82, 0x8e], [0xca]⟩,
  ⟨[0xe3, 0x82, 0x8f], [0xcb]⟩,
  ⟨[0xe3, 0x82, 0x92], [0xcc]⟩,
  ⟨[0xe3, 0x82, 0x93], [0xcd]⟩,
  ⟨[0xe3, 0x82, 0xa1], [0xce]⟩,
  ⟨[0xe3, 0x82, 0xa2], [0xcf]⟩,
  ⟨[0xe3, 0x82, 0xa3], [0xd0]⟩,
  ⟨[0xe3, 0x82, 0xa4], [0xd1]⟩,
  ⟨[0xe3, 0x82, 0xa5], [0xd2]⟩,
  ⟨[0xe3, 0x82, 0xa6], [0xd3]⟩
]

/-- Entries 120-179 of `s_encode_info_jak1` (split to keep list literals small). -/
def s_encode_info_jak1_part2 : List EncodeInfo := [
  ⟨[0xe3, 0x82, 0xa7], [0xd4]⟩,
  ⟨[0xe3, 0x82, 0xa8], [0xd5]⟩,
  ⟨[0xe3, 0x82, 0xa9], [0xd6]⟩,
  ⟨[0xe3, 0x82, 0xaa], [0xd7]⟩,
  ⟨[0xe3, 0x82, 0xab], [0xd8]⟩,
  ⟨[0xe3, 0x82, 0xad], [0xd9]⟩,
  ⟨[0xe3, 0x82, 0xaf], [0xda]⟩,
  ⟨[0xe3, 0x82, 0xb1], [0xdb]⟩,
  ⟨[0xe3, 0x82, 0xb3], [0xdc]⟩,
  ⟨[0xe3, 0x82, 0xb5], [0xdd]⟩,
  ⟨[0xe3, 0x82, 0xb7], [0xde]⟩,
  ⟨[0xe3, 0x82, 0xb9], [0xdf]⟩,
  ⟨[0xe3, 0x82, 0xbb], [0xe0]⟩,
  ⟨[0xe3, 0x82, 0xbd], [0xe1]⟩,
  ⟨[0xe3, 0x82, 0xbf], [0xe2]⟩,
  ⟨[0xe3, 0x83, 0x81], [0xe3]⟩,
  ⟨[0xe3, 0x83, 0x83], [0xe4]⟩,
  ⟨[0xe3, 0x83, 0x84], [0xe5]⟩,
  ⟨[0xe3, 0x83, 0x86], [0xe6]⟩,
  ⟨[0xe3, 0x83, 0x88], [0xe7]⟩,
  ⟨[0xe3, 0x83, 0x8a], [0xe8]⟩,
  ⟨[0xe3, 0x83, 0x8b], [0xe9]⟩,
  ⟨[0xe3, 0x83, 0x8c], [0xea]⟩,
  ⟨[0xe3, 0x83, 0x8d], [0xeb]⟩,
  ⟨[0xe3, 0x83, 0x8e], [0xec]⟩,
  ⟨[0xe3, 0x83, 0x8f], [0xed]⟩,
  ⟨[0xe3, 0x83, 0x92], [0xee]⟩,
  ⟨[0xe3, 0x83, 0x95], [0xef]⟩,
  ⟨[0xe3, 0x83, 0x98], [0xf0]⟩,
  ⟨[0xe3, 0x83, 0x9b], [0xf1]⟩,
  ⟨[0xe3, 0x83, 0x9e], [0xf2]⟩,
  ⟨[0xe3, 0x83, 0x9f], [0xf3]⟩,
  ⟨[0xe3, 0x83, 0xa0], [0xf4]⟩,
  ⟨[0xe3, 0x83, 0xa1], [0xf5]⟩,
  ⟨[0xe3, 0x83, 0xa2], [0xf6]⟩,
  ⟨[0xe3, 0x83, 0xa3], [0xf7]⟩,
  ⟨[0xe3, 0x83, 0xa4], [0xf8]⟩,
  ⟨[0xe3, 0x83, 0xa5], [0xf9]⟩,
  ⟨[0xe3, 0x83, 0xa6], [0xfa]⟩,
  ⟨[0xe3, 0x83, 0xa7], [0xfb]⟩,
  ⟨[0xe3, 0x83, 0xa8], [0xfc]⟩,
  ⟨[0xe3, 0x83, 0xa9], [0xfd]⟩,
  ⟨[0xe3, 0x83, 0xaa], [0xfe]⟩,
  ⟨[0xe3, 0x83, 0xab], [0xff]⟩,
  ⟨[0xe5, 0xae, 0x9d], [0x01, 0x01]⟩,
  ⟨[0xe7, 0x9f, 0xb3], [0x01, 0x10]⟩,
  ⟨[0xe8, 0xb5, 0xa4], [0x01, 0x11]⟩,
  ⟨[0xe8, 0xb7, 0xa1], [0x01, 0x12]⟩,
  ⟨[0xe5, 0xb7, 0x9d], [0x01, 0x13]⟩,
  ⟨[0xe6, 0x88, 0xa6], [0x01, 0x14]⟩,
  ⟨[0xe6, 0x9d, 0x91], [0x01, 0x15]⟩,
  ⟨[0xe9, 0x9a, 0x8a], [0x01, 0x16]⟩,
  ⟨[0xe5, 0x8f, 0xb0], [0x01, 0x17]⟩,
  ⟨[0xe9, 0x95, 0xb7], [0x01, 0x18]⟩,
  ⟨[0xe9, 0xb3, 0xa5], [0x01, 0x19]⟩,
  ⟨[0xe8, 0x89, 0x87], [0x01, 0x1a]⟩,
  ⟨[0xe6, 0xb4, 0x9e], [0x01, 0x1b]⟩,
  ⟨[0xe9, 0x81, 0x93], [0x01, 0x1c]⟩,
  ⟨[0xe7, 0x99, 0xba], [0x01, 0x1d]⟩,
  ⟨[0xe9, 0xa3, 0x9b], [0x01, 0x1e]⟩
]

/-- Entries 180-198 of `s_encode_info_jak1` (split to keep list literals small). -/
def s_encode_info_jak1_part3 : List EncodeInfo := [
  ⟨[0xe5, 0x99, 0xb4], [0x01, 0x1f]⟩,
  ⟨[0xe6, 0xb1, 0xa0], [0x01, 0xa0]⟩,
  ⟨[0xe4, 0xb8, 0xad], [0x01, 0xa1]⟩,
  ⟨[0xe5, 0xa1, 0x94], [0x01, 0xa2]⟩,
  ⟨[0xe5, 0xb3, 0xb6], [0x01, 0xa3]⟩,
  ⟨[0xe9, 0x83, 0xa8], [0x01, 0xa4]⟩,
  ⟨[0xe7, 0xa0, 0xb2], [0x01, 0xa5]⟩,
  ⟨[0xe7, 0x94, 0xa3], [0x01, 0xa6]⟩,
  ⟨[0xe7, 0x9c, 0xb7], [0x01, 0xa7]⟩,
  ⟨[0xe5, 0x8a, 0x9b], [0x01, 0xa8]⟩,
  ⟨[0xe7, 0xb7, 0x91], [0x01, 0xa9]⟩,
  ⟨[0xe5, 0xb2, 0xb8], [0x01, 0xaa]⟩,
  ⟨[0xe5, 0x83, 0x8f], [0x01, 0xab]⟩,
  ⟨[0xe8, 0xb0, 0xb7], [0x01, 0xac]⟩,
  ⟨[0xe5, 0xbf, 0x83], [0x01, 0xad]⟩,
  ⟨[0xe6, 0xa3, 0xae], [0x01, 0xae]⟩,
  ⟨[0xe6, 0xb0, 0xb4], [0x01, 0xaf]⟩,
  ⟨[0xe8, 0x88, 0xb9], [0x01, 0xb0]⟩,
  ⟨[0xe2, 0x84, 0xa2], [0x01, 0xb1]⟩
]

/-- The `s_encode_info_jak1` table of `FontUtils.cpp`, with each
UTF-8 character string expanded to its byte list. -/
def s_encode_info_jak1 : List EncodeInfo :=
  s_encode_info_jak1_part0 ++ s_encode_info_jak1_part1 ++ s_encode_info_jak1_part2 ++ s_encode_info_jak1_part3

/-- Entries 0-59 of `s_replace_info_jak1` (split to keep list literals small). -/
def s_replace_info_jak1_part0 : List ReplaceInfo := [
  ⟨[0x41, 0x7e, 0x59, 0x7e, 0x2d, 0x32, 0x31, 0x48, 0x7e, 0x2d, 0x35, 0x56, 0xc2, 0xba, 0x7e, 0x5a], [0xc3, 0x85]⟩,
  ⟨[0x4e, 0x7e, 0x59, 0x7e, 0x2d, 0x36, 0x48, 0xc2, 0xba, 0x7e, 0x5a, 0x7e, 0x2b, 0x31, 0x30, 0x48], [0x4e, 0xc2, 0xba]⟩,
  ⟨[0x4f, 0x7e, 0x59, 0x7e, 0x2d, 0x31, 0x36, 0x48, 0x7e, 0x2d, 0x31, 0x56, 0x2f, 0x7e, 0x5a], [0xc3, 0x98]⟩,
  ⟨[0x41, 0x7e, 0x59, 0x7e, 0x2d, 0x36, 0x48, 0x7e, 0x2b, 0x33, 0x56, 0x2c, 0x7e, 0x5a], [0xc4, 0x84]⟩,
  ⟨[0x45, 0x7e, 0x59, 0x7e, 0x2d, 0x36, 0x48, 0x7e, 0x2b, 0x32, 0x56, 0x2c, 0x7e, 0x5a], [0xc4, 0x98]⟩,
  ⟨[0x4c, 0x7e, 0x59, 0x7e, 0x2d, 0x31, 0x36, 0x48, 0x7e, 0x2b, 0x30, 0x56, 0x2f, 0x7e, 0x5a], [0xc5, 0x81]⟩,
  ⟨[0x5a, 0x7e, 0x59, 0x7e, 0x2d, 0x32, 0x31, 0x48, 0x7e, 0x2d, 0x35, 0x56, 0xc2, 0xba, 0x7e, 0x5a], [0xc5, 0xbb]⟩,
  ⟨[0x4e, 0x7e, 0x59, 0x7e, 0x2d, 0x32, 0x32, 0x48, 0x7e, 0x2d, 0x34, 0x56, 0x3c, 0x54, 0x49, 0x4c, 0x3e, 0x7e, 0x5a], [0xc3, 0x91]⟩,
  ⟨[0x41, 0x7e, 0x59, 0x7e, 0x2d, 0x32, 0x31, 0x48, 0x7e, 0x2d, 0x35, 0x56, 0x3c, 0x54, 0x49, 0x4c, 0x3e, 0x7e, 0x5a], [0xc3, 0x83]⟩,
  ⟨[0x4f, 0x7e, 0x59, 0x7e, 0x2d, 0x32, 0x32, 0x48, 0x7e, 0x2d, 0x34, 0x56, 0x3c, 0x54, 0x49, 0x4c, 0x3e, 0x7e, 0x5a], [0xc3, 0x95]⟩,
  ⟨[0x41, 0x7e, 0x59, 0x7e, 0x2d, 0x32, 0x31, 0x48, 0x7e, 0x2d, 0x35, 0x56, 0x27, 0x7e, 0x5a], [0xc3, 0x81]⟩,
  ⟨[0x45, 0x7e, 0x59, 0x7e, 0x2d, 0x32, 0x32, 0x48, 0x7e, 0x2d, 0x35, 0x56, 0x27, 0x7e, 0x5a], [0xc3, 0x89]⟩,
  ⟨[0x49, 0x7e, 0x59, 0x7e, 0x2d, 0x31, 0x39, 0x48, 0x7e, 0x2d, 0x35, 0x56, 0x27, 0x7e, 0x5a], [0xc3, 0x8d]⟩,
  ⟨[0x4f, 0x7e, 0x59, 0x7e, 0x2d, 0x32, 0x32, 0x48, 0x7e, 0x2d, 0x34, 0x56, 0x27, 0x7e, 0x5a], [0xc3, 0x93]⟩,
  ⟨[0x55, 0x7e, 0x59, 0x7e, 0x2d, 0x32, 0x34, 0x48, 0x7e, 0x2d, 0x33, 0x56, 0x27, 0x7e, 0x5a], [0xc3, 0x9a]⟩,
  ⟨[0x43, 0x7e, 0x59, 0x7e, 0x2d, 0x32, 0x31, 0x48, 0x7e, 0x2d, 0x35, 0x56, 0x27, 0x7e, 0x5a], [0xc4, 0x86]⟩,
  ⟨[0x4e, 0x7e, 0x59, 0x7e, 0x2d, 0x32, 0x31, 0x48, 0x7e, 0x2d, 0x35, 0x56, 0x27, 0x7e, 0x5a], [0xc5, 0x83]⟩,
  ⟨[0x53, 0x7e, 0x59, 0x7e, 0x2d, 0x32, 0x31, 0x48, 0x7e, 0x2d, 0x35, 0x56, 0x27, 0x7e, 0x5a], [0xc5, 0x9a]⟩,
  ⟨[0x5a, 0x7e, 0x59, 0x7e, 0x2d, 0x32, 0x31, 0x48, 0x7e, 0x2d, 0x35, 0x56, 0x27, 0x7e, 0x5a], [0xc5, 0xb9]⟩,
  ⟨[0x4f, 0x7e, 0x59, 0x7e, 0x2d, 0x32, 0x38, 0x48, 0x7e, 0x2d, 0x34, 0x56, 0x27, 0x7e, 0x2d, 0x39, 0x48, 0x27, 0x7e, 0x5a], [0xc5, 0x90]⟩,
  ⟨[0x55, 0x7e, 0x59, 0x7e, 0x2d, 0x32, 0x37, 0x48, 0x7e, 0x2d, 0x34, 0x56, 0x27, 0x7e, 0x2d, 0x31, 0x32, 0x48, 0x27, 0x7e, 0x5a], [0xc5, 0xb0]⟩,
  ⟨[0x41, 0x7e, 0x59, 0x7e, 0x2d, 0x32, 0x30, 0x48, 0x7e, 0x2d, 0x34, 0x56, 0x5e, 0x7e, 0x5a], [0xc3, 0x82]⟩,
  ⟨[0x45, 0x7e, 0x59, 0x7e, 0x2d, 0x32, 0x30, 0x48, 0x7e, 0x2d, 0x35, 0x56, 0x5e, 0x7e, 0x5a], [0xc3, 0x8a]⟩,
  ⟨[0x49, 0x7e, 0x59, 0x7e, 0x2d, 0x31, 0x39, 0x48, 0x7e, 0x2d, 0x35, 0x56, 0x5e, 0x7e, 0x5a], [0xc3, 0x8e]⟩,
  ⟨[0x4f, 0x7e, 0x59, 0x7e, 0x2d, 0x32, 0x30, 0x48, 0x7e, 0x2d, 0x34, 0x56, 0x5e, 0x7e, 0x5a], [0xc3, 0x94]⟩,
  ⟨[0x55, 0x7e, 0x59, 0x7e, 0x2d, 0x32, 0x34, 0x48, 0x7e, 0x2d, 0x33, 0x56, 0x5e, 0x7e, 0x5a], [0xc3, 0x9b]⟩,
  ⟨[0x41, 0x7e, 0x59, 0x7e, 0x2d, 0x32, 0x31, 0x48, 0x7e, 0x2d, 0x35, 0x56, 0x60, 0x7e, 0x5a], [0xc3, 0x80]⟩,
  ⟨[0x45, 0x7e, 0x59, 0x7e, 0x2d, 0x32, 0x32, 0x48, 0x7e, 0x2d, 0x35, 0x56, 0x60, 0x7e, 0x5a], [0xc3, 0x88]⟩,
  ⟨[0x49, 0x7e, 0x59, 0x7e, 0x2d, 0x31, 0x39, 0x48, 0x7e, 0x2d, 0x35, 0x56, 0x60, 0x7e, 0x5a], [0xc3, 0x8c]⟩,
  ⟨[0x4f, 0x7e, 0x59, 0x7e, 0x2d, 0x32, 0x32, 0x48, 0x7e, 0x2d, 0x34, 0x56, 0x60, 0x7e, 0x5a], [0xc3, 0x92]⟩,
  ⟨[0x55, 0x7e, 0x59, 0x7e, 0x2d, 0x32, 0x34, 0x48, 0x7e, 0x2d, 0x33, 0x56, 0x60, 0x7e, 0x5a], [0xc3, 0x99]⟩,
  ⟨[0x41, 0x7e, 0x59, 0x7e, 0x2d, 0x32, 0x31, 0x48, 0x7e, 0x2d, 0x35, 0x56, 0xc2, 0xa8, 0x7e, 0x5a], [0xc3, 0x84]⟩,
  ⟨[0x45, 0x7e, 0x59, 0x7e, 0x2d, 0x32, 0x30, 0x48, 0x7e, 0x2d, 0x35, 0x56, 0xc2, 0xa8, 0x7e, 0x5a], [0xc3, 0x8b]⟩,
  ⟨[0x49, 0x7e, 0x59, 0x7e, 0x2d, 0x31, 0x39, 0x48, 0x7e, 0x2d, 0x35, 0x56, 0xc2, 0xa8, 0x7e, 0x5a], [0xc3, 0x8f]⟩,
  ⟨[0x4f, 0x7e, 0x59, 0x7e, 0x2d, 0x32, 0x32, 0x48, 0x7e, 0x2d, 0x34, 0x56, 0xc2, 0xa8, 0x7e, 0x5a], [0xc3, 0x96]⟩,
  ⟨[0x4f, 0x7e, 0x59, 0x7e, 0x2d, 0x32, 0x32, 0x48, 0x7e, 0x2d, 0x33, 0x56, 0xc2, 0xa8, 0x7e, 0x5a], [0xc3, 0xb6]⟩,
  ⟨[0x55, 0x7e, 0x59, 0x7e, 0x2d, 0x32, 0x32, 0x48, 0x7e, 0x2d, 0x33, 0x56, 0xc2, 0xa8, 0x7e, 0x5a], [0xc3, 0x9c]⟩,
  ⟨[0x7e, 0x59, 0xe3, 0x82, 0xa6, 0x7e, 0x5a, 0xe3, 0x82, 0x9b], [0xe3, 0x83, 0xb4]⟩,
  ⟨[0x7e, 0x59, 0xe3, 0x82, 0xab, 0x7e, 0x5a, 0xe3, 0x82, 0x9b], [0xe3, 0x82, 0xac]⟩,
  ⟨[0x7e, 0x59, 0xe3, 0x82, 0xad, 0x7e, 0x5a, 0xe3, 0x82, 0x9b], [0xe3, 0x82, 0xae]⟩,
  ⟨[0x7e, 0x59, 0xe3, 0x82, 0xaf, 0x7e, 0x5a, 0xe3, 0x82, 0x9b], [0xe3, 0x82, 0xb0]⟩,
  ⟨[0x7e, 0x59, 0xe3, 0x82, 0xb1, 0x7e, 0x5a, 0xe3, 0x82, 0x9b], [0xe3, 0x82, 0xb2]⟩,
  ⟨[0x7e, 0x59, 0xe3, 0x82, 0xb3, 0x7e, 0x5a, 0xe3, 0x82, 0x9b], [0xe3, 0x82, 0xb4]⟩,
  ⟨[0x7e, 0x59, 0xe3, 0x82, 0xb5, 0x7e, 0x5a, 0xe3, 0x82, 0x9b], [0xe3, 0x82, 0xb6]⟩,
  ⟨[0x7e, 0x59, 0xe3, 0x82, 0xb7, 0x7e, 0x5a, 0xe3, 0x82, 0x9b], [0xe3, 0x82, 0xb8]⟩,
  ⟨[0x7e, 0x59, 0xe3, 0x82, 0xb9, 0x7e, 0x5a, 0xe3, 0x82, 0x9b], [0xe3, 0x82, 0xba]⟩,
  ⟨[0x7e, 0x59, 0xe3, 0x82, 0xbb, 0x7e, 0x5a, 0xe3, 0x82, 0x9b], [0xe3, 0x82, 0xbc]⟩,
  ⟨[0x7e, 0x59, 0xe3, 0x82, 0xbd, 0x7e, 0x5a, 0xe3, 0x82, 0x9b], [0xe3, 0x82, 0xbe]⟩,
  ⟨[0x7e, 0x59, 0xe3, 0x82, 0xbf, 0x7e, 0x5a, 0xe3, 0x82, 0x9b], [0xe3, 0x83, 0x80]⟩,
  ⟨[0x7e, 0x59, 0xe3, 0x83, 0x81, 0x7e, 0x5a, 0xe3, 0x82, 0x9b], [0xe3, 0x83, 0x82]⟩,
  ⟨[0x7e, 0x59, 0xe3, 0x83, 0x84, 0x7e, 0x5a, 0xe3, 0x82, 0x9b], [0xe3, 0x83, 0x85]⟩,
  ⟨[0x7e, 0x59, 0xe3, 0x83, 0x86, 0x7e, 0x5a, 0xe3, 0x82, 0x9b], [0xe3, 0x83, 0x87]⟩,
  ⟨[0x7e, 0x59, 0xe3, 0x83, 0x88, 0x7e, 0x5a, 0xe3, 0x82, 0x9b], [0xe3, 0x83, 0x89]⟩,
  ⟨[0x7e, 0x59, 0xe3, 0x83, 0x8f, 0x7e, 0x5a, 0xe3, 0x82, 0x9b], [0xe3, 0x83, 0x90]⟩,
  ⟨[0x7e, 0x59, 0xe3, 0x83, 0x92, 0x7e, 0x5a, 0xe3, 0x82, 0x9b], [0xe3, 0x83, 0x93]⟩,
  ⟨[0x7e, 0x59, 0xe3, 0x83, 0x95, 0x7e, 0x5a, 0xe3, 0x82, 0x9b], [0xe3, 0x83, 0x96]⟩,
  ⟨[0x7e, 0x59, 0xe3, 0x83, 0x98, 0x7e, 0x5a, 0xe3, 0x82, 0x9b], [0xe3, 0x83, 0x99]⟩,
  ⟨[0x7e, 0x59, 0xe3, 0x83, 0x9b, 0x7e, 0x5a, 0xe3, 0x82, 0x9b], [0xe3, 0x83, 0x9c]⟩,
  ⟨[0x7e, 0x59, 0xe3, 0x83, 0x8f, 0x7e, 0x5a, 0xe3, 0x82, 0x9c], [0xe3, 0x83, 0x91]⟩,
  ⟨[0x7e, 0x59, 0xe3, 0x83, 0x92, 0x7e, 0x5a, 0xe3, 0x82, 0x9c], [0xe3, 0x83, 0x94]⟩
]

/-- Entries 60-94 of `s_replace_info_jak1` (split to keep list literals small). -/
def s_replace_info_jak1_part1 : List ReplaceInfo := [
  ⟨[0x7e, 0x59, 0xe3, 0x83, 0x95, 0x7e, 0x5a, 0xe3, 0x82, 0x9c], [0xe3, 0x83, 0x97]⟩,
  ⟨[0x7e, 0x59, 0xe3, 0x83, 0x98, 0x7e, 0x5a, 0xe3, 0x82, 0x9c], [0xe3, 0x83, 0x9a]⟩,
  ⟨[0x7e, 0x59, 0xe3, 0x83, 0x9b, 0x7e, 0x5a, 0xe3, 0x82, 0x9c], [0xe3, 0x83, 0x9d]⟩,
  ⟨[0x7e, 0x59, 0xe3, 0x81, 0x8b, 0x7e, 0x5a, 0xe3, 0x82, 0x9b], [0xe3, 0x81, 0x8c]⟩,
  ⟨[0x7e, 0x59, 0xe3, 0x81, 0x8d, 0x7e, 0x5a, 0xe3, 0x82, 0x9b], [0xe3, 0x81, 0x8e]⟩,
  ⟨[0x7e, 0x59, 0xe3, 0x81, 0x8f, 0x7e, 0x5a, 0xe3, 0x82, 0x9b], [0xe3, 0x81, 0x90]⟩,
  ⟨[0x7e, 0x59, 0xe3, 0x81, 0x91, 0x7e, 0x5a, 0xe3, 0x82, 0x9b], [0xe3, 0x81, 0x92]⟩,
  ⟨[0x7e, 0x59, 0xe3, 0x81, 0x93, 0x7e, 0x5a, 0xe3, 0x82, 0x9b], [0xe3, 0x81, 0x94]⟩,
  ⟨[0x7e, 0x59, 0xe3, 0x81, 0x95, 0x7e, 0x5a, 0xe3, 0x82, 0x9b], [0xe3, 0x81, 0x96]⟩,
  ⟨[0x7e, 0x59, 0xe3, 0x81, 0x97, 0x7e, 0x5a, 0xe3, 0x82, 0x9b], [0xe3, 0x81, 0x98]⟩,
  ⟨[0x7e, 0x59, 0xe3, 0x81, 0x99, 0x7e, 0x5a, 0xe3, 0x82, 0x9b], [0xe3, 0x81, 0x9a]⟩,
  ⟨[0x7e, 0x59, 0xe3, 0x81, 0x9b, 0x7e, 0x5a, 0xe3, 0x82, 0x9b], [0xe3, 0x81, 0x9c]⟩,
  ⟨[0x7e, 0x59, 0xe3, 0x81, 0x9d, 0x7e, 0x5a, 0xe3, 0x82, 0x9b], [0xe3, 0x81, 0x9e]⟩,
  ⟨[0x7e, 0x59, 0xe3, 0x81, 0x9f, 0x7e, 0x5a, 0xe3, 0x82, 0x9b], [0xe3, 0x81, 0xa0]⟩,
  ⟨[0x7e, 0x59, 0xe3, 0x81, 0xa1, 0x7e, 0x5a, 0xe3, 0x82, 0x9b], [0xe3, 0x81, 0xa2]⟩,
  ⟨[0x7e, 0x59, 0xe3, 0x81, 0xa4, 0x7e, 0x5a, 0xe3, 0x82, 0x9b], [0xe3, 0x81, 0xa5]⟩,
  ⟨[0x7e, 0x59, 0xe3, 0x81, 0xa6, 0x7e, 0x5a, 0xe3, 0x82, 0x9b], [0xe3, 0x81, 0xa7]⟩,
  ⟨[0x7e, 0x59, 0xe3, 0x81, 0xa8, 0x7e, 0x5a, 0xe3, 0x82, 0x9b], [0xe3, 0x81, 0xa9]⟩,
  ⟨[0x7e, 0x59, 0xe3, 0x81, 0xaf, 0x7e, 0x5a, 0xe3, 0x82, 0x9b], [0xe3, 0x81, 0xb0]⟩,
  ⟨[0x7e, 0x59, 0xe3, 0x81, 0xb2, 0x7e, 0x5a, 0xe3, 0x82, 0x9b], [0xe3, 0x81, 0xb3]⟩,
  ⟨[0x7e, 0x59, 0xe3, 0x81, 0xb5, 0x7e, 0x5a, 0xe3, 0x82, 0x9b], [0xe3, 0x81, 0xb6]⟩,
  ⟨[0x7e, 0x59, 0xe3, 0x81, 0xb8, 0x7e, 0x5a, 0xe3, 0x82, 0x9b], [0xe3, 0x81, 0xb9]⟩,
  ⟨[0x7e, 0x59, 0xe3, 0x81, 0xbb, 0x7e, 0x5a, 0xe3, 0x82, 0x9b], [0xe3, 0x81, 0xbc]⟩,
  ⟨[0x7e, 0x59, 0xe3, 0x81, 0xaf, 0x7e, 0x5a, 0xe3, 0x82, 0x9c], [0xe3, 0x81, 0xb1]⟩,
  ⟨[0x7e, 0x59, 0xe3, 0x81, 0xb2, 0x7e, 0x5a, 0xe3, 0x82, 0x9c], [0xe3, 0x81, 0xb4]⟩,
  ⟨[0x7e, 0x59, 0xe3, 0x81, 0xb5, 0x7e, 0x5a, 0xe3, 0x82, 0x9c], [0xe3, 0x81, 0xb7]⟩,
  ⟨[0x7e, 0x59, 0xe3, 0x81, 0xb8, 0x7e, 0x5a, 0xe3, 0x82, 0x9c], [0xe3, 0x81, 0xba]⟩,
  ⟨[0x7e, 0x59, 0xe3, 0x81, 0xbb, 0x7e, 0x5a, 0xe3, 0x82, 0x9c], [0xe3, 0x81, 0xbd]⟩,
  ⟨[0x2c, 0x7e, 0x2b, 0x38, 0x48], [0xe3, 0x80, 0x81]⟩,
  ⟨[0x7e, 0x2b, 0x38, 0x48, 0x20], [0xe3, 0x80, 0x80]⟩,
  ⟨[0x7e, 0x7e], [0xe4, 0xb8, 0x96]⟩,
  ⟨[0x7e, 0x59, 0x7e, 0x32, 0x32, 0x4c, 0x3c, 0x7e, 0x5a, 0x7e, 0x59, 0x7e, 0x32, 0x37, 0x4c, 0x2a, 0x7e, 0x5a, 0x7e, 0x59, 0x7e, 0x31, 0x4c, 0x3e, 0x7e, 0x5a, 0x7e, 0x59, 0x7e, 0x32, 0x33, 0x4c, 0x5b, 0x7e, 0x5a, 0x7e, 0x2b, 0x32, 0x36, 0x48], [0x3c, 0x50, 0x41, 0x44, 0x5f, 0x58, 0x3e]⟩,
  ⟨[0x7e, 0x59, 0x7e, 0x32, 0x32, 0x4c, 0x3c, 0x7e, 0x5a, 0x7e, 0x59, 0x7e, 0x32, 0x36, 0x4c, 0x3b, 0x7e, 0x5a, 0x7e, 0x59, 0x7e, 0x31, 0x4c, 0x3e, 0x7e, 0x5a, 0x7e, 0x59, 0x7e, 0x32, 0x33, 0x4c, 0x5b, 0x7e, 0x5a, 0x7e, 0x2b, 0x32, 0x36, 0x48], [0x3c, 0x50, 0x41, 0x44, 0x5f, 0x54, 0x52, 0x49, 0x41, 0x4e, 0x47, 0x4c, 0x45, 0x3e]⟩,
  ⟨[0x7e, 0x59, 0x7e, 0x32, 0x32, 0x4c, 0x3c, 0x7e, 0x5a, 0x7e, 0x59, 0x7e, 0x32, 0x35, 0x4c, 0x40, 0x7e, 0x5a, 0x7e, 0x59, 0x7e, 0x31, 0x4c, 0x3e, 0x7e, 0x5a, 0x7e, 0x59, 0x7e, 0x32, 0x33, 0x4c, 0x5b, 0x7e, 0x5a, 0x7e, 0x2b, 0x32, 0x36, 0x48], [0x3c, 0x50, 0x41, 0x44, 0x5f, 0x43, 0x49, 0x52, 0x43, 0x4c, 0x45, 0x3e]⟩,
  ⟨[0x7e, 0x59, 0x7e, 0x32, 0x32, 0x4c, 0x3c, 0x7e, 0x5a, 0x7e, 0x59, 0x7e, 0x32, 0x34, 0x4c, 0x23, 0x7e, 0x5a, 0x7e, 0x59, 0x7e, 0x31, 0x4c, 0x3e, 0x7e, 0x5a, 0x7e, 0x59, 0x7e, 0x32, 0x33, 0x4c, 0x5b, 0x7e, 0x5a, 0x7e, 0x2b, 0x32, 0x36, 0x48], [0x3c, 0x50, 0x41, 0x44, 0x5f, 0x53, 0x51, 0x55, 0x41, 0x52, 0x45, 0x3e]⟩
]

/-- The `s_replace_info_jak1` table of `FontUtils.cpp` (encoded substring,
display substring), as byte lists. -/
def s_replace_info_jak1 : List ReplaceInfo :=
  s_replace_info_jak1_part0 ++ s_replace_info_jak1_part1

/-- Entries 0-59 of `s_encode_info_jak1_v2` (split to keep list literals small). -/
def s_encode_info_jak1_v2_part0 : List EncodeInfo := [
  ⟨[0x5f], [0x03]⟩,
  ⟨[0xcb, 0x87], [0x10]⟩,
  ⟨[0x60], [0x11]⟩,
  ⟨[0x27], [0x12]⟩,
  ⟨[0x5e], [0x13]⟩,
  ⟨[0x3c, 0x54, 0x49, 0x4c, 0x3e], [0x14]⟩,
  ⟨[0xc2, 0xa8], [0x15]⟩,
  ⟨[0xc2, 0xba], [0x16]⟩,
  ⟨[0xc2, 0xa1], [0x17]⟩,
  ⟨[0xc2, 0xbf], [0x18]⟩,
  ⟨[0xe6, 0xb5, 0xb7], [0x1a]⟩,
  ⟨[0xc3, 0x86], [0x1b]⟩,
  ⟨[0xe7, 0x95, 0x8c], [0x1c]⟩,
  ⟨[0xc3, 0x87], [0x1d]⟩,
  ⟨[0xe5, 0xad, 0xa6], [0x1e]⟩,
  ⟨[0xc3, 0x9f], [0x1f]⟩,
  ⟨[0xe3, 0x83, 0xaf], [0x24]⟩,
  ⟨[0xe3, 0x83, 0xb2], [0x26]⟩,
  ⟨[0xe3, 0x83, 0xb3], [0x27]⟩,
  ⟨[0xe5, 0xb2, 0xa9], [0x5c]⟩,
  ⟨[0xe6, 0x97, 0xa7], [0x5d]⟩,
  ⟨[0xe7, 0xa9, 0xba], [0x5e]⟩,
  ⟨[0xe6, 0x8e, 0x98], [0x5f]⟩,
  ⟨[0xe3, 0x83, 0xae], [0x60]⟩,
  ⟨[0xe6, 0x92, 0x83], [0x61]⟩,
  ⟨[0xe8, 0xb3, 0xa2], [0x62]⟩,
  ⟨[0xe6, 0xb9, 0x96], [0x63]⟩,
  ⟨[0xe5, 0x8f, 0xa3], [0x64]⟩,
  ⟨[0xe8, 0xa1, 0x8c], [0x65]⟩,
  ⟨[0xe5, 0x90, 0x88], [0x66]⟩,
  ⟨[0xe5, 0xa3, 0xab], [0x67]⟩,
  ⟨[0xe5, 0xaf, 0xba], [0x68]⟩,
  ⟨[0xe5, 0xb1, 0xb1], [0x69]⟩,
  ⟨[0xe8, 0x80, 0x85], [0x6a]⟩,
  ⟨[0xe6, 0x89, 0x80], [0x6b]⟩,
  ⟨[0xe6, 0x9b, 0xb8], [0x6c]⟩,
  ⟨[0xe5, 0xb0, 0x8f], [0x6d]⟩,
  ⟨[0xe6, 0xb2, 0xbc], [0x6e]⟩,
  ⟨[0xe4, 0xb8, 0x8a], [0x6f]⟩,
  ⟨[0xe5, 0x9f, 0x8e], [0x70]⟩,
  ⟨[0xe5, 0xa0, 0xb4], [0x71]⟩,
  ⟨[0xe5, 0x87, 0xba], [0x72]⟩,
  ⟨[0xe9, 0x97, 0x87], [0x73]⟩,
  ⟨[0xe9, 0x81, 0xba], [0x74]⟩,
  ⟨[0xe9, 0xbb, 0x84], [0x75]⟩,
  ⟨[0xe5, 0xb1, 0x8b], [0x76]⟩,
  ⟨[0xe4, 0xb8, 0x8b], [0x77]⟩,
  ⟨[0xe5, 0xae, 0xb6], [0x78]⟩,
  ⟨[0xe7, 0x81, 0xab], [0x79]⟩,
  ⟨[0xe8, 0x8a, 0xb1], [0x7a]⟩,
  ⟨[0xe3, 0x83, 0xac], [0x7b]⟩,
  ⟨[0xc5, 0x92], [0x7c]⟩,
  ⟨[0xe3, 0x83, 0xad], [0x7d]⟩,
  ⟨[0xe9, 0x9d, 0x92], [0x7f]⟩,
  ⟨[0xe3, 0x83, 0xbb], [0x90]⟩,
  ⟨[0xe3, 0x82, 0x9b], [0x91]⟩,
  ⟨[0xe3, 0x82, 0x9c], [0x92]⟩,
  ⟨[0xe3, 0x83, 0xbc], [0x93]⟩,
  ⟨[0xe3, 0x80, 0x8e], [0x94]⟩,
  ⟨[0xe3, 0x80, 0x8f], [0x95]⟩
]

/-- Entries 60-119 of `s_encode_info_jak1_v2` (split to keep list literals small). -/
def s_encode_info_jak1_v2_part1 : List EncodeInfo := [
  ⟨[0xe3, 0x81, 0x81], [0x96]⟩,
  ⟨[0xe3, 0x81, 0x82], [0x97]⟩,
  ⟨[0xe3, 0x81, 0x83], [0x98]⟩,
  ⟨[0xe3, 0x81, 0x84], [0x99]⟩,
  ⟨[0xe3, 0x81, 0x85], [0x9a]⟩,
  ⟨[0xe3, 0x81, 0x86], [0x9b]⟩,
  ⟨[0xe3, 0x81, 0x87], [0x9c]⟩,
  ⟨[0xe3, 0x81, 0x88], [0x9d]⟩,
  ⟨[0xe3, 0x81, 0x89], [0x9e]⟩,
  ⟨[0xe3, 0x81, 0x8a], [0x9f]⟩,
  ⟨[0xe3, 0x81, 0x8b], [0xa0]⟩,
  ⟨[0xe3, 0x81, 0x8d], [0xa1]⟩,
  ⟨[0xe3, 0x81, 0x8f], [0xa2]⟩,
  ⟨[0xe3, 0x81, 0x91], [0xa3]⟩,
  ⟨[0xe3, 0x81, 0x93], [0xa4]⟩,
  ⟨[0xe3, 0x81, 0x95], [0xa5]⟩,
  ⟨[0xe3, 0x81, 0x97], [0xa6]⟩,
  ⟨[0xe3, 0x81, 0x99], [0xa7]⟩,
  ⟨[0xe3, 0x81, 0x9b], [0xa8]⟩,
  ⟨[0xe3, 0x81, 0x9d], [0xa9]⟩,
  ⟨[0xe3, 0x81, 0x9f], [0xaa]⟩,
  ⟨[0xe3, 0x81, 0xa1], [0xab]⟩,
  ⟨[0xe3, 0x81, 0xa3], [0xac]⟩,
  ⟨[0xe3, 0x81, 0xa4], [0xad]⟩,
  ⟨[0xe3, 0x81, 0xa6], [0xae]⟩,
  ⟨[0xe3, 0x81, 0xa8], [0xaf]⟩,
  ⟨[0xe3, 0x81, 0xaa], [0xb0]⟩,
  ⟨[0xe3, 0x81, 0xab], [0xb1]⟩,
  ⟨[0xe3, 0x81, 0xac], [0xb2]⟩,
  ⟨[0xe3, 0x81, 0xad], [0xb3]⟩,
  ⟨[0xe3, 0x81, 0xae], [0xb4]⟩,
  ⟨[0xe3, 0x81, 0xaf], [0xb5]⟩,
  ⟨[0xe3, 0x81, 0xb2], [0xb6]⟩,
  ⟨[0xe3, 0x81, 0xb5], [0xb7]⟩,
  ⟨[0xe3, 0x81, 0xb8], [0xb8]⟩,
  ⟨[0xe3, 0x81, 0xbb], [0xb9]⟩,
  ⟨[0xe3, 0x81, 0xbe], [0xba]⟩,
  ⟨[0xe3, 0x81, 0xbf], [0xbb]⟩,
  ⟨[0xe3, 0x82, 0x80], [0xbc]⟩,
  ⟨[0xe3, 0x82, 0x81], [0xbd]⟩,
  ⟨[0xe3, 0x82, 0x82], [0xbe]⟩,
  ⟨[0xe3, 0x82, 0x83], [0xbf]⟩,
  ⟨[0xe3, 0x82, 0x84], [0xc0]⟩,
  ⟨[0xe3, 0x82, 0x85], [0xc1]⟩,
  ⟨[0xe3, 0x82, 0x86], [0xc2]⟩,
  ⟨[0xe3, 0x82, 0x87], [0xc3]⟩,
  ⟨[0xe3, 0x82, 0x88], [0xc4]⟩,
  ⟨[0xe3, 0x82, 0x89], [0xc5]⟩,
  ⟨[0xe3, 0x82, 0x8a], [0xc6]⟩,
  ⟨[0xe3, 0x82, 0x8b], [0xc7]⟩,
  ⟨[0xe3, 0x82, 0x8c], [0xc8]⟩,
  ⟨[0xe3, 0x82, 0x8d], [0xc9]⟩,
  ⟨[0xe3, 0x82, 0x8e], [0xca]⟩,
  ⟨[0xe3, 0x82, 0x8f], [0xcb]⟩,
  ⟨[0xe3, 0x82, 0x92], [0xcc]⟩,
  ⟨[0xe3, 0x82, 0x93], [0xcd]⟩,
  ⟨[0xe3, 0x82, 0xa1], [0xce]⟩,
  ⟨[0xe3, 0x82, 0xa2], [0xcf]⟩,
  ⟨[0xe3, 0x82, 0xa3], [0xd0]⟩,
  ⟨[0xe3, 0x82, 0xa4], [0xd1]⟩
]

/-- Entries 120-179 of `s_encode_info_jak1_v2` (split to keep list literals small). -/
def s_encode_info_jak1_v2_part2 : List EncodeInfo := [
  ⟨[0xe3, 0x82, 0xa5], [0xd2]⟩,
  ⟨[0xe3, 0x82, 0xa6], [0xd3]⟩,
  ⟨[0xe3, 0x82, 0xa7], [0xd4]⟩,
  ⟨[0xe3, 0x82, 0xa8], [0xd5]⟩,
  ⟨[0xe3, 0x82, 0xa9], [0xd6]⟩,
  ⟨[0xe3, 0x82, 0xaa], [0xd7]⟩,
  ⟨[0xe3, 0x82, 0xab], [0xd8]⟩,
  ⟨[0xe3, 0x82, 0xad], [0xd9]⟩,
  ⟨[0xe3, 0x82, 0xaf], [0xda]⟩,
  ⟨[0xe3, 0x82, 0xb1], [0xdb]⟩,
  ⟨[0xe3, 0x82, 0xb3], [0xdc]⟩,
  ⟨[0xe3, 0x82, 0xb5], [0xdd]⟩,
  ⟨[0xe3, 0x82, 0xb7], [0xde]⟩,
  ⟨[0xe3, 0x82, 0xb9], [0xdf]⟩,
  ⟨[0xe3, 0x82, 0xbb], [0xe0]⟩,
  ⟨[0xe3, 0x82, 0xbd], [0xe1]⟩,
  ⟨[0xe3, 0x82, 0xbf], [0xe2]⟩,
  ⟨[0xe3, 0x83, 0x81], [0xe3]⟩,
  ⟨[0xe3, 0x83, 0x83], [0xe4]⟩,
  ⟨[0xe3, 0x83, 0x84], [0xe5]⟩,
  ⟨[0xe3, 0x83, 0x86], [0xe6]⟩,
  ⟨[0xe3, 0x83, 0x88], [0xe7]⟩,
  ⟨[0xe3, 0x83, 0x8a], [0xe8]⟩,
  ⟨[0xe3, 0x83, 0x8b], [0xe9]⟩,
  ⟨[0xe3, 0x83, 0x8c], [0xea]⟩,
  ⟨[0xe3, 0x83, 0x8d], [0xeb]⟩,
  ⟨[0xe3, 0x83, 0x8e], [0xec]⟩,
  ⟨[0xe3, 0x83, 0x8f], [0xed]⟩,
  ⟨[0xe3, 0x83, 0x92], [0xee]⟩,
  ⟨[0xe3, 0x83, 0x95], [0xef]⟩,
  ⟨[0xe3, 0x83, 0x98], [0xf0]⟩,
  ⟨[0xe3, 0x83, 0x9b], [0xf1]⟩,
  ⟨[0xe3, 0x83, 0x9e], [0xf2]⟩,
  ⟨[0xe3, 0x83, 0x9f], [0xf3]⟩,
  ⟨[0xe3, 0x83, 0xa0], [0xf4]⟩,
  ⟨[0xe3, 0x83, 0xa1], [0xf5]⟩,
  ⟨[0xe3, 0x83, 0xa2], [0xf6]⟩,
  ⟨[0xe3, 0x83, 0xa3], [0xf7]⟩,
  ⟨[0xe3, 0x83, 0xa4], [0xf8]⟩,
  ⟨[0xe3, 0x83, 0xa5], [0xf9]⟩,
  ⟨[0xe3, 0x83, 0xa6], [0xfa]⟩,
  ⟨[0xe3, 0x83, 0xa7], [0xfb]⟩,
  ⟨[0xe3, 0x83, 0xa8], [0xfc]⟩,
  ⟨[0xe3, 0x83, 0xa9], [0xfd]⟩,
  ⟨[0xe3, 0x83, 0xaa], [0xfe]⟩,
  ⟨[0xe3, 0x83, 0xab], [0xff]⟩,
  ⟨[0xe5, 0xae, 0x9d], [0x01, 0x01]⟩,
  ⟨[0xe7, 0x9f, 0xb3], [0x01, 0x10]⟩,
  ⟨[0xe8, 0xb5, 0xa4], [0x01, 0x11]⟩,
  ⟨[0xe8, 0xb7, 0xa1], [0x01, 0x12]⟩,
  ⟨[0xe5, 0xb7, 0x9d], [0x01, 0x13]⟩,
  ⟨[0xe6, 0x88, 0xa6], [0x01, 0x14]⟩,
  ⟨[0xe6, 0x9d, 0x91], [0x01, 0x15]⟩,
  ⟨[0xe9, 0x9a, 0x8a], [0x01, 0x16]⟩,
  ⟨[0xe5, 0x8f, 0xb0], [0x01, 0x17]⟩,
  ⟨[0xe9, 0x95, 0xb7], [0x01, 0x18]⟩,
  ⟨[0xe9, 0xb3, 0xa5], [0x01, 0x19]⟩,
  ⟨[0xe8, 0x89, 0x87], [0x01, 0x1a]⟩,
  ⟨[0xe6, 0xb4, 0x9e], [0x01, 0x1b]⟩,
  ⟨[0xe9, 0x81, 0x93], [0x01, 0x1c]⟩
]

/-- Entries 180-200 of `s_encode_info_jak1_v2` (split to keep list literals small). -/
def s_encode_info_jak1_v2_part3 : List EncodeInfo := [
  ⟨[0xe7, 0x99, 0xba], [0x01, 0x1d]⟩,
  ⟨[0xe9, 0xa3, 0x9b], [0x01, 0x1e]⟩,
  ⟨[0xe5, 0x99, 0xb4], [0x01, 0x1f]⟩,
  ⟨[0xe6, 0xb1, 0xa0], [0x01, 0xa0]⟩,
  ⟨[0xe4, 0xb8, 0xad], [0x01, 0xa1]⟩,
  ⟨[0xe5, 0xa1, 0x94], [0x01, 0xa2]⟩,
  ⟨[0xe5, 0xb3, 0xb6], [0x01, 0xa3]⟩,
  ⟨[0xe9, 0x83, 0xa8], [0x01, 0xa4]⟩,
  ⟨[0xe7, 0xa0, 0xb2], [0x01, 0xa5]⟩,
  ⟨[0xe7, 0x94, 0xa3], [0x01, 0xa6]⟩,
  ⟨[0xe7, 0x9c, 0xb7], [0x01, 0xa7]⟩,
  ⟨[0xe5, 0x8a, 0x9b], [0x01, 0xa8]⟩,
  ⟨[0xe7, 0xb7, 0x91], [0x01, 0xa9]⟩,
  ⟨[0xe5, 0xb2, 0xb8], [0x01, 0xaa]⟩,
  ⟨[0xe5, 0x83, 0x8f], [0x01, 0xab]⟩,
  ⟨[0xe8, 0xb0, 0xb7], [0x01, 0xac]⟩,
  ⟨[0xe5, 0xbf, 0x83], [0x01, 0xad]⟩,
  ⟨[0xe6, 0xa3, 0xae], [0x01, 0xae]⟩,
  ⟨[0xe6, 0xb0, 0xb4], [0x01, 0xaf]⟩,
  ⟨[0xe8, 0x88, 0xb9], [0x01, 0xb0]⟩,
  ⟨[0xe2, 0x84, 0xa2], [0x01, 0xb1]⟩
]

/-- The `s_encode_info_jak1_v2` table of `FontUtils.cpp`, with each
UTF-8 character string expanded to its byte list. -/
def s_encode_info_jak1_v2 : List EncodeInfo :=
  s_encode_info_jak1_v2_part0 ++ s_encode_info_jak1_v2_part1 ++ s_encode_info_jak1_v2_part2 ++ s_encode_info_jak1_v2_part3

/-- Entries 0-59 of `s_replace_info_jak2` (split to keep list literals small). -/
def s_replace_info_jak2_part0 : List ReplaceInfo := [
  ⟨[0x41, 0x7e, 0x59, 0x7e, 0x2d, 0x32, 0x31, 0x48, 0x7e, 0x2d, 0x35, 0x56, 0xc2, 0xba, 0x7e, 0x5a], [0xc3, 0x85]⟩,
  ⟨[0x4e, 0x7e, 0x59, 0x7e, 0x2d, 0x36, 0x48, 0xc2, 0xba, 0x7e, 0x5a, 0x7e, 0x2b, 0x31, 0x30, 0x48], [0x4e, 0xc2, 0xba]⟩,
  ⟨[0x7e, 0x2b, 0x34, 0x56, 0xc3, 0xa7, 0x7e, 0x2d, 0x34, 0x56], [0x2c, 0x63]⟩,
  ⟨[0x4e, 0x7e, 0x59, 0x7e, 0x2d, 0x32, 0x32, 0x48, 0x7e, 0x2d, 0x34, 0x56, 0x3c, 0x54, 0x49, 0x4c, 0x3e, 0x7e, 0x5a], [0xc3, 0x91]⟩,
  ⟨[0x6e, 0x7e, 0x59, 0x7e, 0x2d, 0x32, 0x34, 0x48, 0x7e, 0x2d, 0x34, 0x56, 0x3c, 0x54, 0x49, 0x4c, 0x3e, 0x7e, 0x5a], [0xc3, 0xb1]⟩,
  ⟨[0x41, 0x7e, 0x59, 0x7e, 0x2d, 0x32, 0x31, 0x48, 0x7e, 0x2d, 0x35, 0x56, 0x3c, 0x54, 0x49, 0x4c, 0x3e, 0x7e, 0x5a], [0xc3, 0x83]⟩,
  ⟨[0x4f, 0x7e, 0x59, 0x7e, 0x2d, 0x32, 0x32, 0x48, 0x7e, 0x2d, 0x34, 0x56, 0x3c, 0x54, 0x49, 0x4c, 0x3e, 0x7e, 0x5a], [0xc3, 0x95]⟩,
  ⟨[0x41, 0x7e, 0x59, 0x7e, 0x2d, 0x32, 0x31, 0x48, 0x7e, 0x2d, 0x35, 0x56, 0x27, 0x7e, 0x5a], [0xc3, 0x81]⟩,
  ⟨[0x41, 0x7e, 0x59, 0x7e, 0x2d, 0x32, 0x36, 0x48, 0x7e, 0x2d, 0x38, 0x56, 0x27, 0x7e, 0x5a], [0x3c, 0xc3, 0x81, 0x5f, 0x56, 0x32, 0x3e]⟩,
  ⟨[0x61, 0x7e, 0x59, 0x7e, 0x2d, 0x32, 0x35, 0x48, 0x7e, 0x2d, 0x35, 0x56, 0x27, 0x7e, 0x5a], [0xc3, 0xa1]⟩,
  ⟨[0x45, 0x7e, 0x59, 0x7e, 0x2d, 0x32, 0x33, 0x48, 0x7e, 0x2d, 0x39, 0x56, 0x27, 0x7e, 0x5a], [0xc3, 0x89]⟩,
  ⟨[0x65, 0x7e, 0x59, 0x7e, 0x2d, 0x32, 0x36, 0x48, 0x7e, 0x2d, 0x35, 0x56, 0x27, 0x7e, 0x5a], [0xc3, 0xa9]⟩,
  ⟨[0x49, 0x7e, 0x59, 0x7e, 0x2d, 0x31, 0x39, 0x48, 0x7e, 0x2d, 0x35, 0x56, 0x27, 0x7e, 0x5a], [0xc3, 0x8d]⟩,
  ⟨[0x69, 0x7e, 0x59, 0x7e, 0x2d, 0x31, 0x39, 0x48, 0x7e, 0x2d, 0x38, 0x56, 0x27, 0x7e, 0x5a], [0xc3, 0xad]⟩,
  ⟨[0x4f, 0x7e, 0x59, 0x7e, 0x2d, 0x32, 0x32, 0x48, 0x7e, 0x2d, 0x34, 0x56, 0x27, 0x7e, 0x5a], [0xc3, 0x93]⟩,
  ⟨[0x6f, 0x7e, 0x59, 0x7e, 0x2d, 0x32, 0x36, 0x48, 0x7e, 0x2d, 0x34, 0x56, 0x27, 0x7e, 0x5a], [0xc3, 0xb3]⟩,
  ⟨[0x55, 0x7e, 0x59, 0x7e, 0x2d, 0x32, 0x34, 0x48, 0x7e, 0x2d, 0x33, 0x56, 0x27, 0x7e, 0x5a], [0xc3, 0x9a]⟩,
  ⟨[0x75, 0x7e, 0x59, 0x7e, 0x2d, 0x32, 0x34, 0x48, 0x7e, 0x2d, 0x33, 0x56, 0x27, 0x7e, 0x5a], [0xc3, 0xba]⟩,
  ⟨[0x41, 0x7e, 0x59, 0x7e, 0x2d, 0x32, 0x30, 0x48, 0x7e, 0x2d, 0x34, 0x56, 0x5e, 0x7e, 0x5a], [0xc3, 0x82]⟩,
  ⟨[0x61, 0x7e, 0x59, 0x7e, 0x2d, 0x32, 0x34, 0x48, 0x7e, 0x2d, 0x35, 0x56, 0x5e, 0x7e, 0x5a], [0xc3, 0xa2]⟩,
  ⟨[0x45, 0x7e, 0x59, 0x7e, 0x2d, 0x32, 0x30, 0x48, 0x7e, 0x2d, 0x35, 0x56, 0x5e, 0x7e, 0x5a], [0xc3, 0x8a]⟩,
  ⟨[0x65, 0x7e, 0x59, 0x7e, 0x2d, 0x32, 0x35, 0x48, 0x7e, 0x2d, 0x34, 0x56, 0x5e, 0x7e, 0x5a, 0x74], [0xc3, 0xaa]⟩,
  ⟨[0x49, 0x7e, 0x59, 0x7e, 0x2d, 0x31, 0x39, 0x48, 0x7e, 0x2d, 0x35, 0x56, 0x5e, 0x7e, 0x5a], [0xc3, 0x8e]⟩,
  ⟨[0x69, 0x7e, 0x59, 0x7e, 0x2d, 0x31, 0x39, 0x48, 0x7e, 0x2d, 0x38, 0x56, 0x5e, 0x7e, 0x5a], [0xc3, 0xae]⟩,
  ⟨[0x4f, 0x7e, 0x59, 0x7e, 0x2d, 0x32, 0x30, 0x48, 0x7e, 0x2d, 0x34, 0x56, 0x5e, 0x7e, 0x5a], [0xc3, 0x94]⟩,
  ⟨[0x6f, 0x7e, 0x59, 0x7e, 0x2d, 0x32, 0x35, 0x48, 0x7e, 0x2d, 0x34, 0x56, 0x5e, 0x7e, 0x5a], [0xc3, 0xb4]⟩,
  ⟨[0x55, 0x7e, 0x59, 0x7e, 0x2d, 0x32, 0x34, 0x48, 0x7e, 0x2d, 0x33, 0x56, 0x5e, 0x7e, 0x5a], [0xc3, 0x9b]⟩,
  ⟨[0x75, 0x7e, 0x59, 0x7e, 0x2d, 0x32, 0x33, 0x48, 0x7e, 0x2d, 0x33, 0x56, 0x5e, 0x7e, 0x5a], [0xc3, 0xbb]⟩,
  ⟨[0x41, 0x7e, 0x59, 0x7e, 0x2d, 0x32, 0x36, 0x48, 0x7e, 0x2d, 0x38, 0x56, 0x60, 0x7e, 0x5a], [0xc3, 0x80]⟩,
  ⟨[0x61, 0x7e, 0x59, 0x7e, 0x2d, 0x32, 0x35, 0x48, 0x7e, 0x2d, 0x35, 0x56, 0x60, 0x7e, 0x5a], [0xc3, 0xa0]⟩,
  ⟨[0x45, 0x7e, 0x59, 0x7e, 0x2d, 0x32, 0x33, 0x48, 0x7e, 0x2d, 0x39, 0x56, 0x60, 0x7e, 0x5a], [0xc3, 0x88]⟩,
  ⟨[0x65, 0x7e, 0x59, 0x7e, 0x2d, 0x32, 0x36, 0x48, 0x7e, 0x2d, 0x35, 0x56, 0x60, 0x7e, 0x5a], [0xc3, 0xa8]⟩,
  ⟨[0x49, 0x7e, 0x59, 0x7e, 0x2d, 0x31, 0x39, 0x48, 0x7e, 0x2d, 0x35, 0x56, 0x60, 0x7e, 0x5a], [0xc3, 0x8c]⟩,
  ⟨[0x69, 0x7e, 0x59, 0x7e, 0x2d, 0x31, 0x39, 0x48, 0x7e, 0x2d, 0x38, 0x56, 0x60, 0x7e, 0x5a], [0xc3, 0xac]⟩,
  ⟨[0x4f, 0x7e, 0x59, 0x7e, 0x2d, 0x32, 0x32, 0x48, 0x7e, 0x2d, 0x34, 0x56, 0x60, 0x7e, 0x5a], [0xc3, 0x92]⟩,
  ⟨[0x6f, 0x7e, 0x59, 0x7e, 0x2d, 0x32, 0x36, 0x48, 0x7e, 0x2d, 0x34, 0x56, 0x60, 0x7e, 0x5a], [0xc3, 0xb2]⟩,
  ⟨[0x55, 0x7e, 0x59, 0x7e, 0x2d, 0x32, 0x34, 0x48, 0x7e, 0x2d, 0x33, 0x56, 0x60, 0x7e, 0x5a], [0xc3, 0x99]⟩,
  ⟨[0x75, 0x7e, 0x59, 0x7e, 0x2d, 0x32, 0x34, 0x48, 0x7e, 0x2d, 0x33, 0x56, 0x60, 0x7e, 0x5a], [0xc3, 0xb9]⟩,
  ⟨[0x41, 0x7e, 0x59, 0x7e, 0x2d, 0x32, 0x36, 0x48, 0x7e, 0x2d, 0x38, 0x56, 0xc2, 0xa8, 0x7e, 0x5a], [0xc3, 0x84]⟩,
  ⟨[0x61, 0x7e, 0x59, 0x7e, 0x2d, 0x32, 0x35, 0x48, 0x7e, 0x2d, 0x35, 0x56, 0xc2, 0xa8, 0x7e, 0x5a], [0xc3, 0xa4]⟩,
  ⟨[0x45, 0x7e, 0x59, 0x7e, 0x2d, 0x32, 0x30, 0x48, 0x7e, 0x2d, 0x35, 0x56, 0xc2, 0xa8, 0x7e, 0x5a], [0xc3, 0x8b]⟩,
  ⟨[0x49, 0x7e, 0x59, 0x7e, 0x2d, 0x31, 0x39, 0x48, 0x7e, 0x2d, 0x35, 0x56, 0xc2, 0xa8, 0x7e, 0x5a], [0xc3, 0x8f]⟩,
  ⟨[0x4f, 0x7e, 0x59, 0x7e, 0x2d, 0x32, 0x36, 0x48, 0x7e, 0x2d, 0x38, 0x56, 0xc2, 0xa8, 0x7e, 0x5a], [0xc3, 0x96]⟩,
  ⟨[0x6f, 0x7e, 0x59, 0x7e, 0x2d, 0x32, 0x36, 0x48, 0x7e, 0x2d, 0x34, 0x56, 0xc2, 0xa8, 0x7e, 0x5a], [0xc3, 0xb6]⟩,
  ⟨[0x55, 0x7e, 0x59, 0x7e, 0x2d, 0x32, 0x35, 0x48, 0x7e, 0x2d, 0x38, 0x56, 0xc2, 0xa8, 0x7e, 0x5a], [0xc3, 0x9c]⟩,
  ⟨[0x75, 0x7e, 0x59, 0x7e, 0x2d, 0x32, 0x34, 0x48, 0x7e, 0x2d, 0x33, 0x56, 0xc2, 0xa8, 0x7e, 0x5a], [0xc3, 0xbc]⟩,
  ⟨[0x7e, 0x59, 0xe3, 0x82, 0xa6, 0x7e, 0x5a, 0xe3, 0x82, 0x9b], [0xe3, 0x83, 0xb4]⟩,
  ⟨[0x7e, 0x59, 0xe3, 0x82, 0xab, 0x7e, 0x5a, 0xe3, 0x82, 0x9b], [0xe3, 0x82, 0xac]⟩,
  ⟨[0x7e, 0x59, 0xe3, 0x82, 0xad, 0x7e, 0x5a, 0xe3, 0x82, 0x9b], [0xe3, 0x82, 0xae]⟩,
  ⟨[0x7e, 0x59, 0xe3, 0x82, 0xaf, 0x7e, 0x5a, 0xe3, 0x82, 0x9b], [0xe3, 0x82, 0xb0]⟩,
  ⟨[0x7e, 0x59, 0xe3, 0x82, 0xb1, 0x7e, 0x5a, 0xe3, 0x82, 0x9b], [0xe3, 0x82, 0xb2]⟩,
  ⟨[0x7e, 0x59, 0xe3, 0x82, 0xb3, 0x7e, 0x5a, 0xe3, 0x82, 0x9b], [0xe3, 0x82, 0xb4]⟩,
  ⟨[0x7e, 0x59, 0xe3, 0x82, 0xb5, 0x7e, 0x5a, 0xe3, 0x82, 0x9b], [0xe3, 0x82, 0xb6]⟩,
  ⟨[0x7e, 0x59, 0xe3, 0x82, 0xb7, 0x7e, 0x5a, 0xe3, 0x82, 0x9b], [0xe3, 0x82, 0xb8]⟩,
  ⟨[0x7e, 0x59, 0xe3, 0x82, 0xb9, 0x7e, 0x5a, 0xe3, 0x82, 0x9b], [0xe3, 0x82, 0xba]⟩,
  ⟨[0x7e, 0x59, 0xe3, 0x82, 0xbb, 0x7e, 0x5a, 0xe3, 0x82, 0x9b], [0xe3, 0x82, 0xbc]⟩,
  ⟨[0x7e, 0x59, 0xe3, 0x82, 0xbd, 0x7e, 0x5a, 0xe3, 0x82, 0x9b], [0xe3, 0x82, 0xbe]⟩,
  ⟨[0x7e, 0x59, 0xe3, 0x82, 0xbf, 0x7e, 0x5a, 0xe3, 0x82, 0x9b], [0xe3, 0x83, 0x80]⟩,
  ⟨[0x7e, 0x59, 0xe3, 0x83, 0x81, 0x7e, 0x5a, 0xe3, 0x82, 0x9b], [0xe3, 0x83, 0x82]⟩,
  ⟨[0x7e, 0x59, 0xe3, 0x83, 0x84, 0x7e, 0x5a, 0xe3, 0x82, 0x9b], [0xe3, 0x83, 0x85]⟩
]

/-- Entries 60-119 of `s_replace_info_jak2` (split to keep list literals small). -/
def s_replace_info_jak2_part1 : List ReplaceInfo := [
  ⟨[0x7e, 0x59, 0xe3, 0x83, 0x86, 0x7e, 0x5a, 0xe3, 0x82, 0x9b], [0xe3, 0x83, 0x87]⟩,
  ⟨[0x7e, 0x59, 0xe3, 0x83, 0x88, 0x7e, 0x5a, 0xe3, 0x82, 0x9b], [0xe3, 0x83, 0x89]⟩,
  ⟨[0x7e, 0x59, 0xe3, 0x83, 0x8f, 0x7e, 0x5a, 0xe3, 0x82, 0x9b], [0xe3, 0x83, 0x90]⟩,
  ⟨[0x7e, 0x59, 0xe3, 0x83, 0x92, 0x7e, 0x5a, 0xe3, 0x82, 0x9b], [0xe3, 0x83, 0x93]⟩,
  ⟨[0x7e, 0x59, 0xe3, 0x83, 0x95, 0x7e, 0x5a, 0xe3, 0x82, 0x9b], [0xe3, 0x83, 0x96]⟩,
  ⟨[0x7e, 0x59, 0xe3, 0x83, 0x98, 0x7e, 0x5a, 0xe3, 0x82, 0x9b], [0xe3, 0x83, 0x99]⟩,
  ⟨[0x7e, 0x59, 0xe3, 0x83, 0x9b, 0x7e, 0x5a, 0xe3, 0x82, 0x9b], [0xe3, 0x83, 0x9c]⟩,
  ⟨[0x7e, 0x59, 0xe3, 0x83, 0x8f, 0x7e, 0x5a, 0xe3, 0x82, 0x9c], [0xe3, 0x83, 0x91]⟩,
  ⟨[0x7e, 0x59, 0xe3, 0x83, 0x92, 0x7e, 0x5a, 0xe3, 0x82, 0x9c], [0xe3, 0x83, 0x94]⟩,
  ⟨[0x7e, 0x59, 0xe3, 0x83, 0x95, 0x7e, 0x5a, 0xe3, 0x82, 0x9c], [0xe3, 0x83, 0x97]⟩,
  ⟨[0x7e, 0x59, 0xe3, 0x83, 0x98, 0x7e, 0x5a, 0xe3, 0x82, 0x9c], [0xe3, 0x83, 0x9a]⟩,
  ⟨[0x7e, 0x59, 0xe3, 0x83, 0x9b, 0x7e, 0x5a, 0xe3, 0x82, 0x9c], [0xe3, 0x83, 0x9d]⟩,
  ⟨[0x7e, 0x59, 0xe3, 0x81, 0x8b, 0x7e, 0x5a, 0xe3, 0x82, 0x9b], [0xe3, 0x81, 0x8c]⟩,
  ⟨[0x7e, 0x59, 0xe3, 0x81, 0x8d, 0x7e, 0x5a, 0xe3, 0x82, 0x9b], [0xe3, 0x81, 0x8e]⟩,
  ⟨[0x7e, 0x59, 0xe3, 0x81, 0x8f, 0x7e, 0x5a, 0xe3, 0x82, 0x9b], [0xe3, 0x81, 0x90]⟩,
  ⟨[0x7e, 0x59, 0xe3, 0x81, 0x91, 0x7e, 0x5a, 0xe3, 0x82, 0x9b], [0xe3, 0x81, 0x92]⟩,
  ⟨[0x7e, 0x59, 0xe3, 0x81, 0x93, 0x7e, 0x5a, 0xe3, 0x82, 0x9b], [0xe3, 0x81, 0x94]⟩,
  ⟨[0x7e, 0x59, 0xe3, 0x81, 0x95, 0x7e, 0x5a, 0xe3, 0x82, 0x9b], [0xe3, 0x81, 0x96]⟩,
  ⟨[0x7e, 0x59, 0xe3, 0x81, 0x97, 0x7e, 0x5a, 0xe3, 0x82, 0x9b], [0xe3, 0x81, 0x98]⟩,
  ⟨[0x7e, 0x59, 0xe3, 0x81, 0x99, 0x7e, 0x5a, 0xe3, 0x82, 0x9b], [0xe3, 0x81, 0x9a]⟩,
  ⟨[0x7e, 0x59, 0xe3, 0x81, 0x9b, 0x7e, 0x5a, 0xe3, 0x82, 0x9b], [0xe3, 0x81, 0x9c]⟩,
  ⟨[0x7e, 0x59, 0xe3, 0x81, 0x9d, 0x7e, 0x5a, 0xe3, 0x82, 0x9b], [0xe3, 0x81, 0x9e]⟩,
  ⟨[0x7e, 0x59, 0xe3, 0x81, 0x9f, 0x7e, 0x5a, 0xe3, 0x82, 0x9b], [0xe3, 0x81, 0xa0]⟩,
  ⟨[0x7e, 0x59, 0xe3, 0x81, 0xa1, 0x7e, 0x5a, 0xe3, 0x82, 0x9b], [0xe3, 0x81, 0xa2]⟩,
  ⟨[0x7e, 0x59, 0xe3, 0x81, 0xa4, 0x7e, 0x5a, 0xe3, 0x82, 0x9b], [0xe3, 0x81, 0xa5]⟩,
  ⟨[0x7e, 0x59, 0xe3, 0x81, 0xa6, 0x7e, 0x5a, 0xe3, 0x82, 0x9b], [0xe3, 0x81, 0xa7]⟩,
  ⟨[0x7e, 0x59, 0xe3, 0x81, 0xa8, 0x7e, 0x5a, 0xe3, 0x82, 0x9b], [0xe3, 0x81, 0xa9]⟩,
  ⟨[0x7e, 0x59, 0xe3, 0x81, 0xaf, 0x7e, 0x5a, 0xe3, 0x82, 0x9b], [0xe3, 0x81, 0xb0]⟩,
  ⟨[0x7e, 0x59, 0xe3, 0x81, 0xb2, 0x7e, 0x5a, 0xe3, 0x82, 0x9b], [0xe3, 0x81, 0xb3]⟩,
  ⟨[0x7e, 0x59, 0xe3, 0x81, 0xb5, 0x7e, 0x5a, 0xe3, 0x82, 0x9b], [0xe3, 0x81, 0xb6]⟩,
  ⟨[0x7e, 0x59, 0xe3, 0x81, 0xb8, 0x7e, 0x5a, 0xe3, 0x82, 0x9b], [0xe3, 0x81, 0xb9]⟩,
  ⟨[0x7e, 0x59, 0xe3, 0x81, 0xbb, 0x7e, 0x5a, 0xe3, 0x82, 0x9b], [0xe3, 0x81, 0xbc]⟩,
  ⟨[0x7e, 0x59, 0xe3, 0x81, 0xaf, 0x7e, 0x5a, 0xe3, 0x82, 0x9c], [0xe3, 0x81, 0xb1]⟩,
  ⟨[0x7e, 0x59, 0xe3, 0x81, 0xb2, 0x7e, 0x5a, 0xe3, 0x82, 0x9c], [0xe3, 0x81, 0xb4]⟩,
  ⟨[0x7e, 0x59, 0xe3, 0x81, 0xb5, 0x7e, 0x5a, 0xe3, 0x82, 0x9c], [0xe3, 0x81, 0xb7]⟩,
  ⟨[0x7e, 0x59, 0xe3, 0x81, 0xb8, 0x7e, 0x5a, 0xe3, 0x82, 0x9c], [0xe3, 0x81, 0xba]⟩,
  ⟨[0x7e, 0x59, 0xe3, 0x81, 0xbb, 0x7e, 0x5a, 0xe3, 0x82, 0x9c], [0xe3, 0x81, 0xbd]⟩,
  ⟨[0x2c, 0x7e, 0x2b, 0x38, 0x48], [0xe3, 0x80, 0x81]⟩,
  ⟨[0x7e, 0x2b, 0x38, 0x48, 0x20], [0xe3, 0x80, 0x80]⟩,
  ⟨[0x7e, 0x59, 0x7e, 0x32, 0x32, 0x4c, 0x3c, 0x7e, 0x5a, 0x7e, 0x59, 0x7e, 0x32, 0x37, 0x4c, 0x2a, 0x7e, 0x5a, 0x7e, 0x59, 0x7e, 0x31, 0x4c, 0x3e, 0x7e, 0x5a, 0x7e, 0x59, 0x7e, 0x32, 0x33, 0x4c, 0x5b, 0x7e, 0x5a, 0x7e, 0x2b, 0x32, 0x36, 0x48], [0x3c, 0x50, 0x41, 0x44, 0x5f, 0x58, 0x3e]⟩,
  ⟨[0x7e, 0x59, 0x7e, 0x32, 0x32, 0x4c, 0x3c, 0x7e, 0x5a, 0x7e, 0x59, 0x7e, 0x32, 0x36, 0x4c, 0x3b, 0x7e, 0x5a, 0x7e, 0x59, 0x7e, 0x31, 0x4c, 0x3e, 0x7e, 0x5a, 0x7e, 0x59, 0x7e, 0x32, 0x33, 0x4c, 0x5b, 0x7e, 0x5a, 0x7e, 0x2b, 0x32, 0x36, 0x48], [0x3c, 0x50, 0x41, 0x44, 0x5f, 0x54, 0x52, 0x49, 0x41, 0x4e, 0x47, 0x4c, 0x45, 0x3e]⟩,
  ⟨[0x7e, 0x59, 0x7e, 0x32, 0x32, 0x4c, 0x3c, 0x7e, 0x5a, 0x7e, 0x59, 0x7e, 0x32, 0x35, 0x4c, 0x40, 0x7e, 0x5a, 0x7e, 0x59, 0x7e, 0x31, 0x4c, 0x3e, 0x7e, 0x5a, 0x7e, 0x59, 0x7e, 0x32, 0x33, 0x4c, 0x5b, 0x7e, 0x5a, 0x7e, 0x2b, 0x32, 0x36, 0x48], [0x3c, 0x50, 0x41, 0x44, 0x5f, 0x43, 0x49, 0x52, 0x43, 0x4c, 0x45, 0x3e]⟩,
  ⟨[0x7e, 0x59, 0x7e, 0x32, 0x32, 0x4c, 0x3c, 0x7e, 0x5a, 0x7e, 0x59, 0x7e, 0x32, 0x34, 0x4c, 0x23, 0x7e, 0x5a, 0x7e, 0x59, 0x7e, 0x31, 0x4c, 0x3e, 0x7e, 0x5a, 0x7e, 0x59, 0x7e, 0x32, 0x33, 0x4c, 0x5b, 0x7e, 0x5a, 0x7e, 0x2b, 0x32, 0x36, 0x48], [0x3c, 0x50, 0x41, 0x44, 0x5f, 0x53, 0x51, 0x55, 0x41, 0x52, 0x45, 0x3e]⟩,
  ⟨[0x7e, 0x59, 0x7e, 0x32, 0x32, 0x4c, 0x3c, 0x50, 0x41, 0x44, 0x5f, 0x50, 0x41, 0x52, 0x54, 0x5f, 0x44, 0x50, 0x41, 0x44, 0x5f, 0x4c, 0x3e, 0x7e, 0x5a, 0x7e, 0x33, 0x4c, 0x7e, 0x2b, 0x31, 0x37, 0x48, 0x7e, 0x2d, 0x31, 0x33, 0x56, 0x3c, 0x50, 0x41, 0x44, 0x5f, 0x50, 0x41, 0x52, 0x54, 0x5f, 0x44, 0x50, 0x41, 0x44, 0x5f, 0x55, 0x3e, 0x7e, 0x5a, 0x7e, 0x32, 0x32, 0x4c, 0x7e, 0x2b, 0x31, 0x37, 0x48, 0x7e, 0x2b, 0x31, 0x34, 0x56, 0x3c, 0x50, 0x41, 0x44, 0x5f, 0x50, 0x41, 0x52, 0x54, 0x5f, 0x44, 0x50, 0x41, 0x44, 0x5f, 0x44, 0x3e, 0x7e, 0x5a, 0x7e, 0x32, 0x32, 0x4c, 0x7e, 0x2b, 0x33, 0x32, 0x48, 0x3c, 0x50, 0x41, 0x44, 0x5f, 0x50, 0x41, 0x52, 0x54, 0x5f, 0x44, 0x50, 0x41, 0x44, 0x5f, 0x52, 0x3e, 0x7e, 0x5a, 0x7e, 0x2b, 0x35, 0x36, 0x48], [0x3c, 0x50, 0x41, 0x44, 0x5f, 0x44, 0x50, 0x41, 0x44, 0x5f, 0x55, 0x50, 0x3e]⟩,
  ⟨[0x7e, 0x59, 0x7e, 0x32, 0x32, 0x4c, 0x3c, 0x50, 0x41, 0x44, 0x5f, 0x50, 0x41, 0x52, 0x54, 0x5f, 0x44, 0x50, 0x41, 0x44, 0x5f, 0x4c, 0x3e, 0x7e, 0x5a, 0x7e, 0x33, 0x4c, 0x7e, 0x2b, 0x31, 0x37, 0x48, 0x7e, 0x2d, 0x31, 0x33, 0x56, 0x3c, 0x50, 0x41, 0x44, 0x5f, 0x50, 0x41, 0x52, 0x54, 0x5f, 0x44, 0x50, 0x41, 0x44, 0x5f, 0x55, 0x3e, 0x7e, 0x5a, 0x7e, 0x33, 0x4c, 0x7e, 0x2b, 0x31, 0x37, 0x48, 0x7e, 0x2b, 0x31, 0x34, 0x56, 0x3c, 0x50, 0x41, 0x44, 0x5f, 0x50, 0x41, 0x52, 0x54, 0x5f, 0x44, 0x50, 0x41, 0x44, 0x5f, 0x44, 0x3e, 0x7e, 0x5a, 0x7e, 0x32, 0x32, 0x4c, 0x7e, 0x2b, 0x33, 0x32, 0x48, 0x3c, 0x50, 0x41, 0x44, 0x5f, 0x50, 0x41, 0x52, 0x54, 0x5f, 0x44, 0x50, 0x41, 0x44, 0x5f, 0x52, 0x3e, 0x7e, 0x5a, 0x7e, 0x2b, 0x35, 0x36, 0x48], [0x3c, 0x50, 0x41, 0x44, 0x5f, 0x44, 0x50, 0x41, 0x44, 0x5f, 0x44, 0x4f, 0x57, 0x4e, 0x3e]⟩,
  ⟨[0x7e, 0x59, 0x7e, 0x32, 0x32, 0x4c, 0x3c, 0x50, 0x41, 0x44, 0x5f, 0x50, 0x41, 0x52, 0x54, 0x5f, 0x44, 0x50, 0x41, 0x44, 0x5f, 0x4c, 0x3e, 0x7e, 0x5a, 0x7e, 0x32, 0x32, 0x4c, 0x7e, 0x2b, 0x31, 0x37, 0x48, 0x7e, 0x2d, 0x31, 0x33, 0x56, 0x3c, 0x50, 0x41, 0x44, 0x5f, 0x50, 0x41, 0x52, 0x54, 0x5f, 0x44, 0x50, 0x41, 0x44, 0x5f, 0x55, 0x3e, 0x7e, 0x5a, 0x7e, 0x32, 0x32, 0x4c, 0x7e, 0x2b, 0x31, 0x37, 0x48, 0x7e, 0x2b, 0x31, 0x34, 0x56, 0x3c, 0x50, 0x41, 0x44, 0x5f, 0x50, 0x41, 0x52, 0x54, 0x5f, 0x44, 0x50, 0x41, 0x44, 0x5f, 0x44, 0x3e, 0x7e, 0x5a, 0x7e, 0x32, 0x32, 0x4c, 0x7e, 0x2b, 0x33, 0x32, 0x48, 0x3c, 0x50, 0x41, 0x44, 0x5f, 0x50, 0x41, 0x52, 0x54, 0x5f, 0x44, 0x50, 0x41, 0x44, 0x5f, 0x52, 0x3e, 0x7e, 0x5a, 0x7e, 0x2b, 0x35, 0x36, 0x48], [0x3c, 0x50, 0x41, 0x44, 0x5f, 0x44, 0x50, 0x41, 0x44, 0x5f, 0x41, 0x4e, 0x59, 0x3e]⟩,
  ⟨[0x7e, 0x59, 0x7e, 0x32, 0x32, 0x4c, 0x7e, 0x2d, 0x32, 0x48, 0x7e, 0x2d, 0x31, 0x32, 0x56, 0x3c, 0x50, 0x41, 0x44, 0x5f, 0x50, 0x41, 0x52, 0x54, 0x5f, 0x53, 0x48, 0x4f, 0x55, 0x4c, 0x44, 0x45, 0x52, 0x5f, 0x54, 0x4f, 0x50, 0x5f, 0x4c, 0x45, 0x46, 0x54, 0x3e, 0x3c, 0x50, 0x41, 0x44, 0x5f, 0x50, 0x41, 0x52, 0x54, 0x5f, 0x53, 0x48, 0x4f, 0x55, 0x4c, 0x44, 0x45, 0x52, 0x5f, 0x54, 0x4f, 0x50, 0x5f, 0x52, 0x49, 0x47, 0x48, 0x54, 0x3e, 0x7e, 0x5a, 0x7e, 0x32, 0x32, 0x4c, 0x7e, 0x2d, 0x32, 0x48, 0x7e, 0x2b, 0x31, 0x37, 0x56, 0x3c, 0x50, 0x41, 0x44, 0x5f, 0x50, 0x41, 0x52, 0x54, 0x5f, 0x53, 0x48, 0x4f, 0x55, 0x4c, 0x44, 0x45, 0x52, 0x5f, 0x42, 0x4f, 0x54, 0x54, 0x4f, 0x4d, 0x5f, 0x4c, 0x45, 0x46, 0x54, 0x3e, 0x3c, 0x50, 0x41, 0x44, 0x5f, 0x50, 0x41, 0x52, 0x54, 0x5f, 0x53, 0x48, 0x4f, 0x55, 0x4c, 0x44, 0x45, 0x52, 0x5f, 0x42, 0x4f, 0x54, 0x54, 0x4f, 0x4d, 0x5f, 0x52, 0x49, 0x47, 0x48, 0x54, 0x3e, 0x7e, 0x5a, 0x7e, 0x31, 0x4c, 0x7e, 0x2b, 0x34, 0x48, 0x7e, 0x2b, 0x33, 0x56, 0x3c, 0x50, 0x41, 0x44, 0x5f, 0x50, 0x41, 0x52, 0x54, 0x5f, 0x4c, 0x31, 0x5f, 0x4e, 0x41, 0x4d, 0x45, 0x3e, 0x7e, 0x5a, 0x7e, 0x2b, 0x33, 0x38, 0x48], [0x3c, 0x50, 0x41, 0x44, 0x5f, 0x4c, 0x31, 0x3e]⟩,
  ⟨[0x7e, 0x59, 0x7e, 0x32, 0x32, 0x4c, 0x7e, 0x2d, 0x32, 0x48, 0x7e, 0x2d, 0x31, 0x32, 0x56, 0x3c, 0x50, 0x41, 0x44, 0x5f, 0x50, 0x41, 0x52, 0x54, 0x5f, 0x53, 0x48, 0x4f, 0x55, 0x4c, 0x44, 0x45, 0x52, 0x5f, 0x54, 0x4f, 0x50, 0x5f, 0x4c, 0x45, 0x46, 0x54, 0x3e, 0x3c, 0x50, 0x41, 0x44, 0x5f, 0x50, 0x41, 0x52, 0x54, 0x5f, 0x53, 0x48, 0x4f, 0x55, 0x4c, 0x44, 0x45, 0x52, 0x5f, 0x54, 0x4f, 0x50, 0x5f, 0x52, 0x49, 0x47, 0x48, 0x54, 0x3e, 0x7e, 0x5a, 0x7e, 0x32, 0x32, 0x4c, 0x7e, 0x2d, 0x32, 0x48, 0x7e, 0x2b, 0x31, 0x37, 0x56, 0x3c, 0x50, 0x41, 0x44, 0x5f, 0x50, 0x41, 0x52, 0x54, 0x5f, 0x53, 0x48, 0x4f, 0x55, 0x4c, 0x44, 0x45, 0x52, 0x5f, 0x42, 0x4f, 0x54, 0x54, 0x4f, 0x4d, 0x5f, 0x4c, 0x45, 0x46, 0x54, 0x3e, 0x3c, 0x50, 0x41, 0x44, 0x5f, 0x50, 0x41, 0x52, 0x54, 0x5f, 0x53, 0x48, 0x4f, 0x55, 0x4c, 0x44, 0x45, 0x52, 0x5f, 0x42, 0x4f, 0x54, 0x54, 0x4f, 0x4d, 0x5f, 0x52, 0x49, 0x47, 0x48, 0x54, 0x3e, 0x7e, 0x5a, 0x7e, 0x31, 0x4c, 0x7e, 0x2b, 0x36, 0x48, 0x7e, 0x2b, 0x33, 0x56, 0x3c, 0x50, 0x41, 0x44, 0x5f, 0x50, 0x41, 0x52, 0x54, 0x5f, 0x52, 0x31, 0x5f, 0x4e, 0x41, 0x4d, 0x45, 0x3e, 0x7e, 0x5a, 0x7e, 0x2b, 0x33, 0x38, 0x48], [0x3c, 0x50, 0x41, 0x44, 0x5f, 0x52, 0x31, 0x3e]⟩,
  ⟨[0x7e, 0x59, 0x7e, 0x32, 0x32, 0x4c, 0x7e, 0x2d, 0x32, 0x48, 0x7e, 0x2d, 0x36, 0x56, 0x3c, 0x50, 0x41, 0x44, 0x5f, 0x50, 0x41, 0x52, 0x54, 0x5f, 0x54, 0x52, 0x49, 0x47, 0x47, 0x45, 0x52, 0x5f, 0x54, 0x4f, 0x50, 0x5f, 0x4c, 0x45, 0x46, 0x54, 0x3e, 0x3c, 0x50, 0x41, 0x44, 0x5f, 0x50, 0x41, 0x52, 0x54, 0x5f, 0x54, 0x52, 0x49, 0x47, 0x47, 0x45, 0x52, 0x5f, 0x54, 0x4f, 0x50, 0x5f, 0x52, 0x49, 0x47, 0x48, 0x54, 0x3e, 0x7e, 0x5a, 0x7e, 0x32, 0x32, 0x4c, 0x7e, 0x2d, 0x32, 0x48, 0x7e, 0x2b, 0x31, 0x36, 0x56, 0x3c, 0x50, 0x41, 0x44, 0x5f, 0x50, 0x41, 0x52, 0x54, 0x5f, 0x54, 0x52, 0x49, 0x47, 0x47, 0x45, 0x52, 0x5f, 0x42, 0x4f, 0x54, 0x54, 0x4f, 0x4d, 0x5f, 0x4c, 0x45, 0x46, 0x54, 0x3e, 0x3c, 0x50, 0x41, 0x44, 0x5f, 0x50, 0x41, 0x52, 0x54, 0x5f, 0x54, 0x52, 0x49, 0x47, 0x47, 0x45, 0x52, 0x5f, 0x42, 0x4f, 0x54, 0x54, 0x4f, 0x4d, 0x5f, 0x52, 0x49, 0x47, 0x48, 0x54, 0x3e, 0x7e, 0x5a, 0x7e, 0x31, 0x4c, 0x7e, 0x2b, 0x35, 0x48, 0x7e, 0x2d, 0x32, 0x56, 0x3c, 0x50, 0x41, 0x44, 0x5f, 0x50, 0x41, 0x52, 0x54, 0x5f, 0x52, 0x32, 0x5f, 0x4e, 0x41, 0x4d, 0x45, 0x3e, 0x7e, 0x5a, 0x7e, 0x2b, 0x33, 0x38, 0x48], [0x3c, 0x50, 0x41, 0x44, 0x5f, 0x52, 0x32, 0x3e]⟩,
  ⟨[0x7e, 0x59, 0x7e, 0x32, 0x32, 0x4c, 0x7e, 0x2d, 0x32, 0x48, 0x7e, 0x2d, 0x36, 0x56, 0x3c, 0x50, 0x41, 0x44, 0x5f, 0x50, 0x41, 0x52, 0x54, 0x5f, 0x54, 0x52, 0x49, 0x47, 0x47, 0x45, 0x52, 0x5f, 0x54, 0x4f, 0x50, 0x5f, 0x4c, 0x45, 0x46, 0x54, 0x3e, 0x3c, 0x50, 0x41, 0x44, 0x5f, 0x50, 0x41, 0x52, 0x54, 0x5f, 0x54, 0x52, 0x49, 0x47, 0x47, 0x45, 0x52, 0x5f, 0x54, 0x4f, 0x50, 0x5f, 0x52, 0x49, 0x47, 0x48, 0x54, 0x3e, 0x7e, 0x5a, 0x7e, 0x32, 0x32, 0x4c, 0x7e, 0x2d, 0x32, 0x48, 0x7e, 0x2b, 0x31, 0x36, 0x56, 0x3c, 0x50, 0x41, 0x44, 0x5f, 0x50, 0x41, 0x52, 0x54, 0x5f, 0x54, 0x52, 0x49, 0x47, 0x47, 0x45, 0x52, 0x5f, 0x42, 0x4f, 0x54, 0x54, 0x4f, 0x4d, 0x5f, 0x4c, 0x45, 0x46, 0x54, 0x3e, 0x3c, 0x50, 0x41, 0x44, 0x5f, 0x50, 0x41, 0x52, 0x54, 0x5f, 0x54, 0x52, 0x49, 0x47, 0x47, 0x45, 0x52, 0x5f, 0x42, 0x4f, 0x54, 0x54, 0x4f, 0x4d, 0x5f, 0x52, 0x49, 0x47, 0x48, 0x54, 0x3e, 0x7e, 0x5a, 0x7e, 0x31, 0x4c, 0x7e, 0x2b, 0x35, 0x48, 0x7e, 0x2d, 0x32, 0x56, 0x3c, 0x50, 0x41, 0x44, 0x5f, 0x50, 0x41, 0x52, 0x54, 0x5f, 0x4c, 0x32, 0x5f, 0x4e, 0x41, 0x4d, 0x45, 0x3e, 0x7e, 0x5a, 0x7e, 0x2b, 0x33, 0x38, 0x48], [0x3c, 0x50, 0x41, 0x44, 0x5f, 0x4c, 0x32, 0x3e]⟩,
  ⟨[0x7e, 0x31, 0x4c, 0x7e, 0x2b, 0x38, 0x48, 0x7e, 0x59, 0x3c, 0x50, 0x41, 0x44, 0x5f, 0x50, 0x41, 0x52, 0x54, 0x5f, 0x53, 0x54, 0x49, 0x43, 0x4b, 0x3e, 0x7e, 0x5a, 0x7e, 0x36, 0x4c, 0x7e, 0x2d, 0x31, 0x36, 0x48, 0x3c, 0x50, 0x41, 0x44, 0x5f, 0x50, 0x41, 0x52, 0x54, 0x5f, 0x53, 0x54, 0x49, 0x43, 0x4b, 0x5f, 0x4c, 0x45, 0x46, 0x54, 0x3e, 0x7e, 0x5a, 0x7e, 0x2b, 0x31, 0x36, 0x68, 0x7e, 0x36, 0x4c, 0x3c, 0x50, 0x41, 0x44, 0x5f, 0x50, 0x41, 0x52, 0x54, 0x5f, 0x53, 0x54, 0x49, 0x43, 0x4b, 0x5f, 0x52, 0x49, 0x47, 0x48, 0x54, 0x3e, 0x7e, 0x5a, 0x7e, 0x36, 0x4c, 0x7e, 0x2d, 0x31, 0x35, 0x56, 0x3c, 0x50, 0x41, 0x44, 0x5f, 0x50, 0x41, 0x52, 0x54, 0x5f, 0x53, 0x54, 0x49, 0x43, 0x4b, 0x5f, 0x44, 0x4f, 0x57, 0x4e, 0x3e, 0x7e, 0x5a, 0x7e, 0x2b, 0x31, 0x33, 0x56, 0x7e, 0x36, 0x4c, 0x3c, 0x50, 0x41, 0x44, 0x5f, 0x50, 0x41, 0x52, 0x54, 0x5f, 0x53, 0x54, 0x49, 0x43, 0x4b, 0x5f, 0x55, 0x50, 0x3e, 0x7e, 0x5a, 0x7e, 0x2d, 0x31, 0x30, 0x48, 0x7e, 0x2b, 0x39, 0x56, 0x7e, 0x36, 0x4c, 0x3c, 0x50, 0x41, 0x44, 0x5f, 0x50, 0x41, 0x52, 0x54, 0x5f, 0x53, 0x54, 0x49, 0x43, 0x4b, 0x5f, 0x55, 0x50, 0x5f, 0x4c, 0x45, 0x46, 0x54, 0x3e, 0x7e, 0x5a, 0x7e, 0x2b, 0x31, 0x30, 0x48, 0x7e, 0x2b, 0x39, 0x56, 0x7e, 0x36, 0x4c, 0x3c, 0x50, 0x41, 0x44, 0x5f, 0x50, 0x41, 0x52, 0x54, 0x5f, 0x53, 0x54, 0x49, 0x43, 0x4b, 0x5f, 0x55, 0x50, 0x5f, 0x52, 0x49, 0x47, 0x48, 0x54, 0x3e, 0x7e, 0x5a, 0x7e, 0x2d, 0x31, 0x30, 0x48, 0x7e, 0x2d, 0x31, 0x31, 0x56, 0x7e, 0x36, 0x4c, 0x3c, 0x50, 0x41, 0x44, 0x5f, 0x50, 0x41, 0x52, 0x54, 0x5f, 0x53, 0x54, 0x49, 0x43, 0x4b, 0x5f, 0x44, 0x4f, 0x57, 0x4e, 0x5f, 0x4c, 0x45, 0x46, 0x54, 0x3e, 0x7e, 0x5a, 0x7e, 0x2b, 0x31, 0x30, 0x48, 0x7e, 0x2d, 0x31, 0x31, 0x56, 0x7e, 0x36, 0x4c, 0x3c, 0x50, 0x41, 0x44, 0x5f, 0x50, 0x41, 0x52, 0x54, 0x5f, 0x53, 0x54, 0x49, 0x43, 0x4b, 0x5f, 0x44, 0x4f, 0x57, 0x4e, 0x5f, 0x52, 0x49, 0x47, 0x48, 0x54, 0x3e, 0x7e, 0x5a, 0x7e, 0x2b, 0x33, 0x32, 0x48], [0x3c, 0x50, 0x41, 0x44, 0x5f, 0x41, 0x4e, 0x41, 0x4c, 0x4f, 0x47, 0x5f, 0x41, 0x4e, 0x59, 0x3e]⟩,
  ⟨[0x7e, 0x59, 0x7e, 0x31, 0x4c, 0x7e, 0x2b, 0x38, 0x48, 0x3c, 0x50, 0x41, 0x44, 0x5f, 0x50, 0x41, 0x52, 0x54, 0x5f, 0x53, 0x54, 0x49, 0x43, 0x4b, 0x3e, 0x7e, 0x5a, 0x7e, 0x36, 0x4c, 0x7e, 0x2d, 0x38, 0x48, 0x3c, 0x50, 0x41, 0x44, 0x5f, 0x50, 0x41, 0x52, 0x54, 0x5f, 0x53, 0x54, 0x49, 0x43, 0x4b, 0x5f, 0x4c, 0x45, 0x46, 0x54, 0x3e, 0x7e, 0x5a, 0x7e, 0x2b, 0x32, 0x34, 0x48, 0x7e, 0x36, 0x4c, 0x3c, 0x50, 0x41, 0x44, 0x5f, 0x50, 0x41, 0x52, 0x54, 0x5f, 0x53, 0x54, 0x49, 0x43, 0x4b, 0x5f, 0x52, 0x49, 0x47, 0x48, 0x54, 0x3e, 0x7e, 0x5a, 0x7e, 0x2b, 0x34, 0x30, 0x48], [0x3c, 0x50, 0x41, 0x44, 0x5f, 0x41, 0x4e, 0x41, 0x4c, 0x4f, 0x47, 0x5f, 0x4c, 0x45, 0x46, 0x54, 0x5f, 0x52, 0x49, 0x47, 0x48, 0x54, 0x3e]⟩,
  ⟨[0x7e, 0x59, 0x7e, 0x31, 0x4c, 0x3c, 0x50, 0x41, 0x44, 0x5f, 0x50, 0x41, 0x52, 0x54, 0x5f, 0x53, 0x54, 0x49, 0x43, 0x4b, 0x3e, 0x7e, 0x5a, 0x7e, 0x36, 0x4c, 0x7e, 0x2d, 0x31, 0x35, 0x56, 0x3c, 0x50, 0x41, 0x44, 0x5f, 0x50, 0x41, 0x52, 0x54, 0x5f, 0x53, 0x54, 0x49, 0x43, 0x4b, 0x5f, 0x44, 0x4f, 0x57, 0x4e, 0x3e, 0x7e, 0x5a, 0x7e, 0x2b, 0x31, 0x33, 0x56, 0x7e, 0x36, 0x4c, 0x3c, 0x50, 0x41, 0x44, 0x5f, 0x50, 0x41, 0x52, 0x54, 0x5f, 0x53, 0x54, 0x49, 0x43, 0x4b, 0x5f, 0x55, 0x50, 0x3e, 0x7e, 0x5a, 0x7e, 0x2b, 0x32, 0x36, 0x48], [0x3c, 0x50, 0x41, 0x44, 0x5f, 0x41, 0x4e, 0x41, 0x4c, 0x4f, 0x47, 0x5f, 0x55, 0x50, 0x5f, 0x44, 0x4f, 0x57, 0x4e, 0x3e]⟩,
  ⟨[0x7e, 0x59, 0x7e, 0x36, 0x4c, 0x3c, 0x7e, 0x5a, 0x7e, 0x59, 0x7e, 0x31, 0x4c, 0x3e, 0x7e, 0x5a, 0x7e, 0x59, 0x7e, 0x32, 0x33, 0x4c, 0x5b, 0x7e, 0x5a, 0x7e, 0x2b, 0x32, 0x36, 0x48], [0x3c, 0x49, 0x43, 0x4f, 0x4e, 0x5f, 0x4d, 0x49, 0x53, 0x53, 0x49, 0x4f, 0x4e, 0x5f, 0x43, 0x4f, 0x4d, 0x50, 0x4c, 0x45, 0x54, 0x45, 0x3e]⟩,
  ⟨[0x7e, 0x59, 0x7e, 0x33, 0x4c, 0x3c, 0x7e, 0x5a, 0x7e, 0x59, 0x7e, 0x31, 0x4c, 0x3e, 0x7e, 0x5a, 0x7e, 0x59, 0x7e, 0x32, 0x33, 0x4c, 0x5b, 0x7e, 0x5a, 0x7e, 0x2b, 0x32, 0x36, 0x48], [0x3c, 0x49, 0x43, 0x4f, 0x4e, 0x5f, 0x4d, 0x49, 0x53, 0x53, 0x49, 0x4f, 0x4e, 0x5f, 0x54, 0x4f, 0x44, 0x4f, 0x3e]⟩,
  ⟨[0x7e, 0x59, 0x7e, 0x36, 0x4c, 0x3c, 0x46, 0x4c, 0x41, 0x47, 0x5f, 0x50, 0x41, 0x52, 0x54, 0x5f, 0x56, 0x45, 0x52, 0x54, 0x5f, 0x53, 0x54, 0x52, 0x49, 0x50, 0x45, 0x5f, 0x4c, 0x41, 0x52, 0x47, 0x45, 0x3e, 0x7e, 0x5a, 0x7e, 0x2b, 0x31, 0x35, 0x48, 0x7e, 0x31, 0x4c, 0x3c, 0x46, 0x4c, 0x41, 0x47, 0x5f, 0x50, 0x41, 0x52, 0x54, 0x5f, 0x56, 0x45, 0x52, 0x54, 0x5f, 0x53, 0x54, 0x52, 0x49, 0x50, 0x45, 0x5f, 0x4c, 0x41, 0x52, 0x47, 0x45, 0x3e, 0x7e, 0x5a, 0x7e, 0x2b, 0x33, 0x30, 0x48, 0x7e, 0x33, 0x4c, 0x3c, 0x46, 0x4c, 0x41, 0x47, 0x5f, 0x50, 0x41, 0x52, 0x54, 0x5f, 0x56, 0x45, 0x52, 0x54, 0x5f, 0x53, 0x54, 0x52, 0x49, 0x50, 0x45, 0x5f, 0x4c, 0x41, 0x52, 0x47, 0x45, 0x3e, 0x7e, 0x5a, 0x7e, 0x2b, 0x34, 0x35, 0x48], [0x3c, 0x46, 0x4c, 0x41, 0x47, 0x5f, 0x49, 0x54, 0x41, 0x4c, 0x49, 0x41, 0x4e, 0x3e]⟩,
  ⟨[0x7e, 0x59, 0x7e, 0x35, 0x4c, 0x3c, 0x46, 0x4c, 0x41, 0x47, 0x5f, 0x50, 0x41, 0x52, 0x54, 0x5f, 0x46, 0x49, 0x4c, 0x4c, 0x3e, 0x7e, 0x5a, 0x7e, 0x33, 0x4c, 0x3c, 0x46, 0x4c, 0x41, 0x47, 0x5f, 0x50, 0x41, 0x52, 0x54, 0x5f, 0x54, 0x4f, 0x50, 0x5f, 0x42, 0x4f, 0x54, 0x54, 0x4f, 0x4d, 0x5f, 0x53, 0x54, 0x52, 0x49, 0x50, 0x45, 0x3e, 0x7e, 0x5d, 0x7e, 0x2d, 0x31, 0x48, 0x7e, 0x59, 0x7e, 0x35, 0x4c, 0x3c, 0x46, 0x4c, 0x41, 0x47, 0x5f, 0x50, 0x41, 0x52, 0x54, 0x5f, 0x46, 0x49, 0x4c, 0x4c, 0x3e, 0x7e, 0x5a, 0x7e, 0x33, 0x4c, 0x3c, 0x46, 0x4c, 0x41, 0x47, 0x5f, 0x50, 0x41, 0x52, 0x54, 0x5f, 0x54, 0x4f, 0x50, 0x5f, 0x42, 0x4f, 0x54, 0x54, 0x4f, 0x4d, 0x5f, 0x53, 0x54, 0x52, 0x49, 0x50, 0x45, 0x3e, 0x7e, 0x5a, 0x7e, 0x2b, 0x32, 0x36, 0x48], [0x3c, 0x46, 0x4c, 0x41, 0x47, 0x5f, 0x53, 0x50, 0x41, 0x49, 0x4e, 0x3e]⟩,
  ⟨[0x7e, 0x59, 0x7e, 0x33, 0x39, 0x4c, 0x7e, 0x7e, 0x7e, 0x5a, 0x7e, 0x33, 0x4c, 0x3c, 0x46, 0x4c, 0x41, 0x47, 0x5f, 0x50, 0x41, 0x52, 0x54, 0x5f, 0x48, 0x4f, 0x52, 0x5a, 0x5f, 0x53, 0x54, 0x52, 0x49, 0x50, 0x45, 0x5f, 0x4d, 0x49, 0x44, 0x44, 0x4c, 0x45, 0x3e, 0x7e, 0x5a, 0x7e, 0x35, 0x4c, 0x3c, 0x46, 0x4c, 0x41, 0x47, 0x5f, 0x50, 0x41, 0x52, 0x54, 0x5f, 0x48, 0x4f, 0x52, 0x5a, 0x5f, 0x53, 0x54, 0x52, 0x49, 0x50, 0x45, 0x5f, 0x42, 0x4f, 0x54, 0x54, 0x4f, 0x4d, 0x3e, 0x7e, 0x5d, 0x7e, 0x2d, 0x31, 0x48, 0x7e, 0x59, 0x7e, 0x33, 0x39, 0x4c, 0x7e, 0x7e, 0x7e, 0x5a, 0x7e, 0x33, 0x4c, 0x3c, 0x46, 0x4c, 0x41, 0x47, 0x5f, 0x50, 0x41, 0x52, 0x54, 0x5f, 0x48, 0x4f, 0x52, 0x5a, 0x5f, 0x53, 0x54, 0x52, 0x49, 0x50, 0x45, 0x5f, 0x4d, 0x49, 0x44, 0x44, 0x4c, 0x45, 0x3e, 0x7e, 0x5a, 0x7e, 0x35, 0x4c, 0x3c, 0x46, 0x4c, 0x41, 0x47, 0x5f, 0x50, 0x41, 0x52, 0x54, 0x5f, 0x48, 0x4f, 0x52, 0x5a, 0x5f, 0x53, 0x54, 0x52, 0x49, 0x50, 0x45, 0x5f, 0x42, 0x4f, 0x54, 0x54, 0x4f, 0x4d, 0x3e, 0x7e, 0x5a, 0x7e, 0x2b, 0x32, 0x36, 0x48], [0x3c, 0x46, 0x4c, 0x41, 0x47, 0x5f, 0x47, 0x45, 0x52, 0x4d, 0x41, 0x4e, 0x3e]⟩,
  ⟨[0x7e, 0x59, 0x7e, 0x37, 0x4c, 0x3c, 0x46, 0x4c, 0x41, 0x47, 0x5f, 0x50, 0x41, 0x52, 0x54, 0x5f, 0x56, 0x45, 0x52, 0x54, 0x5f, 0x53, 0x54, 0x52, 0x49, 0x50, 0x45, 0x5f, 0x4c, 0x41, 0x52, 0x47, 0x45, 0x3e, 0x7e, 0x5a, 0x7e, 0x2b, 0x31, 0x35, 0x48, 0x7e, 0x31, 0x4c, 0x3c, 0x46, 0x4c, 0x41, 0x47, 0x5f, 0x50, 0x41, 0x52, 0x54, 0x5f, 0x56, 0x45, 0x52, 0x54, 0x5f, 0x53, 0x54, 0x52, 0x49, 0x50, 0x45, 0x5f, 0x4c, 0x41, 0x52, 0x47, 0x45, 0x3e, 0x7e, 0x5a, 0x7e, 0x2b, 0x33, 0x30, 0x48, 0x7e, 0x33, 0x4c, 0x3c, 0x46, 0x4c, 0x41, 0x47, 0x5f, 0x50, 0x41, 0x52, 0x54, 0x5f, 0x56, 0x45, 0x52, 0x54, 0x5f, 0x53, 0x54, 0x52, 0x49, 0x50, 0x45, 0x5f, 0x4c, 0x41, 0x52, 0x47, 0x45, 0x3e, 0x7e, 0x5a, 0x7e, 0x2b, 0x34, 0x37, 0x48], [0x3c, 0x46, 0x4c, 0x41, 0x47, 0x5f, 0x46, 0x52, 0x41, 0x4e, 0x43, 0x45, 0x3e]⟩,
  ⟨[0x7e, 0x59, 0x7e, 0x31, 0x4c, 0x3c, 0x46, 0x4c, 0x41, 0x47, 0x5f, 0x50, 0x41, 0x52, 0x54, 0x5f, 0x46, 0x49, 0x4c, 0x4c, 0x3e, 0x7e, 0x5a, 0x7e, 0x33, 0x4c, 0x3c, 0x46, 0x4c, 0x41, 0x47, 0x5f, 0x50, 0x41, 0x52, 0x54, 0x5f, 0x55, 0x4b, 0x5f, 0x43, 0x52, 0x4f, 0x53, 0x53, 0x5f, 0x4c, 0x45, 0x46, 0x54, 0x3e, 0x7e, 0x5a, 0x7e, 0x37, 0x4c, 0x3c, 0x46, 0x4c, 0x41, 0x47, 0x5f, 0x50, 0x41, 0x52, 0x54, 0x5f, 0x55, 0x4b, 0x5f, 0x46, 0x49, 0x4c, 0x4c, 0x5f, 0x4c, 0x45, 0x46, 0x54, 0x3e, 0x7e, 0x5d, 0x7e, 0x2d, 0x31, 0x48, 0x7e, 0x59, 0x7e, 0x31, 0x4c, 0x3c, 0x46, 0x4c, 0x41, 0x47, 0x5f, 0x50, 0x41, 0x52, 0x54, 0x5f, 0x46, 0x49, 0x4c, 0x4c, 0x3e, 0x7e, 0x5a, 0x7e, 0x33, 0x4c, 0x3c, 0x46, 0x4c, 0x41, 0x47, 0x5f, 0x50, 0x41, 0x52, 0x54, 0x5f, 0x55, 0x4b, 0x5f, 0x43, 0x52, 0x4f, 0x53, 0x53, 0x5f, 0x52, 0x49, 0x47, 0x48, 0x54, 0x3e, 0x7e, 0x5a, 0x7e, 0x37, 0x4c, 0x3c, 0x46, 0x4c, 0x41, 0x47, 0x5f, 0x50, 0x41, 0x52, 0x54, 0x5f, 0x55, 0x4b, 0x5f, 0x46, 0x49, 0x4c, 0x4c, 0x5f, 0x52, 0x49, 0x47, 0x48, 0x54, 0x3e, 0x7e, 0x5a, 0x7e, 0x2b, 0x32, 0x36, 0x48], [0x3c, 0x46, 0x4c, 0x41, 0x47, 0x5f, 0x55, 0x4b, 0x3e]⟩
]

/-- Entries 120-132 of `s_replace_info_jak2` (split to keep list literals small). -/
def s_replace_info_jak2_part2 : List ReplaceInfo := [
  ⟨[0x7e, 0x59, 0x7e, 0x31, 0x4c, 0x3c, 0x46, 0x4c, 0x41, 0x47, 0x5f, 0x50, 0x41, 0x52, 0x54, 0x5f, 0x46, 0x49, 0x4c, 0x4c, 0x3e, 0x7e, 0x5a, 0x7e, 0x33, 0x4c, 0x3c, 0x46, 0x4c, 0x41, 0x47, 0x5f, 0x50, 0x41, 0x52, 0x54, 0x5f, 0x55, 0x53, 0x41, 0x5f, 0x53, 0x54, 0x52, 0x49, 0x50, 0x45, 0x53, 0x5f, 0x4c, 0x45, 0x46, 0x54, 0x3e, 0x7e, 0x5a, 0x7e, 0x37, 0x4c, 0x3c, 0x46, 0x4c, 0x41, 0x47, 0x5f, 0x50, 0x41, 0x52, 0x54, 0x5f, 0x55, 0x53, 0x41, 0x5f, 0x53, 0x54, 0x41, 0x52, 0x53, 0x3e, 0x7e, 0x5d, 0x7e, 0x2d, 0x31, 0x48, 0x7e, 0x59, 0x7e, 0x31, 0x4c, 0x3c, 0x46, 0x4c, 0x41, 0x47, 0x5f, 0x50, 0x41, 0x52, 0x54, 0x5f, 0x46, 0x49, 0x4c, 0x4c, 0x3e, 0x7e, 0x5a, 0x7e, 0x33, 0x4c, 0x3c, 0x46, 0x4c, 0x41, 0x47, 0x5f, 0x50, 0x41, 0x52, 0x54, 0x5f, 0x55, 0x53, 0x41, 0x5f, 0x53, 0x54, 0x52, 0x49, 0x50, 0x45, 0x53, 0x5f, 0x52, 0x49, 0x47, 0x48, 0x54, 0x3e, 0x7e, 0x5a, 0x7e, 0x2b, 0x32, 0x36, 0x48], [0x3c, 0x46, 0x4c, 0x41, 0x47, 0x5f, 0x55, 0x53, 0x41, 0x3e]⟩,
  ⟨[0x7e, 0x59, 0x7e, 0x31, 0x4c, 0x3c, 0x46, 0x4c, 0x41, 0x47, 0x5f, 0x50, 0x41, 0x52, 0x54, 0x5f, 0x46, 0x49, 0x4c, 0x4c, 0x3e, 0x7e, 0x5a, 0x7e, 0x33, 0x39, 0x4c, 0x3c, 0x46, 0x4c, 0x41, 0x47, 0x5f, 0x50, 0x41, 0x52, 0x54, 0x5f, 0x4b, 0x4f, 0x52, 0x45, 0x41, 0x5f, 0x54, 0x52, 0x49, 0x47, 0x52, 0x41, 0x4d, 0x53, 0x5f, 0x4c, 0x45, 0x46, 0x54, 0x3e, 0x7e, 0x5d, 0x7e, 0x2d, 0x31, 0x48, 0x7e, 0x59, 0x7e, 0x31, 0x4c, 0x3c, 0x46, 0x4c, 0x41, 0x47, 0x5f, 0x50, 0x41, 0x52, 0x54, 0x5f, 0x46, 0x49, 0x4c, 0x4c, 0x3e, 0x7e, 0x5a, 0x7e, 0x33, 0x39, 0x4c, 0x3c, 0x46, 0x4c, 0x41, 0x47, 0x5f, 0x50, 0x41, 0x52, 0x54, 0x5f, 0x4b, 0x4f, 0x52, 0x45, 0x41, 0x5f, 0x54, 0x52, 0x49, 0x47, 0x52, 0x41, 0x4d, 0x53, 0x5f, 0x52, 0x49, 0x47, 0x48, 0x54, 0x3e, 0x7e, 0x5a, 0x7e, 0x2d, 0x31, 0x31, 0x48, 0x7e, 0x37, 0x4c, 0x3c, 0x46, 0x4c, 0x41, 0x47, 0x5f, 0x50, 0x41, 0x52, 0x54, 0x5f, 0x4b, 0x4f, 0x52, 0x45, 0x41, 0x5f, 0x43, 0x49, 0x52, 0x43, 0x4c, 0x45, 0x5f, 0x46, 0x49, 0x4c, 0x4c, 0x3e, 0x7e, 0x5a, 0x7e, 0x2d, 0x31, 0x31, 0x48, 0x7e, 0x33, 0x4c, 0x3c, 0x46, 0x4c, 0x41, 0x47, 0x5f, 0x50, 0x41, 0x52, 0x54, 0x5f, 0x4b, 0x4f, 0x52, 0x45, 0x41, 0x5f, 0x43, 0x49, 0x52, 0x43, 0x4c, 0x45, 0x5f, 0x54, 0x4f, 0x50, 0x3e, 0x7e, 0x5a, 0x7e, 0x2b, 0x32, 0x36, 0x48], [0x3c, 0x46, 0x4c, 0x41, 0x47, 0x5f, 0x4b, 0x4f, 0x52, 0x45, 0x41, 0x3e]⟩,
  ⟨[0x7e, 0x59, 0x7e, 0x31, 0x4c, 0x3c, 0x46, 0x4c, 0x41, 0x47, 0x5f, 0x50, 0x41, 0x52, 0x54, 0x5f, 0x46, 0x49, 0x4c, 0x4c, 0x3e, 0x7e, 0x5d, 0x7e, 0x2d, 0x31, 0x48, 0x7e, 0x59, 0x7e, 0x31, 0x4c, 0x3c, 0x46, 0x4c, 0x41, 0x47, 0x5f, 0x50, 0x41, 0x52, 0x54, 0x5f, 0x46, 0x49, 0x4c, 0x4c, 0x3e, 0x7e, 0x5a, 0x7e, 0x2d, 0x31, 0x31, 0x48, 0x7e, 0x33, 0x4c, 0x3c, 0x46, 0x4c, 0x41, 0x47, 0x5f, 0x50, 0x41, 0x52, 0x54, 0x5f, 0x4a, 0x41, 0x50, 0x41, 0x4e, 0x5f, 0x53, 0x55, 0x4e, 0x3e, 0x7e, 0x5a, 0x7e, 0x2b, 0x32, 0x36, 0x48], [0x3c, 0x46, 0x4c, 0x41, 0x47, 0x5f, 0x4a, 0x41, 0x50, 0x41, 0x4e, 0x3e]⟩,
  ⟨[0x7e, 0x2b, 0x37, 0x56, 0x70, 0x7e, 0x2d, 0x37, 0x56], [0x70]⟩,
  ⟨[0x7e, 0x2b, 0x37, 0x56, 0x79, 0x7e, 0x2d, 0x37, 0x56], [0x79]⟩,
  ⟨[0x7e, 0x2b, 0x37, 0x56, 0x67, 0x7e, 0x2d, 0x37, 0x56], [0x67]⟩,
  ⟨[0x7e, 0x2b, 0x37, 0x56, 0x71, 0x7e, 0x2d, 0x37, 0x56], [0x71]⟩,
  ⟨[0x7e, 0x2b, 0x31, 0x56, 0x6a, 0x7e, 0x2d, 0x31, 0x56], [0x6a]⟩,
  ⟨[0x5c, 0x5c], [0x7e, 0x25]⟩,
  ⟨[0x7e, 0x2d, 0x34, 0x48, 0x7e, 0x2d, 0x33, 0x56, 0x3c, 0x53, 0x4f, 0x4d, 0x45, 0x54, 0x48, 0x49, 0x4e, 0x47, 0x3e, 0x7e, 0x2b, 0x33, 0x56, 0x7e, 0x2d, 0x34, 0x48], [0x3c, 0x53, 0x55, 0x50, 0x45, 0x52, 0x53, 0x43, 0x52, 0x49, 0x50, 0x54, 0x5f, 0x51, 0x55, 0x4f, 0x54, 0x45, 0x3e]⟩,
  ⟨[0x7e, 0x59, 0x7e, 0x2d, 0x36, 0x48, 0xc2, 0xba, 0x7e, 0x5a, 0x7e, 0x2b, 0x31, 0x30, 0x48], [0xc2, 0xb0]⟩,
  ⟨[0x7e, 0x5b, 0x7e, 0x31, 0x4c], [0x3c, 0x43, 0x4f, 0x4c, 0x4f, 0x52, 0x5f, 0x57, 0x48, 0x49, 0x54, 0x45, 0x3e]⟩,
  ⟨[0x7e, 0x5b, 0x7e, 0x33, 0x32, 0x4c], [0x3c, 0x43, 0x4f, 0x4c, 0x4f, 0x52, 0x5f, 0x44, 0x45, 0x46, 0x41, 0x55, 0x4c, 0x54, 0x3e]⟩
]

/-- The `s_replace_info_jak2` table of `FontUtils.cpp` (encoded substring,
display substring), as byte lists. -/
def s_replace_info_jak2 : List ReplaceInfo :=
  s_replace_info_jak2_part0 ++ s_replace_info_jak2_part1 ++ s_replace_info_jak2_part2

/-- Entries 0-59 of `s_encode_info_jak2` (split to keep list literals small). -/
def s_encode_info_jak2_part0 : List EncodeInfo := [
  ⟨[0xcb, 0x87], [0x10]⟩,
  ⟨[0x60], [0x11]⟩,
  ⟨[0x27], [0x12]⟩,
  ⟨[0x5e], [0x13]⟩,
  ⟨[0x3c, 0x54, 0x49, 0x4c, 0x3e], [0x14]⟩,
  ⟨[0xc2, 0xa8], [0x15]⟩,
  ⟨[0xc2, 0xba], [0x16]⟩,
  ⟨[0xc2, 0xa1], [0x17]⟩,
  ⟨[0xc2, 0xbf], [0x18]⟩,
  ⟨[0x3c, 0x53, 0x4f, 0x4d, 0x45, 0x54, 0x48, 0x49, 0x4e, 0x47, 0x3e], [0x19]⟩,
  ⟨[0xc3, 0xa7], [0x1d]⟩,
  ⟨[0xc3, 0x87], [0x1e]⟩,
  ⟨[0xc3, 0x9f], [0x1f]⟩,
  ⟨[0xc5, 0x93], [0x5e]⟩,
  ⟨[0x3c, 0x46, 0x4c, 0x41, 0x47, 0x5f, 0x50, 0x41, 0x52, 0x54, 0x5f, 0x48, 0x4f, 0x52, 0x5a, 0x5f, 0x53, 0x54, 0x52, 0x49, 0x50, 0x45, 0x5f, 0x4d, 0x49, 0x44, 0x44, 0x4c, 0x45, 0x3e], [0x7f]⟩,
  ⟨[0x3c, 0x46, 0x4c, 0x41, 0x47, 0x5f, 0x50, 0x41, 0x52, 0x54, 0x5f, 0x48, 0x4f, 0x52, 0x5a, 0x5f, 0x53, 0x54, 0x52, 0x49, 0x50, 0x45, 0x5f, 0x42, 0x4f, 0x54, 0x54, 0x4f, 0x4d, 0x3e], [0x80]⟩,
  ⟨[0x3c, 0x46, 0x4c, 0x41, 0x47, 0x5f, 0x50, 0x41, 0x52, 0x54, 0x5f, 0x56, 0x45, 0x52, 0x54, 0x5f, 0x53, 0x54, 0x52, 0x49, 0x50, 0x45, 0x5f, 0x4c, 0x41, 0x52, 0x47, 0x45, 0x3e], [0x81]⟩,
  ⟨[0x3c, 0x46, 0x4c, 0x41, 0x47, 0x5f, 0x50, 0x41, 0x52, 0x54, 0x5f, 0x56, 0x45, 0x52, 0x54, 0x5f, 0x53, 0x54, 0x52, 0x49, 0x50, 0x45, 0x5f, 0x52, 0x49, 0x47, 0x48, 0x54, 0x3e], [0x82]⟩,
  ⟨[0x3c, 0x46, 0x4c, 0x41, 0x47, 0x5f, 0x50, 0x41, 0x52, 0x54, 0x5f, 0x56, 0x45, 0x52, 0x54, 0x5f, 0x53, 0x54, 0x52, 0x49, 0x50, 0x45, 0x5f, 0x4c, 0x45, 0x46, 0x54, 0x3e], [0x83]⟩,
  ⟨[0x3c, 0x46, 0x4c, 0x41, 0x47, 0x5f, 0x50, 0x41, 0x52, 0x54, 0x5f, 0x56, 0x45, 0x52, 0x54, 0x5f, 0x53, 0x54, 0x52, 0x49, 0x50, 0x45, 0x5f, 0x4d, 0x49, 0x44, 0x44, 0x4c, 0x45, 0x3e], [0x84]⟩,
  ⟨[0x3c, 0x46, 0x4c, 0x41, 0x47, 0x5f, 0x50, 0x41, 0x52, 0x54, 0x5f, 0x46, 0x49, 0x4c, 0x4c, 0x3e], [0x85]⟩,
  ⟨[0x3c, 0x46, 0x4c, 0x41, 0x47, 0x5f, 0x50, 0x41, 0x52, 0x54, 0x5f, 0x4a, 0x41, 0x50, 0x41, 0x4e, 0x5f, 0x53, 0x55, 0x4e, 0x3e], [0x86]⟩,
  ⟨[0x3c, 0x46, 0x4c, 0x41, 0x47, 0x5f, 0x50, 0x41, 0x52, 0x54, 0x5f, 0x4b, 0x4f, 0x52, 0x45, 0x41, 0x5f, 0x54, 0x52, 0x49, 0x47, 0x52, 0x41, 0x4d, 0x53, 0x5f, 0x4c, 0x45, 0x46, 0x54, 0x3e], [0x87]⟩,
  ⟨[0x3c, 0x46, 0x4c, 0x41, 0x47, 0x5f, 0x50, 0x41, 0x52, 0x54, 0x5f, 0x4b, 0x4f, 0x52, 0x45, 0x41, 0x5f, 0x54, 0x52, 0x49, 0x47, 0x52, 0x41, 0x4d, 0x53, 0x5f, 0x52, 0x49, 0x47, 0x48, 0x54, 0x3e], [0x88]⟩,
  ⟨[0x3c, 0x46, 0x4c, 0x41, 0x47, 0x5f, 0x50, 0x41, 0x52, 0x54, 0x5f, 0x4b, 0x4f, 0x52, 0x45, 0x41, 0x5f, 0x43, 0x49, 0x52, 0x43, 0x4c, 0x45, 0x5f, 0x54, 0x4f, 0x50, 0x3e], [0x89]⟩,
  ⟨[0x3c, 0x46, 0x4c, 0x41, 0x47, 0x5f, 0x50, 0x41, 0x52, 0x54, 0x5f, 0x4b, 0x4f, 0x52, 0x45, 0x41, 0x5f, 0x43, 0x49, 0x52, 0x43, 0x4c, 0x45, 0x5f, 0x46, 0x49, 0x4c, 0x4c, 0x3e], [0x8a]⟩,
  ⟨[0x3c, 0x46, 0x4c, 0x41, 0x47, 0x5f, 0x50, 0x41, 0x52, 0x54, 0x5f, 0x54, 0x4f, 0x50, 0x5f, 0x42, 0x4f, 0x54, 0x54, 0x4f, 0x4d, 0x5f, 0x53, 0x54, 0x52, 0x49, 0x50, 0x45, 0x3e], [0x8b]⟩,
  ⟨[0x3c, 0x46, 0x4c, 0x41, 0x47, 0x5f, 0x50, 0x41, 0x52, 0x54, 0x5f, 0x55, 0x4b, 0x5f, 0x43, 0x52, 0x4f, 0x53, 0x53, 0x5f, 0x4c, 0x45, 0x46, 0x54, 0x3e], [0x8c]⟩,
  ⟨[0x3c, 0x46, 0x4c, 0x41, 0x47, 0x5f, 0x50, 0x41, 0x52, 0x54, 0x5f, 0x55, 0x4b, 0x5f, 0x43, 0x52, 0x4f, 0x53, 0x53, 0x5f, 0x52, 0x49, 0x47, 0x48, 0x54, 0x3e], [0x8d]⟩,
  ⟨[0x3c, 0x46, 0x4c, 0x41, 0x47, 0x5f, 0x50, 0x41, 0x52, 0x54, 0x5f, 0x55, 0x4b, 0x5f, 0x46, 0x49, 0x4c, 0x4c, 0x5f, 0x4c, 0x45, 0x46, 0x54, 0x3e], [0x8e]⟩,
  ⟨[0x3c, 0x46, 0x4c, 0x41, 0x47, 0x5f, 0x50, 0x41, 0x52, 0x54, 0x5f, 0x55, 0x4b, 0x5f, 0x46, 0x49, 0x4c, 0x4c, 0x5f, 0x52, 0x49, 0x47, 0x48, 0x54, 0x3e], [0x8f]⟩,
  ⟨[0x3c, 0x46, 0x4c, 0x41, 0x47, 0x5f, 0x50, 0x41, 0x52, 0x54, 0x5f, 0x55, 0x53, 0x41, 0x5f, 0x53, 0x54, 0x52, 0x49, 0x50, 0x45, 0x53, 0x5f, 0x52, 0x49, 0x47, 0x48, 0x54, 0x3e], [0x90]⟩,
  ⟨[0x3c, 0x50, 0x41, 0x44, 0x5f, 0x50, 0x41, 0x52, 0x54, 0x5f, 0x53, 0x54, 0x49, 0x43, 0x4b, 0x3e], [0x91]⟩,
  ⟨[0x3c, 0x50, 0x41, 0x44, 0x5f, 0x50, 0x41, 0x52, 0x54, 0x5f, 0x53, 0x45, 0x4c, 0x45, 0x43, 0x54, 0x3e], [0x92]⟩,
  ⟨[0x3c, 0x50, 0x41, 0x44, 0x5f, 0x50, 0x41, 0x52, 0x54, 0x5f, 0x54, 0x52, 0x49, 0x47, 0x47, 0x45, 0x52, 0x5f, 0x42, 0x41, 0x43, 0x4b, 0x3e], [0x93]⟩,
  ⟨[0x3c, 0x50, 0x41, 0x44, 0x5f, 0x50, 0x41, 0x52, 0x54, 0x5f, 0x52, 0x31, 0x5f, 0x4e, 0x41, 0x4d, 0x45, 0x3e], [0x94]⟩,
  ⟨[0x3c, 0x50, 0x41, 0x44, 0x5f, 0x50, 0x41, 0x52, 0x54, 0x5f, 0x4c, 0x31, 0x5f, 0x4e, 0x41, 0x4d, 0x45, 0x3e], [0x95]⟩,
  ⟨[0x3c, 0x50, 0x41, 0x44, 0x5f, 0x50, 0x41, 0x52, 0x54, 0x5f, 0x52, 0x32, 0x5f, 0x4e, 0x41, 0x4d, 0x45, 0x3e], [0x96]⟩,
  ⟨[0x3c, 0x50, 0x41, 0x44, 0x5f, 0x50, 0x41, 0x52, 0x54, 0x5f, 0x4c, 0x32, 0x5f, 0x4e, 0x41, 0x4d, 0x45, 0x3e], [0x97]⟩,
  ⟨[0x3c, 0x50, 0x41, 0x44, 0x5f, 0x50, 0x41, 0x52, 0x54, 0x5f, 0x53, 0x54, 0x49, 0x43, 0x4b, 0x5f, 0x55, 0x50, 0x3e], [0x98]⟩,
  ⟨[0x3c, 0x50, 0x41, 0x44, 0x5f, 0x50, 0x41, 0x52, 0x54, 0x5f, 0x53, 0x54, 0x49, 0x43, 0x4b, 0x5f, 0x55, 0x50, 0x5f, 0x52, 0x49, 0x47, 0x48, 0x54, 0x3e], [0x99]⟩,
  ⟨[0x3c, 0x46, 0x4c, 0x41, 0x47, 0x5f, 0x50, 0x41, 0x52, 0x54, 0x5f, 0x55, 0x53, 0x41, 0x5f, 0x53, 0x54, 0x52, 0x49, 0x50, 0x45, 0x53, 0x5f, 0x4c, 0x45, 0x46, 0x54, 0x3e], [0x9a]⟩,
  ⟨[0x3c, 0x46, 0x4c, 0x41, 0x47, 0x5f, 0x50, 0x41, 0x52, 0x54, 0x5f, 0x55, 0x53, 0x41, 0x5f, 0x53, 0x54, 0x41, 0x52, 0x53, 0x3e], [0x9b]⟩,
  ⟨[0x3c, 0x50, 0x41, 0x44, 0x5f, 0x50, 0x41, 0x52, 0x54, 0x5f, 0x53, 0x54, 0x49, 0x43, 0x4b, 0x5f, 0x44, 0x4f, 0x57, 0x4e, 0x3e], [0x9c]⟩,
  ⟨[0x3c, 0x50, 0x41, 0x44, 0x5f, 0x50, 0x41, 0x52, 0x54, 0x5f, 0x53, 0x54, 0x49, 0x43, 0x4b, 0x5f, 0x44, 0x4f, 0x57, 0x4e, 0x5f, 0x4c, 0x45, 0x46, 0x54, 0x3e], [0x9d]⟩,
  ⟨[0x3c, 0x50, 0x41, 0x44, 0x5f, 0x50, 0x41, 0x52, 0x54, 0x5f, 0x53, 0x54, 0x49, 0x43, 0x4b, 0x5f, 0x4c, 0x45, 0x46, 0x54, 0x3e], [0x9e]⟩,
  ⟨[0x3c, 0x50, 0x41, 0x44, 0x5f, 0x50, 0x41, 0x52, 0x54, 0x5f, 0x53, 0x54, 0x49, 0x43, 0x4b, 0x5f, 0x55, 0x50, 0x5f, 0x4c, 0x45, 0x46, 0x54, 0x3e], [0x9f]⟩,
  ⟨[0x3c, 0x50, 0x41, 0x44, 0x5f, 0x50, 0x41, 0x52, 0x54, 0x5f, 0x44, 0x50, 0x41, 0x44, 0x5f, 0x44, 0x3e], [0xa0]⟩,
  ⟨[0x3c, 0x50, 0x41, 0x44, 0x5f, 0x50, 0x41, 0x52, 0x54, 0x5f, 0x44, 0x50, 0x41, 0x44, 0x5f, 0x4c, 0x3e], [0xa1]⟩,
  ⟨[0x3c, 0x50, 0x41, 0x44, 0x5f, 0x50, 0x41, 0x52, 0x54, 0x5f, 0x44, 0x50, 0x41, 0x44, 0x5f, 0x55, 0x3e], [0xa2]⟩,
  ⟨[0x3c, 0x50, 0x41, 0x44, 0x5f, 0x50, 0x41, 0x52, 0x54, 0x5f, 0x44, 0x50, 0x41, 0x44, 0x5f, 0x52, 0x3e], [0xa3]⟩,
  ⟨[0x3c, 0x50, 0x41, 0x44, 0x5f, 0x50, 0x41, 0x52, 0x54, 0x5f, 0x53, 0x54, 0x49, 0x43, 0x4b, 0x5f, 0x52, 0x49, 0x47, 0x48, 0x54, 0x3e], [0xa4]⟩,
  ⟨[0x3c, 0x50, 0x41, 0x44, 0x5f, 0x50, 0x41, 0x52, 0x54, 0x5f, 0x53, 0x54, 0x49, 0x43, 0x4b, 0x5f, 0x44, 0x4f, 0x57, 0x4e, 0x5f, 0x52, 0x49, 0x47, 0x48, 0x54, 0x3e], [0xa5]⟩,
  ⟨[0x3c, 0x50, 0x41, 0x44, 0x5f, 0x50, 0x41, 0x52, 0x54, 0x5f, 0x53, 0x48, 0x4f, 0x55, 0x4c, 0x44, 0x45, 0x52, 0x5f, 0x54, 0x4f, 0x50, 0x5f, 0x4c, 0x45, 0x46, 0x54, 0x3e], [0xa6]⟩,
  ⟨[0x3c, 0x50, 0x41, 0x44, 0x5f, 0x50, 0x41, 0x52, 0x54, 0x5f, 0x53, 0x48, 0x4f, 0x55, 0x4c, 0x44, 0x45, 0x52, 0x5f, 0x54, 0x4f, 0x50, 0x5f, 0x52, 0x49, 0x47, 0x48, 0x54, 0x3e], [0xa7]⟩,
  ⟨[0x3c, 0x50, 0x41, 0x44, 0x5f, 0x50, 0x41, 0x52, 0x54, 0x5f, 0x54, 0x52, 0x49, 0x47, 0x47, 0x45, 0x52, 0x5f, 0x54, 0x4f, 0x50, 0x5f, 0x4c, 0x45, 0x46, 0x54, 0x3e], [0xa8]⟩,
  ⟨[0x3c, 0x50, 0x41, 0x44, 0x5f, 0x50, 0x41, 0x52, 0x54, 0x5f, 0x54, 0x52, 0x49, 0x47, 0x47, 0x45, 0x52, 0x5f, 0x54, 0x4f, 0x50, 0x5f, 0x52, 0x49, 0x47, 0x48, 0x54, 0x3e], [0xa9]⟩,
  ⟨[0x3c, 0x50, 0x41, 0x44, 0x5f, 0x50, 0x41, 0x52, 0x54, 0x5f, 0x54, 0x52, 0x49, 0x47, 0x47, 0x45, 0x52, 0x5f, 0x53, 0x48, 0x49, 0x4d, 0x31, 0x3e], [0xaa]⟩,
  ⟨[0x3c, 0x50, 0x41, 0x44, 0x5f, 0x50, 0x41, 0x52, 0x54, 0x5f, 0x54, 0x52, 0x49, 0x47, 0x47, 0x45, 0x52, 0x5f, 0x53, 0x48, 0x49, 0x4d, 0x32, 0x3e], [0xab]⟩,
  ⟨[0x3c, 0x50, 0x41, 0x44, 0x5f, 0x50, 0x41, 0x52, 0x54, 0x5f, 0x53, 0x48, 0x4f, 0x55, 0x4c, 0x44, 0x45, 0x52, 0x5f, 0x53, 0x48, 0x49, 0x4d, 0x32, 0x3e], [0xac]⟩
]

/-- Entries 60-119 of `s_encode_info_jak2` (split to keep list literals small). -/
def s_encode_info_jak2_part1 : List EncodeInfo := [
  ⟨[0x3c, 0x50, 0x41, 0x44, 0x5f, 0x50, 0x41, 0x52, 0x54, 0x5f, 0x53, 0x48, 0x4f, 0x55, 0x4c, 0x44, 0x45, 0x52, 0x5f, 0x42, 0x4f, 0x54, 0x54, 0x4f, 0x4d, 0x5f, 0x4c, 0x45, 0x46, 0x54, 0x3e], [0xb0]⟩,
  ⟨[0x3c, 0x50, 0x41, 0x44, 0x5f, 0x50, 0x41, 0x52, 0x54, 0x5f, 0x53, 0x48, 0x4f, 0x55, 0x4c, 0x44, 0x45, 0x52, 0x5f, 0x42, 0x4f, 0x54, 0x54, 0x4f, 0x4d, 0x5f, 0x52, 0x49, 0x47, 0x48, 0x54, 0x3e], [0xb1]⟩,
  ⟨[0x3c, 0x50, 0x41, 0x44, 0x5f, 0x50, 0x41, 0x52, 0x54, 0x5f, 0x54, 0x52, 0x49, 0x47, 0x47, 0x45, 0x52, 0x5f, 0x42, 0x4f, 0x54, 0x54, 0x4f, 0x4d, 0x5f, 0x4c, 0x45, 0x46, 0x54, 0x3e], [0xb2]⟩,
  ⟨[0x3c, 0x50, 0x41, 0x44, 0x5f, 0x50, 0x41, 0x52, 0x54, 0x5f, 0x54, 0x52, 0x49, 0x47, 0x47, 0x45, 0x52, 0x5f, 0x42, 0x4f, 0x54, 0x54, 0x4f, 0x4d, 0x5f, 0x52, 0x49, 0x47, 0x48, 0x54, 0x3e], [0xb3]⟩,
  ⟨[0xe3, 0x83, 0xbb], [0x01, 0x10]⟩,
  ⟨[0xe3, 0x82, 0x9b], [0x01, 0x11]⟩,
  ⟨[0xe3, 0x82, 0x9c], [0x01, 0x12]⟩,
  ⟨[0xe3, 0x83, 0xbc], [0x01, 0x13]⟩,
  ⟨[0xe3, 0x80, 0x8e], [0x01, 0x14]⟩,
  ⟨[0xe3, 0x80, 0x8f], [0x01, 0x15]⟩,
  ⟨[0xe3, 0x81, 0x81], [0x01, 0x16]⟩,
  ⟨[0xe3, 0x81, 0x82], [0x01, 0x17]⟩,
  ⟨[0xe3, 0x81, 0x83], [0x01, 0x18]⟩,
  ⟨[0xe3, 0x81, 0x84], [0x01, 0x19]⟩,
  ⟨[0xe3, 0x81, 0x85], [0x01, 0x1a]⟩,
  ⟨[0xe3, 0x81, 0x86], [0x01, 0x1b]⟩,
  ⟨[0xe3, 0x81, 0x87], [0x01, 0x1c]⟩,
  ⟨[0xe3, 0x81, 0x88], [0x01, 0x1d]⟩,
  ⟨[0xe3, 0x81, 0x89], [0x01, 0x1e]⟩,
  ⟨[0xe3, 0x81, 0x8a], [0x01, 0x1f]⟩,
  ⟨[0xe3, 0x81, 0x8b], [0x01, 0x20]⟩,
  ⟨[0xe3, 0x81, 0x8d], [0x01, 0x21]⟩,
  ⟨[0xe3, 0x81, 0x8f], [0x01, 0x22]⟩,
  ⟨[0xe3, 0x81, 0x91], [0x01, 0x23]⟩,
  ⟨[0xe3, 0x81, 0x93], [0x01, 0x24]⟩,
  ⟨[0xe3, 0x81, 0x95], [0x01, 0x25]⟩,
  ⟨[0xe3, 0x81, 0x97], [0x01, 0x26]⟩,
  ⟨[0xe3, 0x81, 0x99], [0x01, 0x27]⟩,
  ⟨[0xe3, 0x81, 0x9b], [0x01, 0x28]⟩,
  ⟨[0xe3, 0x81, 0x9d], [0x01, 0x29]⟩,
  ⟨[0xe3, 0x81, 0x9f], [0x01, 0x2a]⟩,
  ⟨[0xe3, 0x81, 0xa1], [0x01, 0x2b]⟩,
  ⟨[0xe3, 0x81, 0xa3], [0x01, 0x2c]⟩,
  ⟨[0xe3, 0x81, 0xa4], [0x01, 0x2d]⟩,
  ⟨[0xe3, 0x81, 0xa6], [0x01, 0x2e]⟩,
  ⟨[0xe3, 0x81, 0xa8], [0x01, 0x2f]⟩,
  ⟨[0xe3, 0x81, 0xaa], [0x01, 0x30]⟩,
  ⟨[0xe3, 0x81, 0xab], [0x01, 0x31]⟩,
  ⟨[0xe3, 0x81, 0xac], [0x01, 0x32]⟩,
  ⟨[0xe3, 0x81, 0xad], [0x01, 0x33]⟩,
  ⟨[0xe3, 0x81, 0xae], [0x01, 0x34]⟩,
  ⟨[0xe3, 0x81, 0xaf], [0x01, 0x35]⟩,
  ⟨[0xe3, 0x81, 0xb2], [0x01, 0x36]⟩,
  ⟨[0xe3, 0x81, 0xb5], [0x01, 0x37]⟩,
  ⟨[0xe3, 0x81, 0xb8], [0x01, 0x38]⟩,
  ⟨[0xe3, 0x81, 0xbb], [0x01, 0x39]⟩,
  ⟨[0xe3, 0x81, 0xbe], [0x01, 0x3a]⟩,
  ⟨[0xe3, 0x81, 0xbf], [0x01, 0x3b]⟩,
  ⟨[0xe3, 0x82, 0x80], [0x01, 0x3c]⟩,
  ⟨[0xe3, 0x82, 0x81], [0x01, 0x3d]⟩,
  ⟨[0xe3, 0x82, 0x82], [0x01, 0x3e]⟩,
  ⟨[0xe3, 0x82, 0x83], [0x01, 0x3f]⟩,
  ⟨[0xe3, 0x82, 0x84], [0x01, 0x40]⟩,
  ⟨[0xe3, 0x82, 0x85], [0x01, 0x41]⟩,
  ⟨[0xe3, 0x82, 0x86], [0x01, 0x42]⟩,
  ⟨[0xe3, 0x82, 0x87], [0x01, 0x43]⟩,
  ⟨[0xe3, 0x82, 0x88], [0x01, 0x44]⟩,
  ⟨[0xe3, 0x82, 0x89], [0x01, 0x45]⟩,
  ⟨[0xe3, 0x82, 0x8a], [0x01, 0x46]⟩,
  ⟨[0xe3, 0x82, 0x8b], [0x01, 0x47]⟩
]

/-- Entries 120-179 of `s_encode_info_jak2` (split to keep list literals small). -/
def s_encode_info_jak2_part2 : List EncodeInfo := [
  ⟨[0xe3, 0x82, 0x8c], [0x01, 0x48]⟩,
  ⟨[0xe3, 0x82, 0x8d], [0x01, 0x49]⟩,
  ⟨[0xe3, 0x82, 0x8e], [0x01, 0x4a]⟩,
  ⟨[0xe3, 0x82, 0x8f], [0x01, 0x4b]⟩,
  ⟨[0xe3, 0x82, 0x92], [0x01, 0x4c]⟩,
  ⟨[0xe3, 0x82, 0x93], [0x01, 0x4d]⟩,
  ⟨[0xe3, 0x82, 0xa1], [0x01, 0x4e]⟩,
  ⟨[0xe3, 0x82, 0xa2], [0x01, 0x4f]⟩,
  ⟨[0xe3, 0x82, 0xa3], [0x01, 0x50]⟩,
  ⟨[0xe3, 0x82, 0xa4], [0x01, 0x51]⟩,
  ⟨[0xe3, 0x82, 0xa5], [0x01, 0x52]⟩,
  ⟨[0xe3, 0x82, 0xa6], [0x01, 0x53]⟩,
  ⟨[0xe3, 0x82, 0xa7], [0x01, 0x54]⟩,
  ⟨[0xe3, 0x82, 0xa8], [0x01, 0x55]⟩,
  ⟨[0xe3, 0x82, 0xa9], [0x01, 0x56]⟩,
  ⟨[0xe3, 0x82, 0xaa], [0x01, 0x57]⟩,
  ⟨[0xe3, 0x82, 0xab], [0x01, 0x58]⟩,
  ⟨[0xe3, 0x82, 0xad], [0x01, 0x59]⟩,
  ⟨[0xe3, 0x82, 0xaf], [0x01, 0x5a]⟩,
  ⟨[0xe3, 0x82, 0xb1], [0x01, 0x5b]⟩,
  ⟨[0xe3, 0x82, 0xb3], [0x01, 0x5c]⟩,
  ⟨[0xe3, 0x82, 0xb5], [0x01, 0x5d]⟩,
  ⟨[0xe3, 0x82, 0xb7], [0x01, 0x5e]⟩,
  ⟨[0xe3, 0x82, 0xb9], [0x01, 0x5f]⟩,
  ⟨[0xe3, 0x82, 0xbb], [0x01, 0x60]⟩,
  ⟨[0xe3, 0x82, 0xbd], [0x01, 0x61]⟩,
  ⟨[0xe3, 0x82, 0xbf], [0x01, 0x62]⟩,
  ⟨[0xe3, 0x83, 0x81], [0x01, 0x63]⟩,
  ⟨[0xe3, 0x83, 0x83], [0x01, 0x64]⟩,
  ⟨[0xe3, 0x83, 0x84], [0x01, 0x65]⟩,
  ⟨[0xe3, 0x83, 0x86], [0x01, 0x66]⟩,
  ⟨[0xe3, 0x83, 0x88], [0x01, 0x67]⟩,
  ⟨[0xe3, 0x83, 0x8a], [0x01, 0x68]⟩,
  ⟨[0xe3, 0x83, 0x8b], [0x01, 0x69]⟩,
  ⟨[0xe3, 0x83, 0x8c], [0x01, 0x6a]⟩,
  ⟨[0xe3, 0x83, 0x8d], [0x01, 0x6b]⟩,
  ⟨[0xe3, 0x83, 0x8e], [0x01, 0x6c]⟩,
  ⟨[0xe3, 0x83, 0x8f], [0x01, 0x6d]⟩,
  ⟨[0xe3, 0x83, 0x92], [0x01, 0x6e]⟩,
  ⟨[0xe3, 0x83, 0x95], [0x01, 0x6f]⟩,
  ⟨[0xe3, 0x83, 0x98], [0x01, 0x70]⟩,
  ⟨[0xe3, 0x83, 0x9b], [0x01, 0x71]⟩,
  ⟨[0xe3, 0x83, 0x9e], [0x01, 0x72]⟩,
  ⟨[0xe3, 0x83, 0x9f], [0x01, 0x73]⟩,
  ⟨[0xe3, 0x83, 0xa0], [0x01, 0x74]⟩,
  ⟨[0xe3, 0x83, 0xa1], [0x01, 0x75]⟩,
  ⟨[0xe3, 0x83, 0xa2], [0x01, 0x76]⟩,
  ⟨[0xe3, 0x83, 0xa3], [0x01, 0x77]⟩,
  ⟨[0xe3, 0x83, 0xa4], [0x01, 0x78]⟩,
  ⟨[0xe3, 0x83, 0xa5], [0x01, 0x79]⟩,
  ⟨[0xe3, 0x83, 0xa6], [0x01, 0x7a]⟩,
  ⟨[0xe3, 0x83, 0xa7], [0x01, 0x7b]⟩,
  ⟨[0xe3, 0x83, 0xa8], [0x01, 0x7c]⟩,
  ⟨[0xe3, 0x83, 0xa9], [0x01, 0x7d]⟩,
  ⟨[0xe3, 0x83, 0xaa], [0x01, 0x7e]⟩,
  ⟨[0xe3, 0x83, 0xab], [0x01, 0x7f]⟩,
  ⟨[0xe3, 0x83, 0xac], [0x01, 0x80]⟩,
  ⟨[0xe3, 0x83, 0xad], [0x01, 0x81]⟩,
  ⟨[0xe3, 0x83, 0xae], [0x01, 0x82]⟩,
  ⟨[0xe3, 0x83, 0xaf], [0x01, 0x83]⟩
]

/-- Entries 180-239 of `s_encode_info_jak2` (split to keep list literals small). -/
def s_encode_info_jak2_part3 : List EncodeInfo := [
  ⟨[0xe3, 0x83, 0xb2], [0x01, 0x84]⟩,
  ⟨[0xe3, 0x83, 0xb3], [0x01, 0x85]⟩,
  ⟨[0xe4, 0xbd, 0x8d], [0x01, 0x8c]⟩,
  ⟨[0xe9, 0x81, 0xba], [0x01, 0x8d]⟩,
  ⟨[0xe9, 0x99, 0xa2], [0x01, 0x8e]⟩,
  ⟨[0xe6, 0x98, 0xa0], [0x01, 0x8f]⟩,
  ⟨[0xe8, 0xa1, 0x9b], [0x01, 0x90]⟩,
  ⟨[0xe5, 0xbf, 0x9c], [0x01, 0x91]⟩,
  ⟨[0xe4, 0xb8, 0x8b], [0x01, 0x92]⟩,
  ⟨[0xe7, 0x94, 0xbb], [0x01, 0x93]⟩,
  ⟨[0xe8, 0xa7, 0xa3], [0x01, 0x94]⟩,
  ⟨[0xe9, 0x96, 0x8b], [0x01, 0x95]⟩,
  ⟨[0xe5, 0xa4, 0x96], [0x01, 0x96]⟩,
  ⟨[0xe5, 0xae, 0xb3], [0x01, 0x97]⟩,
  ⟨[0xe8, 0x93, 0x8b], [0x01, 0x98]⟩,
  ⟨[0xe5, 0xae, 0x8c], [0x01, 0x99]⟩,
  ⟨[0xe6, 0x8f, 0x9b], [0x01, 0x9a]⟩,
  ⟨[0xe7, 0x9b, 0xa3], [0x01, 0x9b]⟩,
  ⟨[0xe9, 0x96, 0x93], [0x01, 0x9c]⟩,
  ⟨[0xe5, 0x99, 0xa8], [0x01, 0x9d]⟩,
  ⟨[0xe8, 0xa8, 0x98], [0x01, 0x9e]⟩,
  ⟨[0xe9, 0x80, 0x86], [0x01, 0x9f]⟩,
  ⟨[0xe6, 0x95, 0x91], [0x01, 0xa0]⟩,
  ⟨[0xe9, 0x87, 0x91], [0x01, 0xa1]⟩,
  ⟨[0xe7, 0xa9, 0xba], [0x01, 0xa2]⟩,
  ⟨[0xe6, 0x8e, 0x98], [0x01, 0xa3]⟩,
  ⟨[0xe8, 0xad, 0xa6], [0x01, 0xa4]⟩,
  ⟨[0xe8, 0xbf, 0x8e], [0x01, 0xa5]⟩,
  ⟨[0xe6, 0x92, 0x83], [0x01, 0xa6]⟩,
  ⟨[0xe5, 0xbb, 0xba], [0x01, 0xa7]⟩,
  ⟨[0xe6, 0xba, 0x90], [0x01, 0xa8]⟩,
  ⟨[0xe7, 0x8f, 0xbe], [0x01, 0xa9]⟩,
  ⟨[0xe8, 0xa8, 0x80], [0x01, 0xaa]⟩,
  ⟨[0xe9, 0x99, 0x90], [0x01, 0xab]⟩,
  ⟨[0xe5, 0x80, 0x8b], [0x01, 0xac]⟩,
  ⟨[0xe5, 0xba, 0xab], [0x01, 0xad]⟩,
  ⟨[0xe5, 0xbe, 0x8c], [0x01, 0xae]⟩,
  ⟨[0xe8, 0xaa, 0x9e], [0x01, 0xaf]⟩,
  ⟨[0xe8, 0xad, 0xb7], [0x01, 0xb0]⟩,
  ⟨[0xe4, 0xba, 0xa4], [0x01, 0xb1]⟩,
  ⟨[0xe5, 0x8a, 0x9f], [0x01, 0xb2]⟩,
  ⟨[0xe5, 0x90, 0x91], [0x01, 0xb3]⟩,
  ⟨[0xe5, 0xb7, 0xa5], [0x01, 0xb4]⟩,
  ⟨[0xe6, 0x94, 0xbb], [0x01, 0xb5]⟩,
  ⟨[0xe6, 0xba, 0x9d], [0x01, 0xb6]⟩,
  ⟨[0xe8, 0xa1, 0x8c], [0x01, 0xb7]⟩,
  ⟨[0xe9, 0x89, 0xb1], [0x01, 0xb8]⟩,
  ⟨[0xe9, 0x99, 0x8d], [0x01, 0xb9]⟩,
  ⟨[0xe5, 0x90, 0x88], [0x01, 0xba]⟩,
  ⟨[0xe5, 0x91, 0x8a], [0x01, 0xbb]⟩,
  ⟨[0xe7, 0x8d, 0x84], [0x01, 0xbc]⟩,
  ⟨[0xe5, 0xbd, 0xa9], [0x01, 0xbd]⟩,
  ⟨[0xe4, 0xbd, 0x9c], [0x01, 0xbe]⟩,
  ⟨[0xe5, 0xb1, 0xb1], [0x01, 0xbf]⟩,
  ⟨[0xe4, 0xbd, 0xbf], [0x01, 0xc0]⟩,
  ⟨[0xe5, 0xa7, 0x8b], [0x01, 0xc1]⟩,
  ⟨[0xe8, 0xa9, 0xa6], [0x01, 0xc2]⟩,
  ⟨[0xe5, 0xad, 0x97], [0x01, 0xc3]⟩,
  ⟨[0xe5, 0xaf, 0xba], [0x01, 0xc4]⟩,
  ⟨[0xe6, 0x99, 0x82], [0x01, 0xc5]⟩
]

/-- Entries 240-299 of `s_encode_info_jak2` (split to keep list literals small). -/
def s_encode_info_jak2_part4 : List EncodeInfo := [
  ⟨[0xe7, 0xa4, 0xba], [0x01, 0xc6]⟩,
  ⟨[0xe8, 0x87, 0xaa], [0x01, 0xc7]⟩,
  ⟨[0xe5, 0xbc, 0x8f], [0x01, 0xc8]⟩,
  ⟨[0xe7, 0x9f, 0xa2], [0x01, 0xc9]⟩,
  ⟨[0xe5, 0xb0, 0x84], [0x01, 0xca]⟩,
  ⟨[0xe8, 0x80, 0x85], [0x01, 0xcb]⟩,
  ⟨[0xe5, 0xae, 0x88], [0x01, 0xcc]⟩,
  ⟨[0xe6, 0x89, 0x8b], [0x01, 0xcd]⟩,
  ⟨[0xe7, 0xb5, 0x82], [0x01, 0xce]⟩,
  ⟨[0xe9, 0x80, 0xb1], [0x01, 0xcf]⟩,
  ⟨[0xe5, 0x87, 0xba], [0x01, 0xd0]⟩,
  ⟨[0xe6, 0x89, 0x80], [0x01, 0xd1]⟩,
  ⟨[0xe6, 0x9b, 0xb8], [0x01, 0xd2]⟩,
  ⟨[0xe5, 0x8b, 0x9d], [0x01, 0xd3]⟩,
  ⟨[0xe7, 0xab, 0xa0], [0x01, 0xd4]⟩,
  ⟨[0xe4, 0xb8, 0x8a], [0x01, 0xd5]⟩,
  ⟨[0xe4, 0xb9, 0x97], [0x01, 0xd6]⟩,
  ⟨[0xe5, 0xa0, 0xb4], [0x01, 0xd7]⟩,
  ⟨[0xe6, 0xa3, 0xae], [0x01, 0xd8]⟩,
  ⟨[0xe9, 0x80, 0xb2], [0x01, 0xd9]⟩,
  ⟨[0xe4, 0xba, 0xba], [0x01, 0xda]⟩,
  ⟨[0xe6, 0xb0, 0xb4], [0x01, 0xdb]⟩,
  ⟨[0xe6, 0x95, 0xb0], [0x01, 0xdc]⟩,
  ⟨[0xe5, 0x88, 0xb6], [0x01, 0xdd]⟩,
  ⟨[0xe6, 0x80, 0xa7], [0x01, 0xde]⟩,
  ⟨[0xe6, 0x88, 0x90], [0x01, 0xdf]⟩,
  ⟨[0xe8, 0x81, 0x96], [0x01, 0xe0]⟩,
  ⟨[0xe7, 0x9f, 0xb3], [0x01, 0xe1]⟩,
  ⟨[0xe8, 0xb7, 0xa1], [0x01, 0xe2]⟩,
  ⟨[0xe5, 0x85, 0x88], [0x01, 0xe3]⟩,
  ⟨[0xe6, 0x88, 0xa6], [0x01, 0xe4]⟩,
  ⟨[0xe8, 0x88, 0xb9], [0x01, 0xe5]⟩,
  ⟨[0xe9, 0x81, 0xb8], [0x01, 0xe6]⟩,
  ⟨[0xe8, 0xb5, 0xb0], [0x01, 0xe7]⟩,
  ⟨[0xe9, 0x80, 0x81], [0x01, 0xe8]⟩,
  ⟨[0xe5, 0x83, 0x8f], [0x01, 0xe9]⟩,
  ⟨[0xe9, 0x80, 0xa0], [0x01, 0xea]⟩,
  ⟨[0xe7, 0xb6, 0x9a], [0x01, 0xeb]⟩,
  ⟨[0xe5, 0xaf, 0xbe], [0x01, 0xec]⟩,
  ⟨[0xe8, 0xa2, 0x8b], [0x01, 0xed]⟩,
  ⟨[0xe5, 0x8f, 0xb0], [0x01, 0xee]⟩,
  ⟨[0xe5, 0xbc, 0xbe], [0x01, 0xef]⟩,
  ⟨[0xe5, 0x9c, 0xb0], [0x01, 0xf0]⟩,
  ⟨[0xe4, 0xb8, 0xad], [0x01, 0xf1]⟩,
  ⟨[0xe6, 0x95, 0xb5], [0x01, 0xf2]⟩,
  ⟨[0xe8, 0xbb, 0xa2], [0x01, 0xf3]⟩,
  ⟨[0xe9, 0x9b, 0xbb], [0x01, 0xf4]⟩,
  ⟨[0xe5, 0xa1, 0x94], [0x01, 0xf5]⟩,
  ⟨[0xe9, 0xa0, 0xad], [0x01, 0xf6]⟩,
  ⟨[0xe5, 0x8b, 0x95], [0x01, 0xf7]⟩,
  ⟨[0xe5, 0x86, 0x85], [0x01, 0xf8]⟩,
  ⟨[0xe6, 0x97, 0xa5], [0x01, 0xf9]⟩,
  ⟨[0xe5, 0x85, 0xa5], [0x01, 0xfa]⟩,
  ⟨[0xe5, 0xb9, 0xb4], [0x01, 0xfb]⟩,
  ⟨[0xe8, 0x83, 0xbd], [0x01, 0xfc]⟩,
  ⟨[0xe5, 0xbb, 0x83], [0x01, 0xfd]⟩,
  ⟨[0xe6, 0x8e, 0x92], [0x01, 0xfe]⟩,
  ⟨[0xe6, 0x95, 0x97], [0x01, 0xff]⟩,
  ⟨[0xe7, 0x99, 0xba], [0x02, 0x10]⟩,
  ⟨[0xe5, 0x8f, 0x8d], [0x02, 0x11]⟩
]

/-- Entries 300-359 of `s_encode_info_jak2` (split to keep list literals small). -/
def s_encode_info_jak2_part5 : List EncodeInfo := [
  ⟨[0xe5, 0xbf, 0x85], [0x02, 0x12]⟩,
  ⟨[0xe8, 0xa1, 0xa8], [0x02, 0x13]⟩,
  ⟨[0xe6, 0xad, 0xa6], [0x02, 0x14]⟩,
  ⟨[0xe5, 0xa3, 0x81], [0x02, 0x15]⟩,
  ⟨[0xe5, 0xa2, 0x93], [0x02, 0x16]⟩,
  ⟨[0xe6, 0x94, 0xbe], [0x02, 0x17]⟩,
  ⟨[0xe6, 0x96, 0xb9], [0x02, 0x18]⟩,
  ⟨[0xe7, 0xa0, 0xb2], [0x02, 0x19]⟩,
  ⟨[0xe5, 0xa6, 0xa8], [0x02, 0x1a]⟩,
  ⟨[0xe5, 0x8c, 0x97], [0x02, 0x1b]⟩,
  ⟨[0xe6, 0x9c, 0xac], [0x02, 0x1c]⟩,
  ⟨[0xe5, 0xb9, 0x95], [0x02, 0x1d]⟩,
  ⟨[0xe7, 0x84, 0xa1], [0x02, 0x1e]⟩,
  ⟨[0xe8, 0xbf, 0xb7], [0x02, 0x1f]⟩,
  ⟨[0xe9, 0x9d, 0xa2], [0x02, 0x20]⟩,
  ⟨[0xe6, 0x88, 0xbb], [0x02, 0x21]⟩,
  ⟨[0xe7, 0xb4, 0x8b], [0x02, 0x22]⟩,
  ⟨[0xe8, 0x96, 0xac], [0x02, 0x23]⟩,
  ⟨[0xe8, 0xbc, 0xb8], [0x02, 0x24]⟩,
  ⟨[0xe5, 0x8b, 0x87], [0x02, 0x25]⟩,
  ⟨[0xe5, 0x8f, 0x8b], [0x02, 0x26]⟩,
  ⟨[0xe9, 0x81, 0x8a], [0x02, 0x27]⟩,
  ⟨[0xe5, 0xae, 0xb9], [0x02, 0x28]⟩,
  ⟨[0xe8, 0xa6, 0x81], [0x02, 0x29]⟩,
  ⟨[0xe5, 0x88, 0xa9], [0x02, 0x2a]⟩,
  ⟨[0xe4, 0xba, 0x86], [0x02, 0x2b]⟩,
  ⟨[0xe9, 0x87, 0x8f], [0x02, 0x2c]⟩,
  ⟨[0xe5, 0x8a, 0x9b], [0x02, 0x2d]⟩,
  ⟨[0xe7, 0xb7, 0xb4], [0x02, 0x2e]⟩,
  ⟨[0xe9, 0x80, 0xa3], [0x02, 0x2f]⟩,
  ⟨[0xe9, 0x8c, 0xb2], [0x02, 0x30]⟩,
  ⟨[0xe8, 0xa9, 0xb1], [0x02, 0x31]⟩,
  ⟨[0xe5, 0xa2, 0x9f], [0x02, 0x32]⟩,
  ⟨[0xe8, 0x84, 0xb1], [0x02, 0x33]⟩,
  ⟨[0xe6, 0x97, 0x97], [0x02, 0x35]⟩,
  ⟨[0xe7, 0xa0, 0xb4], [0x02, 0x36]⟩,
  ⟨[0xe5, 0xa3, 0x8a], [0x02, 0x37]⟩,
  ⟨[0xe5, 0x85, 0xa8], [0x02, 0x38]⟩,
  ⟨[0xe6, 0xbb, 0x85], [0x02, 0x39]⟩,
  ⟨[0xe6, 0xa9, 0x9f], [0x02, 0x3a]⟩,
  ⟨[0xe4, 0xbb, 0xb2], [0x02, 0x3b]⟩,
  ⟨[0xe6, 0xb8, 0x93], [0x02, 0x3c]⟩,
  ⟨[0xe8, 0xb0, 0xb7], [0x02, 0x3d]⟩,
  ⟨[0xe5, 0x84, 0xaa], [0x02, 0x3e]⟩,
  ⟨[0xe6, 0x8e, 0xa2], [0x02, 0x3f]⟩,
  ⟨[0xe9, 0x83, 0xa8], [0x02, 0x40]⟩,
  ⟨[0xe7, 0xb4, 0xa2], [0x02, 0x41]⟩,
  ⟨[0xe5, 0x89, 0x8d], [0x02, 0x43]⟩,
  ⟨[0xe5, 0x8f, 0xb3], [0x02, 0x44]⟩,
  ⟨[0xe5, 0xb7, 0xa6], [0x02, 0x45]⟩,
  ⟨[0xe4, 0xbc, 0x9a], [0x02, 0x46]⟩,
  ⟨[0xe9, 0xab, 0x98], [0x02, 0x47]⟩,
  ⟨[0xe4, 0xbd, 0x8e], [0x02, 0x48]⟩,
  ⟨[0xe6, 0x8a, 0xbc], [0x02, 0x49]⟩,
  ⟨[0xe5, 0x88, 0x87], [0x02, 0x4a]⟩,
  ⟨[0xe6, 0x9b, 0xbf], [0x02, 0x4b]⟩,
  ⟨[0xe7, 0xa7, 0x92], [0x02, 0x4d]⟩,
  ⟨[0xe7, 0xae, 0xb1], [0x02, 0x4e]⟩,
  ⟨[0xe6, 0xb3, 0xb3], [0x02, 0x4f]⟩,
  ⟨[0xef, 0xbd, 0x9e], [0x02, 0x50]⟩
]

/-- Entries 360-419 of `s_encode_info_jak2` (split to keep list literals small). -/
def s_encode_info_jak2_part6 : List EncodeInfo := [
  ⟨[0xe9, 0x97, 0x87], [0x02, 0x56]⟩,
  ⟨[0xe4, 0xbb, 0xa5], [0x02, 0x57]⟩,
  ⟨[0xe5, 0xb1, 0x8b], [0x02, 0x58]⟩,
  ⟨[0xe4, 0xbf, 0xba], [0x02, 0x59]⟩,
  ⟨[0xe5, 0x8c, 0x96], [0x02, 0x5a]⟩,
  ⟨[0xe7, 0x95, 0x8c], [0x02, 0x5b]⟩,
  ⟨[0xe6, 0x84, 0x9f], [0x02, 0x5c]⟩,
  ⟨[0xe6, 0xb0, 0x97], [0x02, 0x5d]⟩,
  ⟨[0xe5, 0x8d, 0xb4], [0x02, 0x5e]⟩,
  ⟨[0xe6, 0x9b, 0xb2], [0x02, 0x5f]⟩,
  ⟨[0xe7, 0xb6, 0x99], [0x02, 0x60]⟩,
  ⟨[0xe6, 0xa8, 0xa9], [0x02, 0x61]⟩,
  ⟨[0xe8, 0xa6, 0x8b], [0x02, 0x62]⟩,
  ⟨[0xe5, 0x8f, 0xa4], [0x02, 0x63]⟩,
  ⟨[0xe5, 0xa5, 0xbd], [0x02, 0x64]⟩,
  ⟨[0xe6, 0x89, 0x8d], [0x02, 0x66]⟩,
  ⟨[0xe5, 0xa3, 0xab], [0x02, 0x67]⟩,
  ⟨[0xe5, 0xad, 0x90], [0x02, 0x68]⟩,
  ⟨[0xe6, 0xac, 0xa1], [0x02, 0x69]⟩,
  ⟨[0xe4, 0xb8, 0xbb], [0x02, 0x6a]⟩,
  ⟨[0xe7, 0xa8, 0xae], [0x02, 0x6b]⟩,
  ⟨[0xe8, 0xae, 0x90], [0x02, 0x6c]⟩,
  ⟨[0xe5, 0xa5, 0xb3], [0x02, 0x6d]⟩,
  ⟨[0xe5, 0xb0, 0x8f], [0x02, 0x6e]⟩,
  ⟨[0xe7, 0x84, 0xbc], [0x02, 0x6f]⟩,
  ⟨[0xe8, 0xa8, 0xbc], [0x02, 0x70]⟩,
  ⟨[0xe7, 0xa5, 0x9e], [0x02, 0x71]⟩,
  ⟨[0xe8, 0xba, 0xab], [0x02, 0x72]⟩,
  ⟨[0xe5, 0xaf, 0xb8], [0x02, 0x73]⟩,
  ⟨[0xe4, 0xb8, 0x96], [0x02, 0x74]⟩,
  ⟨[0xe6, 0x83, 0xb3], [0x02, 0x75]⟩,
  ⟨[0xe9, 0x80, 0x80], [0x02, 0x76]⟩,
  ⟨[0xe7, 0xac, 0xac], [0x02, 0x77]⟩,
  ⟨[0xe7, 0x9d, 0x80], [0x02, 0x78]⟩,
  ⟨[0xe5, 0xa4, 0xa9], [0x02, 0x79]⟩,
  ⟨[0xe5, 0x80, 0x92], [0x02, 0x7a]⟩,
  ⟨[0xe5, 0x88, 0xb0], [0x02, 0x7b]⟩,
  ⟨[0xe7, 0xaa, 0x81], [0x02, 0x7c]⟩,
  ⟨[0xe7, 0x88, 0x86], [0x02, 0x7d]⟩,
  ⟨[0xe7, 0x95, 0xaa], [0x02, 0x7e]⟩,
  ⟨[0xe8, 0xb2, 0xa0], [0x02, 0x7f]⟩,
  ⟨[0xe5, 0xbe, 0xa9], [0x02, 0x80]⟩,
  ⟨[0xe7, 0x89, 0xa9], [0x02, 0x81]⟩,
  ⟨[0xe7, 0x9c, 0xa0], [0x02, 0x82]⟩,
  ⟨[0xe4, 0xba, 0x88], [0x02, 0x83]⟩,
  ⟨[0xe7, 0x94, 0xa8], [0x02, 0x84]⟩,
  ⟨[0xe8, 0x90, 0xbd], [0x02, 0x85]⟩,
  ⟨[0xe7, 0xb7, 0x91], [0x02, 0x86]⟩,
  ⟨[0xe5, 0xb0, 0x81], [0x02, 0x88]⟩,
  ⟨[0xe5, 0x8d, 0xb0], [0x02, 0x89]⟩,
  ⟨[0xe6, 0x89, 0x89], [0x02, 0x8a]⟩,
  ⟨[0xe6, 0x9c, 0x80], [0x02, 0x8b]⟩,
  ⟨[0xe5, 0x88, 0xbb], [0x02, 0x8c]⟩,
  ⟨[0xe8, 0xb6, 0xb3], [0x02, 0x8d]⟩,
  ⟨[0x3c, 0x48, 0x31, 0x38, 0x36, 0x3e], [0x01, 0x86]⟩,
  ⟨[0x3c, 0x48, 0x31, 0x38, 0x37, 0x3e], [0x01, 0x87]⟩,
  ⟨[0x3c, 0x48, 0x31, 0x38, 0x38, 0x3e], [0x01, 0x88]⟩,
  ⟨[0x3c, 0x48, 0x31, 0x38, 0x39, 0x3e], [0x01, 0x89]⟩,
  ⟨[0x3c, 0x48, 0x31, 0x38, 0x61, 0x3e], [0x01, 0x8a]⟩,
  ⟨[0x3c, 0x48, 0x33, 0x30, 0x36, 0x3e], [0x03, 0x06]⟩
]

/-- Entries 420-479 of `s_encode_info_jak2` (split to keep list literals small). -/
def s_encode_info_jak2_part7 : List EncodeInfo := [
  ⟨[0x3c, 0x48, 0x33, 0x30, 0x37, 0x3e], [0x03, 0x07]⟩,
  ⟨[0x3c, 0x48, 0x33, 0x30, 0x38, 0x3e], [0x03, 0x08]⟩,
  ⟨[0x3c, 0x48, 0x33, 0x30, 0x39, 0x3e], [0x03, 0x09]⟩,
  ⟨[0x3c, 0x48, 0x33, 0x30, 0x61, 0x3e], [0x03, 0x0a]⟩,
  ⟨[0x3c, 0x48, 0x33, 0x30, 0x62, 0x3e], [0x03, 0x0b]⟩,
  ⟨[0x3c, 0x48, 0x33, 0x30, 0x63, 0x3e], [0x03, 0x0c]⟩,
  ⟨[0x3c, 0x48, 0x33, 0x30, 0x64, 0x3e], [0x03, 0x0d]⟩,
  ⟨[0x3c, 0x48, 0x33, 0x30, 0x65, 0x3e], [0x03, 0x0e]⟩,
  ⟨[0x3c, 0x48, 0x33, 0x30, 0x66, 0x3e], [0x03, 0x0f]⟩,
  ⟨[0x3c, 0x48, 0x33, 0x31, 0x30, 0x3e], [0x03, 0x10]⟩,
  ⟨[0x3c, 0x48, 0x33, 0x31, 0x31, 0x3e], [0x03, 0x11]⟩,
  ⟨[0x3c, 0x48, 0x33, 0x31, 0x32, 0x3e], [0x03, 0x12]⟩,
  ⟨[0x3c, 0x48, 0x33, 0x31, 0x33, 0x3e], [0x03, 0x13]⟩,
  ⟨[0x3c, 0x48, 0x33, 0x31, 0x34, 0x3e], [0x03, 0x14]⟩,
  ⟨[0x3c, 0x48, 0x33, 0x31, 0x35, 0x3e], [0x03, 0x15]⟩,
  ⟨[0x3c, 0x48, 0x33, 0x31, 0x36, 0x3e], [0x03, 0x16]⟩,
  ⟨[0x3c, 0x48, 0x33, 0x31, 0x37, 0x3e], [0x03, 0x17]⟩,
  ⟨[0x3c, 0x48, 0x33, 0x31, 0x38, 0x3e], [0x03, 0x18]⟩,
  ⟨[0x3c, 0x48, 0x33, 0x31, 0x39, 0x3e], [0x03, 0x19]⟩,
  ⟨[0x3c, 0x48, 0x33, 0x31, 0x61, 0x3e], [0x03, 0x1a]⟩,
  ⟨[0x3c, 0x48, 0x33, 0x31, 0x62, 0x3e], [0x03, 0x1b]⟩,
  ⟨[0x3c, 0x48, 0x33, 0x31, 0x63, 0x3e], [0x03, 0x1c]⟩,
  ⟨[0x3c, 0x48, 0x33, 0x31, 0x64, 0x3e], [0x03, 0x1d]⟩,
  ⟨[0x3c, 0x48, 0x33, 0x31, 0x65, 0x3e], [0x03, 0x1e]⟩,
  ⟨[0x3c, 0x48, 0x33, 0x31, 0x66, 0x3e], [0x03, 0x1f]⟩,
  ⟨[0x3c, 0x48, 0x33, 0x32, 0x30, 0x3e], [0x03, 0x20]⟩,
  ⟨[0x3c, 0x48, 0x33, 0x32, 0x31, 0x3e], [0x03, 0x21]⟩,
  ⟨[0x3c, 0x48, 0x33, 0x32, 0x32, 0x3e], [0x03, 0x22]⟩,
  ⟨[0x3c, 0x48, 0x33, 0x32, 0x33, 0x3e], [0x03, 0x23]⟩,
  ⟨[0x3c, 0x48, 0x33, 0x32, 0x34, 0x3e], [0x03, 0x24]⟩,
  ⟨[0x3c, 0x48, 0x33, 0x32, 0x35, 0x3e], [0x03, 0x25]⟩,
  ⟨[0x3c, 0x48, 0x33, 0x32, 0x36, 0x3e], [0x03, 0x26]⟩,
  ⟨[0x3c, 0x48, 0x33, 0x32, 0x37, 0x3e], [0x03, 0x27]⟩,
  ⟨[0x3c, 0x48, 0x33, 0x32, 0x38, 0x3e], [0x03, 0x28]⟩,
  ⟨[0x3c, 0x48, 0x33, 0x32, 0x39, 0x3e], [0x03, 0x29]⟩,
  ⟨[0x3c, 0x48, 0x33, 0x32, 0x61, 0x3e], [0x03, 0x2a]⟩,
  ⟨[0x3c, 0x48, 0x33, 0x32, 0x62, 0x3e], [0x03, 0x2b]⟩,
  ⟨[0x3c, 0x48, 0x33, 0x32, 0x63, 0x3e], [0x03, 0x2c]⟩,
  ⟨[0x3c, 0x48, 0x33, 0x32, 0x64, 0x3e], [0x03, 0x2d]⟩,
  ⟨[0x3c, 0x48, 0x33, 0x32, 0x65, 0x3e], [0x03, 0x2e]⟩,
  ⟨[0x3c, 0x48, 0x33, 0x32, 0x66, 0x3e], [0x03, 0x2f]⟩,
  ⟨[0x3c, 0x48, 0x33, 0x33, 0x30, 0x3e], [0x03, 0x30]⟩,
  ⟨[0x3c, 0x48, 0x33, 0x33, 0x31, 0x3e], [0x03, 0x31]⟩,
  ⟨[0x3c, 0x48, 0x33, 0x33, 0x32, 0x3e], [0x03, 0x32]⟩,
  ⟨[0x3c, 0x48, 0x33, 0x33, 0x33, 0x3e], [0x03, 0x33]⟩,
  ⟨[0x3c, 0x48, 0x33, 0x33, 0x34, 0x3e], [0x03, 0x34]⟩,
  ⟨[0x3c, 0x48, 0x33, 0x33, 0x35, 0x3e], [0x03, 0x35]⟩,
  ⟨[0x3c, 0x48, 0x33, 0x33, 0x36, 0x3e], [0x03, 0x36]⟩,
  ⟨[0x3c, 0x48, 0x33, 0x33, 0x37, 0x3e], [0x03, 0x37]⟩,
  ⟨[0x3c, 0x48, 0x33, 0x33, 0x38, 0x3e], [0x03, 0x38]⟩,
  ⟨[0x3c, 0x48, 0x33, 0x33, 0x39, 0x3e], [0x03, 0x39]⟩,
  ⟨[0x3c, 0x48, 0x33, 0x33, 0x61, 0x3e], [0x03, 0x3a]⟩,
  ⟨[0x3c, 0x48, 0x33, 0x33, 0x62, 0x3e], [0x03, 0x3b]⟩,
  ⟨[0x3c, 0x48, 0x33, 0x33, 0x63, 0x3e], [0x03, 0x3c]⟩,
  ⟨[0x3c, 0x48, 0x33, 0x33, 0x64, 0x3e], [0x03, 0x3d]⟩,
  ⟨[0x3c, 0x48, 0x33, 0x33, 0x65, 0x3e], [0x03, 0x3e]⟩,
  ⟨[0x3c, 0x48, 0x33, 0x33, 0x66, 0x3e], [0x03, 0x3f]⟩,
  ⟨[0x3c, 0x48, 0x33, 0x34, 0x30, 0x3e], [0x03, 0x40]⟩,
  ⟨[0x3c, 0x48, 0x33, 0x34, 0x31, 0x3e], [0x03, 0x41]⟩,
  ⟨[0x3c, 0x48, 0x33, 0x34, 0x32, 0x3e], [0x03, 0x42]⟩
]

/-- Entries 480-539 of `s_encode_info_jak2` (split to keep list literals small). -/
def s_encode_info_jak2_part8 : List EncodeInfo := [
  ⟨[0x3c, 0x48, 0x33, 0x34, 0x33, 0x3e], [0x03, 0x43]⟩,
  ⟨[0x3c, 0x48, 0x33, 0x34, 0x34, 0x3e], [0x03, 0x44]⟩,
  ⟨[0x3c, 0x48, 0x33, 0x34, 0x35, 0x3e], [0x03, 0x45]⟩,
  ⟨[0x3c, 0x48, 0x33, 0x34, 0x36, 0x3e], [0x03, 0x46]⟩,
  ⟨[0x3c, 0x48, 0x33, 0x34, 0x37, 0x3e], [0x03, 0x47]⟩,
  ⟨[0x3c, 0x48, 0x33, 0x34, 0x38, 0x3e], [0x03, 0x48]⟩,
  ⟨[0x3c, 0x48, 0x33, 0x34, 0x39, 0x3e], [0x03, 0x49]⟩,
  ⟨[0x3c, 0x48, 0x33, 0x34, 0x61, 0x3e], [0x03, 0x4a]⟩,
  ⟨[0x3c, 0x48, 0x33, 0x34, 0x62, 0x3e], [0x03, 0x4b]⟩,
  ⟨[0x3c, 0x48, 0x33, 0x34, 0x63, 0x3e], [0x03, 0x4c]⟩,
  ⟨[0x3c, 0x48, 0x33, 0x34, 0x64, 0x3e], [0x03, 0x4d]⟩,
  ⟨[0x3c, 0x48, 0x33, 0x34, 0x65, 0x3e], [0x03, 0x4e]⟩,
  ⟨[0x3c, 0x48, 0x33, 0x34, 0x66, 0x3e], [0x03, 0x4f]⟩,
  ⟨[0x3c, 0x48, 0x33, 0x35, 0x30, 0x3e], [0x03, 0x50]⟩,
  ⟨[0x3c, 0x48, 0x33, 0x35, 0x31, 0x3e], [0x03, 0x51]⟩,
  ⟨[0x3c, 0x48, 0x33, 0x35, 0x32, 0x3e], [0x03, 0x52]⟩,
  ⟨[0x3c, 0x48, 0x33, 0x35, 0x33, 0x3e], [0x03, 0x53]⟩,
  ⟨[0x3c, 0x48, 0x33, 0x35, 0x34, 0x3e], [0x03, 0x54]⟩,
  ⟨[0x3c, 0x48, 0x33, 0x35, 0x35, 0x3e], [0x03, 0x55]⟩,
  ⟨[0x3c, 0x48, 0x33, 0x35, 0x36, 0x3e], [0x03, 0x56]⟩,
  ⟨[0x3c, 0x48, 0x33, 0x35, 0x37, 0x3e], [0x03, 0x57]⟩,
  ⟨[0x3c, 0x48, 0x33, 0x35, 0x38, 0x3e], [0x03, 0x58]⟩,
  ⟨[0x3c, 0x48, 0x33, 0x35, 0x39, 0x3e], [0x03, 0x59]⟩,
  ⟨[0x3c, 0x48, 0x33, 0x35, 0x61, 0x3e], [0x03, 0x5a]⟩,
  ⟨[0x3c, 0x48, 0x33, 0x35, 0x62, 0x3e], [0x03, 0x5b]⟩,
  ⟨[0x3c, 0x48, 0x33, 0x35, 0x63, 0x3e], [0x03, 0x5c]⟩,
  ⟨[0x3c, 0x48, 0x33, 0x35, 0x64, 0x3e], [0x03, 0x5d]⟩,
  ⟨[0x3c, 0x48, 0x33, 0x35, 0x65, 0x3e], [0x03, 0x5e]⟩,
  ⟨[0x3c, 0x48, 0x33, 0x35, 0x66, 0x3e], [0x03, 0x5f]⟩,
  ⟨[0x3c, 0x48, 0x33, 0x36, 0x30, 0x3e], [0x03, 0x60]⟩,
  ⟨[0x3c, 0x48, 0x33, 0x36, 0x31, 0x3e], [0x03, 0x61]⟩,
  ⟨[0x3c, 0x48, 0x33, 0x36, 0x32, 0x3e], [0x03, 0x62]⟩,
  ⟨[0x3c, 0x48, 0x33, 0x36, 0x33, 0x3e], [0x03, 0x63]⟩,
  ⟨[0x3c, 0x48, 0x33, 0x36, 0x34, 0x3e], [0x03, 0x64]⟩,
  ⟨[0x3c, 0x48, 0x33, 0x36, 0x35, 0x3e], [0x03, 0x65]⟩,
  ⟨[0x3c, 0x48, 0x33, 0x36, 0x36, 0x3e], [0x03, 0x66]⟩,
  ⟨[0x3c, 0x48, 0x33, 0x36, 0x37, 0x3e], [0x03, 0x67]⟩,
  ⟨[0x3c, 0x48, 0x33, 0x36, 0x38, 0x3e], [0x03, 0x68]⟩,
  ⟨[0x3c, 0x48, 0x33, 0x36, 0x39, 0x3e], [0x03, 0x69]⟩,
  ⟨[0x3c, 0x48, 0x33, 0x36, 0x61, 0x3e], [0x03, 0x6a]⟩,
  ⟨[0x3c, 0x48, 0x33, 0x36, 0x62, 0x3e], [0x03, 0x6b]⟩,
  ⟨[0x3c, 0x48, 0x33, 0x36, 0x63, 0x3e], [0x03, 0x6c]⟩,
  ⟨[0x3c, 0x48, 0x33, 0x36, 0x64, 0x3e], [0x03, 0x6d]⟩,
  ⟨[0x3c, 0x48, 0x33, 0x36, 0x65, 0x3e], [0x03, 0x6e]⟩,
  ⟨[0x3c, 0x48, 0x33, 0x36, 0x66, 0x3e], [0x03, 0x6f]⟩,
  ⟨[0x3c, 0x48, 0x33, 0x37, 0x30, 0x3e], [0x03, 0x70]⟩,
  ⟨[0x3c, 0x48, 0x33, 0x37, 0x31, 0x3e], [0x03, 0x71]⟩,
  ⟨[0x3c, 0x48, 0x33, 0x37, 0x32, 0x3e], [0x03, 0x72]⟩,
  ⟨[0x3c, 0x48, 0x33, 0x37, 0x33, 0x3e], [0x03, 0x73]⟩,
  ⟨[0x3c, 0x48, 0x33, 0x37, 0x34, 0x3e], [0x03, 0x74]⟩,
  ⟨[0x3c, 0x48, 0x33, 0x37, 0x35, 0x3e], [0x03, 0x75]⟩,
  ⟨[0x3c, 0x48, 0x33, 0x37, 0x36, 0x3e], [0x03, 0x76]⟩,
  ⟨[0x3c, 0x48, 0x33, 0x37, 0x37, 0x3e], [0x03, 0x77]⟩,
  ⟨[0x3c, 0x48, 0x33, 0x37, 0x38, 0x3e], [0x03, 0x78]⟩,
  ⟨[0x3c, 0x48, 0x33, 0x37, 0x39, 0x3e], [0x03, 0x79]⟩,
  ⟨[0x3c, 0x48, 0x33, 0x37, 0x61, 0x3e], [0x03, 0x7a]⟩,
  ⟨[0x3c, 0x48, 0x33, 0x37, 0x62, 0x3e], [0x03, 0x7b]⟩,
  ⟨[0x3c, 0x48, 0x33, 0x37, 0x63, 0x3e], [0x03, 0x7c]⟩,
  ⟨[0x3c, 0x48, 0x33, 0x37, 0x64, 0x3e], [0x03, 0x7d]⟩,
  ⟨[0x3c, 0x48, 0x33, 0x37, 0x65, 0x3e], [0x03, 0x7e]⟩
]

/-- Entries 540-599 of `s_encode_info_jak2` (split to keep list literals small). -/
def s_encode_info_jak2_part9 : List EncodeInfo := [
  ⟨[0x3c, 0x48, 0x33, 0x37, 0x66, 0x3e], [0x03, 0x7f]⟩,
  ⟨[0x3c, 0x48, 0x33, 0x38, 0x30, 0x3e], [0x03, 0x80]⟩,
  ⟨[0x3c, 0x48, 0x33, 0x38, 0x31, 0x3e], [0x03, 0x81]⟩,
  ⟨[0x3c, 0x48, 0x33, 0x38, 0x32, 0x3e], [0x03, 0x82]⟩,
  ⟨[0x3c, 0x48, 0x33, 0x38, 0x33, 0x3e], [0x03, 0x83]⟩,
  ⟨[0x3c, 0x48, 0x33, 0x38, 0x34, 0x3e], [0x03, 0x84]⟩,
  ⟨[0x3c, 0x48, 0x33, 0x38, 0x35, 0x3e], [0x03, 0x85]⟩,
  ⟨[0x3c, 0x48, 0x33, 0x38, 0x36, 0x3e], [0x03, 0x86]⟩,
  ⟨[0x3c, 0x48, 0x33, 0x38, 0x37, 0x3e], [0x03, 0x87]⟩,
  ⟨[0x3c, 0x48, 0x33, 0x38, 0x38, 0x3e], [0x03, 0x88]⟩,
  ⟨[0x3c, 0x48, 0x33, 0x38, 0x39, 0x3e], [0x03, 0x89]⟩,
  ⟨[0x3c, 0x48, 0x33, 0x38, 0x61, 0x3e], [0x03, 0x8a]⟩,
  ⟨[0x3c, 0x48, 0x33, 0x38, 0x62, 0x3e], [0x03, 0x8b]⟩,
  ⟨[0x3c, 0x48, 0x33, 0x38, 0x63, 0x3e], [0x03, 0x8c]⟩,
  ⟨[0x3c, 0x48, 0x33, 0x38, 0x64, 0x3e], [0x03, 0x8d]⟩,
  ⟨[0x3c, 0x48, 0x33, 0x38, 0x65, 0x3e], [0x03, 0x8e]⟩,
  ⟨[0x3c, 0x48, 0x33, 0x38, 0x66, 0x3e], [0x03, 0x8f]⟩,
  ⟨[0x3c, 0x48, 0x33, 0x39, 0x30, 0x3e], [0x03, 0x90]⟩,
  ⟨[0x3c, 0x48, 0x33, 0x39, 0x31, 0x3e], [0x03, 0x91]⟩,
  ⟨[0x3c, 0x48, 0x33, 0x39, 0x32, 0x3e], [0x03, 0x92]⟩,
  ⟨[0x3c, 0x48, 0x33, 0x39, 0x33, 0x3e], [0x03, 0x93]⟩,
  ⟨[0x3c, 0x48, 0x33, 0x39, 0x34, 0x3e], [0x03, 0x94]⟩,
  ⟨[0x3c, 0x48, 0x33, 0x39, 0x35, 0x3e], [0x03, 0x95]⟩,
  ⟨[0x3c, 0x48, 0x33, 0x39, 0x36, 0x3e], [0x03, 0x96]⟩,
  ⟨[0x3c, 0x48, 0x33, 0x39, 0x37, 0x3e], [0x03, 0x97]⟩,
  ⟨[0x3c, 0x48, 0x33, 0x39, 0x38, 0x3e], [0x03, 0x98]⟩,
  ⟨[0x3c, 0x48, 0x33, 0x39, 0x39, 0x3e], [0x03, 0x99]⟩,
  ⟨[0x3c, 0x48, 0x33, 0x39, 0x61, 0x3e], [0x03, 0x9a]⟩,
  ⟨[0x3c, 0x48, 0x33, 0x39, 0x62, 0x3e], [0x03, 0x9b]⟩,
  ⟨[0x3c, 0x48, 0x33, 0x39, 0x63, 0x3e], [0x03, 0x9c]⟩,
  ⟨[0x3c, 0x48, 0x33, 0x39, 0x64, 0x3e], [0x03, 0x9d]⟩,
  ⟨[0x3c, 0x48, 0x33, 0x39, 0x65, 0x3e], [0x03, 0x9e]⟩,
  ⟨[0x3c, 0x48, 0x33, 0x39, 0x66, 0x3e], [0x03, 0x9f]⟩,
  ⟨[0x3c, 0x48, 0x33, 0x61, 0x30, 0x3e], [0x03, 0xa0]⟩,
  ⟨[0x3c, 0x48, 0x33, 0x61, 0x31, 0x3e], [0x03, 0xa1]⟩,
  ⟨[0x3c, 0x48, 0x33, 0x61, 0x32, 0x3e], [0x03, 0xa2]⟩,
  ⟨[0x3c, 0x48, 0x33, 0x61, 0x33, 0x3e], [0x03, 0xa3]⟩,
  ⟨[0x3c, 0x48, 0x33, 0x61, 0x34, 0x3e], [0x03, 0xa4]⟩,
  ⟨[0x3c, 0x48, 0x33, 0x61, 0x35, 0x3e], [0x03, 0xa5]⟩,
  ⟨[0x3c, 0x48, 0x33, 0x61, 0x36, 0x3e], [0x03, 0xa6]⟩,
  ⟨[0x3c, 0x48, 0x33, 0x61, 0x37, 0x3e], [0x03, 0xa7]⟩,
  ⟨[0x3c, 0x48, 0x33, 0x61, 0x38, 0x3e], [0x03, 0xa8]⟩,
  ⟨[0x3c, 0x48, 0x33, 0x61, 0x39, 0x3e], [0x03, 0xa9]⟩,
  ⟨[0x3c, 0x48, 0x33, 0x61, 0x61, 0x3e], [0x03, 0xaa]⟩,
  ⟨[0x3c, 0x48, 0x33, 0x61, 0x62, 0x3e], [0x03, 0xab]⟩,
  ⟨[0x3c, 0x48, 0x33, 0x61, 0x63, 0x3e], [0x03, 0xac]⟩,
  ⟨[0x3c, 0x48, 0x33, 0x61, 0x64, 0x3e], [0x03, 0xad]⟩,
  ⟨[0x3c, 0x48, 0x33, 0x61, 0x65, 0x3e], [0x03, 0xae]⟩,
  ⟨[0x3c, 0x48, 0x33, 0x61, 0x66, 0x3e], [0x03, 0xaf]⟩,
  ⟨[0x3c, 0x48, 0x33, 0x62, 0x30, 0x3e], [0x03, 0xb0]⟩,
  ⟨[0x3c, 0x48, 0x33, 0x62, 0x31, 0x3e], [0x03, 0xb1]⟩,
  ⟨[0x3c, 0x48, 0x33, 0x62, 0x32, 0x3e], [0x03, 0xb2]⟩,
  ⟨[0x3c, 0x48, 0x33, 0x62, 0x33, 0x3e], [0x03, 0xb3]⟩,
  ⟨[0x3c, 0x48, 0x33, 0x62, 0x34, 0x3e], [0x03, 0xb4]⟩,
  ⟨[0x3c, 0x48, 0x33, 0x62, 0x35, 0x3e], [0x03, 0xb5]⟩,
  ⟨[0x3c, 0x48, 0x33, 0x62, 0x36, 0x3e], [0x03, 0xb6]⟩,
  ⟨[0x3c, 0x48, 0x33, 0x62, 0x37, 0x3e], [0x03, 0xb7]⟩,
  ⟨[0x3c, 0x48, 0x33, 0x62, 0x38, 0x3e], [0x03, 0xb8]⟩,
  ⟨[0x3c, 0x48, 0x33, 0x62, 0x39, 0x3e], [0x03, 0xb9]⟩,
  ⟨[0x3c, 0x48, 0x33, 0x62, 0x61, 0x3e], [0x03, 0xba]⟩
]

/-- Entries 600-659 of `s_encode_info_jak2` (split to keep list literals small). -/
def s_encode_info_jak2_part10 : List EncodeInfo := [
  ⟨[0x3c, 0x48, 0x33, 0x62, 0x62, 0x3e], [0x03, 0xbb]⟩,
  ⟨[0x3c, 0x48, 0x33, 0x62, 0x63, 0x3e], [0x03, 0xbc]⟩,
  ⟨[0x3c, 0x48, 0x33, 0x62, 0x64, 0x3e], [0x03, 0xbd]⟩,
  ⟨[0x3c, 0x48, 0x33, 0x62, 0x65, 0x3e], [0x03, 0xbe]⟩,
  ⟨[0x3c, 0x48, 0x33, 0x62, 0x66, 0x3e], [0x03, 0xbf]⟩,
  ⟨[0x3c, 0x48, 0x33, 0x63, 0x30, 0x3e], [0x03, 0xc0]⟩,
  ⟨[0x3c, 0x48, 0x33, 0x63, 0x31, 0x3e], [0x03, 0xc1]⟩,
  ⟨[0x3c, 0x48, 0x33, 0x63, 0x32, 0x3e], [0x03, 0xc2]⟩,
  ⟨[0x3c, 0x48, 0x33, 0x63, 0x33, 0x3e], [0x03, 0xc3]⟩,
  ⟨[0x3c, 0x48, 0x33, 0x63, 0x34, 0x3e], [0x03, 0xc4]⟩,
  ⟨[0x3c, 0x48, 0x33, 0x63, 0x35, 0x3e], [0x03, 0xc5]⟩,
  ⟨[0x3c, 0x48, 0x33, 0x63, 0x36, 0x3e], [0x03, 0xc6]⟩,
  ⟨[0x3c, 0x48, 0x33, 0x63, 0x37, 0x3e], [0x03, 0xc7]⟩,
  ⟨[0x3c, 0x48, 0x33, 0x63, 0x38, 0x3e], [0x03, 0xc8]⟩,
  ⟨[0x3c, 0x48, 0x33, 0x63, 0x39, 0x3e], [0x03, 0xc9]⟩,
  ⟨[0x3c, 0x48, 0x33, 0x63, 0x61, 0x3e], [0x03, 0xca]⟩,
  ⟨[0x3c, 0x48, 0x33, 0x63, 0x62, 0x3e], [0x03, 0xcb]⟩,
  ⟨[0x3c, 0x48, 0x33, 0x63, 0x63, 0x3e], [0x03, 0xcc]⟩,
  ⟨[0x3c, 0x48, 0x33, 0x63, 0x64, 0x3e], [0x03, 0xcd]⟩,
  ⟨[0x3c, 0x48, 0x33, 0x63, 0x65, 0x3e], [0x03, 0xce]⟩,
  ⟨[0x3c, 0x48, 0x33, 0x63, 0x66, 0x3e], [0x03, 0xcf]⟩,
  ⟨[0x3c, 0x48, 0x33, 0x64, 0x30, 0x3e], [0x03, 0xd0]⟩,
  ⟨[0x3c, 0x48, 0x33, 0x64, 0x31, 0x3e], [0x03, 0xd1]⟩,
  ⟨[0x3c, 0x48, 0x33, 0x64, 0x32, 0x3e], [0x03, 0xd2]⟩,
  ⟨[0x3c, 0x48, 0x33, 0x64, 0x33, 0x3e], [0x03, 0xd3]⟩,
  ⟨[0x3c, 0x48, 0x33, 0x64, 0x34, 0x3e], [0x03, 0xd4]⟩,
  ⟨[0x3c, 0x48, 0x33, 0x64, 0x35, 0x3e], [0x03, 0xd5]⟩,
  ⟨[0x3c, 0x48, 0x33, 0x64, 0x36, 0x3e], [0x03, 0xd6]⟩,
  ⟨[0x3c, 0x48, 0x33, 0x64, 0x37, 0x3e], [0x03, 0xd7]⟩,
  ⟨[0x3c, 0x48, 0x33, 0x64, 0x38, 0x3e], [0x03, 0xd8]⟩,
  ⟨[0x3c, 0x48, 0x33, 0x64, 0x39, 0x3e], [0x03, 0xd9]⟩,
  ⟨[0x3c, 0x48, 0x33, 0x64, 0x61, 0x3e], [0x03, 0xda]⟩,
  ⟨[0x3c, 0x48, 0x33, 0x64, 0x62, 0x3e], [0x03, 0xdb]⟩,
  ⟨[0x3c, 0x48, 0x33, 0x64, 0x63, 0x3e], [0x03, 0xdc]⟩,
  ⟨[0x3c, 0x48, 0x33, 0x64, 0x64, 0x3e], [0x03, 0xdd]⟩,
  ⟨[0x3c, 0x48, 0x33, 0x64, 0x65, 0x3e], [0x03, 0xde]⟩,
  ⟨[0x3c, 0x48, 0x33, 0x64, 0x66, 0x3e], [0x03, 0xdf]⟩,
  ⟨[0x3c, 0x48, 0x33, 0x65, 0x30, 0x3e], [0x03, 0xe0]⟩,
  ⟨[0x3c, 0x48, 0x33, 0x65, 0x31, 0x3e], [0x03, 0xe1]⟩,
  ⟨[0x3c, 0x48, 0x33, 0x65, 0x32, 0x3e], [0x03, 0xe2]⟩,
  ⟨[0x3c, 0x48, 0x33, 0x65, 0x33, 0x3e], [0x03, 0xe3]⟩,
  ⟨[0x3c, 0x48, 0x33, 0x65, 0x34, 0x3e], [0x03, 0xe4]⟩,
  ⟨[0x3c, 0x48, 0x33, 0x65, 0x35, 0x3e], [0x03, 0xe5]⟩,
  ⟨[0x3c, 0x48, 0x33, 0x65, 0x36, 0x3e], [0x03, 0xe6]⟩,
  ⟨[0x3c, 0x48, 0x33, 0x65, 0x37, 0x3e], [0x03, 0xe7]⟩,
  ⟨[0x3c, 0x48, 0x33, 0x65, 0x38, 0x3e], [0x03, 0xe8]⟩,
  ⟨[0x3c, 0x48, 0x33, 0x65, 0x39, 0x3e], [0x03, 0xe9]⟩,
  ⟨[0x3c, 0x48, 0x33, 0x65, 0x61, 0x3e], [0x03, 0xea]⟩,
  ⟨[0x3c, 0x48, 0x33, 0x65, 0x62, 0x3e], [0x03, 0xeb]⟩,
  ⟨[0x3c, 0x48, 0x33, 0x65, 0x63, 0x3e], [0x03, 0xec]⟩,
  ⟨[0x3c, 0x48, 0x33, 0x65, 0x64, 0x3e], [0x03, 0xed]⟩,
  ⟨[0x3c, 0x48, 0x33, 0x65, 0x65, 0x3e], [0x03, 0xee]⟩,
  ⟨[0x3c, 0x48, 0x33, 0x65, 0x66, 0x3e], [0x03, 0xef]⟩,
  ⟨[0x3c, 0x48, 0x33, 0x66, 0x30, 0x3e], [0x03, 0xf0]⟩,
  ⟨[0x3c, 0x48, 0x33, 0x66, 0x31, 0x3e], [0x03, 0xf1]⟩,
  ⟨[0x3c, 0x48, 0x33, 0x66, 0x32, 0x3e], [0x03, 0xf2]⟩,
  ⟨[0x3c, 0x48, 0x33, 0x66, 0x33, 0x3e], [0x03, 0xf3]⟩,
  ⟨[0x3c, 0x48, 0x33, 0x66, 0x34, 0x3e], [0x03, 0xf4]⟩,
  ⟨[0x3c, 0x48, 0x33, 0x66, 0x35, 0x3e], [0x03, 0xf5]⟩,
  ⟨[0x3c, 0x48, 0x33, 0x66, 0x36, 0x3e], [0x03, 0xf6]⟩
]

/-- Entries 660-668 of `s_encode_info_jak2` (split to keep list literals small). -/
def s_encode_info_jak2_part11 : List EncodeInfo := [
  ⟨[0x3c, 0x48, 0x33, 0x66, 0x37, 0x3e], [0x03, 0xf7]⟩,
  ⟨[0x3c, 0x48, 0x33, 0x66, 0x38, 0x3e], [0x03, 0xf8]⟩,
  ⟨[0x3c, 0x48, 0x33, 0x66, 0x39, 0x3e], [0x03, 0xf9]⟩,
  ⟨[0x3c, 0x48, 0x33, 0x66, 0x61, 0x3e], [0x03, 0xfa]⟩,
  ⟨[0x3c, 0x48, 0x33, 0x66, 0x62, 0x3e], [0x03, 0xfb]⟩,
  ⟨[0x3c, 0x48, 0x33, 0x66, 0x63, 0x3e], [0x03, 0xfc]⟩,
  ⟨[0x3c, 0x48, 0x33, 0x66, 0x64, 0x3e], [0x03, 0xfd]⟩,
  ⟨[0x3c, 0x48, 0x33, 0x66, 0x65, 0x3e], [0x03, 0xfe]⟩,
  ⟨[0x3c, 0x48, 0x33, 0x66, 0x66, 0x3e], [0x03, 0xff]⟩
]

/-- The `s_encode_info_jak2` table of `FontUtils.cpp`, with each
UTF-8 character string expanded to its byte list. -/
def s_encode_info_jak2 : List EncodeInfo :=
  s_encode_info_jak2_part0 ++ s_encode_info_jak2_part1 ++ s_encode_info_jak2_part2 ++ s_encode_info_jak2_part3 ++ s_encode_info_jak2_part4 ++ s_encode_info_jak2_part5 ++ s_encode_info_jak2_part6 ++ s_encode_info_jak2_part7 ++ s_encode_info_jak2_part8 ++ s_encode_info_jak2_part9 ++ s_encode_info_jak2_part10 ++ s_encode_info_jak2_part11

/-- `g_font_bank_jak1_v1`: the Jak 1 (v1) font bank. -/
def g_font_bank_jak1_v1 : GameTextFontBank :=
  GameTextFontBank.construct GameTextVersion.JAK1_V1 s_encode_info_jak1 s_replace_info_jak1
    s_passthrus_jak1

/-- `g_font_bank_jak1_v2`: the Jak 1 (v2) font bank (same replace table and
passthrough set as v1). -/
def g_font_bank_jak1_v2 : GameTextFontBank :=
  GameTextFontBank.construct GameTextVersion.JAK1_V2 s_encode_info_jak1_v2 s_replace_info_jak1
    s_passthrus_jak1

/-- `g_font_bank_jak2`: the Jak 2 font bank. -/
def g_font_bank_jak2 : GameTextFontBank :=
  GameTextFontBank.construct GameTextVersion.JAK2 s_encode_info_jak2 s_replace_info_jak2
    s_passthrus_jak2

/-- `g_font_banks`: the version-to-bank registry (a `std::map` holding all
three versions; modelled as the total function it realises). -/
def g_font_banks : GameTextVersion → GameTextFontBank
  | .JAK1_V1 => g_font_bank_jak1_v1
  | .JAK1_V2 => g_font_bank_jak1_v2
  | .JAK2 => g_font_bank_jak2

/-- `get_font_bank(const std::string&)`: look the name up in
`sTextVerEnumMap`; throw "unknown text version" if absent, otherwise return
the registered bank for the version found.  The lookup reads the registries
and never writes them (mirrored here by being a pure function). -/
def get_font_bank (name : String) : Except FontBankError GameTextFontBank :=
  match sTextVerEnumMap.find? (fun p => p.1 == name) with
  | none => .error .unknownVersion
  | some p => .ok (g_font_banks p.2)

/-- `convert_game_to_utf8` in state-passing form: the C++ method is `const`,
so the operation returns the bank it was called on unchanged. -/
def convert_game_to_utf8_st (bank : GameTextFontBank) (inp : List Nat) (korean : Bool) :
    List Nat × GameTextFontBank :=
  (convert_game_to_utf8 bank inp korean, bank)

/-- `convert_utf8_to_game` in state-passing form (a `const` method). -/
def convert_utf8_to_game_st (bank : GameTextFontBank) (str : List Nat) (escape : Bool) :
    Except EscapeError (List Nat) × GameTextFontBank :=
  (convert_utf8_to_game bank str escape, bank)

/-- `find_encode_to_utf8` as the `const` member it is in the C++. -/
def find_encode_to_utf8_st (bank : GameTextFontBank) (l : List Nat) :
    Option EncodeInfo × GameTextFontBank :=
  (find_encode_to_utf8 bank.encode_info l, bank)

/-- `find_encode_to_game` as the `const` member it is in the C++. -/
def find_encode_to_game_st (bank : GameTextFontBank) (l : List Nat) :
    Option EncodeInfo × GameTextFontBank :=
  (find_encode_to_game bank.encode_info l, bank)

/-- `find_replace_to_utf8` as the `const` member it is in the C++. -/
def find_replace_to_utf8_st (bank : GameTextFontBank) (l : List Nat) :
    Option ReplaceInfo × GameTextFontBank :=
  (find_replace_to_utf8 bank.replace_info l, bank)

/-- `find_replace_to_game` as the `const` member it is in the C++. -/
def find_replace_to_game_st (bank : GameTextFontBank) (l : List Nat) :
    Option ReplaceInfo × GameTextFontBank :=
  (find_replace_to_game bank.replace_info l, bank)

/-! ## Claim theorems -/

/-- C1, code_bug evidence: with escaping enabled, the `"` branch of
`convert_utf8_to_game` does `i += 1` in the loop body on top of the `for`
header's `++i`, so the character immediately following a `"` is dropped.  On
the jak1-v1 bank the input `"ab` (bytes 34, 97, 98) transcodes to the two
bytes `"b`: the `a` is silently lost, contradicting the claim (and spec §7's
"no silent truncation"; spec §4.2 says a `"` is copied literally, which only
holds for the quote itself). -/
theorem c1_quote_drops_following_char :
    unescape_string [34, 97, 98] = .ok [34, 98]
    ∧ convert_utf8_to_game g_font_bank_jak1_v1 [34, 97, 98] true = .ok [34, 98] := by
  constructor
  · rfl
  · decide

/-- C2 counterexample: the two characters of the jak2 string `N°` (bytes
78, 194, 176) are both representable in the jak2 tables (`N` occurs in the
`Nº` replace rule, `°` is the display side of its own replace rule), yet the
round trip returns `Nº` (bytes 78, 194, 186): forward transcoding folds `°`
into its encoded substring `~Y~-6Hº~Z~+10H`, and on the way back the
reverse replace pass greedily matches the longer `N~Y~-6Hº~Z~+10H` rule,
which begins with the literal `N`. -/
theorem c2_round_trip_counterexample :
    convert_utf8_to_game g_font_bank_jak2 [0x4e, 0xc2, 0xb0] false
      = .ok [0x4e, 0x7e, 0x59, 0x7e, 0x2d, 0x36, 0x48, 0x16, 0x7e, 0x5a, 0x7e, 0x2b, 0x31,
          0x30, 0x48]
    ∧ convert_game_to_utf8 g_font_bank_jak2
        [0x4e, 0x7e, 0x59, 0x7e, 0x2d, 0x36, 0x48, 0x16, 0x7e, 0x5a, 0x7e, 0x2b, 0x31,
          0x30, 0x48] false
      = [0x4e, 0xc2, 0xba]
    ∧ ([0x4e, 0xc2, 0xba] : List Nat) ≠ [0x4e, 0xc2, 0xb0] := by
  refine ⟨by decide, by decide, by decide⟩

/-- C2 amended: the round trip `convert_game_to_utf8 ∘ convert_utf8_to_game`
restores strings whose folded encoded substrings are re-split into the same
rules by the reverse pass, but not every string of representable characters
(`N°` comes back as `Nº`).  Exemplars covering replace folding, encode rules,
literals and the backslash rule, each stated with its intermediate game-byte
sequence: jak2 `Nº`, `°`, `p`, `~%`, and jak1-v1 `世`, `ヴ`. -/
theorem c2_round_trip_examples :
    (convert_utf8_to_game g_font_bank_jak2 [0x4e, 0xc2, 0xba] false
        = .ok [78, 126, 89, 126, 45, 54, 72, 22, 126, 90, 126, 43, 49, 48, 72]
      ∧ convert_game_to_utf8 g_font_bank_jak2
          [78, 126, 89, 126, 45, 54, 72, 22, 126, 90, 126, 43, 49, 48, 72] false
        = [0x4e, 0xc2, 0xba])
    ∧ (convert_utf8_to_game g_font_bank_jak2 [0xc2, 0xb0] false
        = .ok [126, 89, 126, 45, 54, 72, 22, 126, 90, 126, 43, 49, 48, 72]
      ∧ convert_game_to_utf8 g_font_bank_jak2
          [126, 89, 126, 45, 54, 72, 22, 126, 90, 126, 43, 49, 48, 72] false
        = [0xc2, 0xb0])
    ∧ (convert_utf8_to_game g_font_bank_jak2 [0x70] false
        = .ok [126, 43, 55, 86, 112, 126, 45, 55, 86]
      ∧ convert_game_to_utf8 g_font_bank_jak2 [126, 43, 55, 86, 112, 126, 45, 55, 86] false
        = [0x70])
    ∧ (convert_utf8_to_game g_font_bank_jak2 [0x7e, 0x25] false = .ok [92, 92]
      ∧ convert_game_to_utf8 g_font_bank_jak2 [92, 92] false = [0x7e, 0x25])
    ∧ (convert_utf8_to_game g_font_bank_jak1_v1 [0xe4, 0xb8, 0x96] false = .ok [126, 126]
      ∧ convert_game_to_utf8 g_font_bank_jak1_v1 [126, 126] false = [0xe4, 0xb8, 0x96])
    ∧ (convert_utf8_to_game g_font_bank_jak1_v1 [0xe3, 0x83, 0xb4] false
        = .ok [126, 89, 211, 126, 90, 145]
      ∧ convert_game_to_utf8 g_font_bank_jak1_v1 [126, 89, 211, 126, 90, 145] false
        = [0xe3, 0x83, 0xb4]) := by
  refine ⟨⟨by decide, by decide⟩, ⟨by decide, by decide⟩, ⟨by decide, by decide⟩,
    ⟨by decide, by decide⟩, ⟨by decide, by decide⟩, ⟨by decide, by decide⟩⟩

/-- C3 counterexample: both table entries match the buffer `[0x10, 0x20]`
(the first by its 1-byte sequence, the second by its full 2-byte sequence),
but `find_encode_to_utf8` compares *character*-sequence lengths
(`info.chars.length() > best_info->chars.length()`), so it returns the first
entry even though the second's byte sequence is strictly longer — the
returned rule's byte-sequence length (1) is not maximal (2). -/
theorem c3_counterexample :
    find_encode_to_utf8 [⟨[97, 98], [0x10]⟩, ⟨[120], [0x10, 0x20]⟩] [0x10, 0x20]
      = some ⟨[97, 98], [0x10]⟩
    ∧ cstrMatch [0x10, 0x20] [0x10, 0x20] = true
    ∧ (([0x10] : List Nat).length < ([0x10, 0x20] : List Nat).length) := by
  refine ⟨by decide, by decide, by decide⟩

/-- C3 amended: `find_encode_to_utf8` returns a rule with a non-empty byte
sequence that matches at the position, and the returned rule's
*character-sequence* length (not its byte-sequence length, as the claim
stated) is maximal among all matching rules; ties are broken in favour of the
earlier table entry (strict `>` comparison). -/
theorem c3_find_encode_to_utf8_spec (table : List EncodeInfo) (l : List Nat) (r : EncodeInfo)
    (h : find_encode_to_utf8 table l = some r) :
    r ∈ table ∧ r.bytes ≠ [] ∧ cstrMatch l r.bytes = true
    ∧ ∀ r' ∈ table, r'.bytes ≠ [] → cstrMatch l r'.bytes = true →
        r'.chars.length ≤ r.chars.length := by
  rcases find_best_eq_some _ _ _ _ _ h with ⟨hm, hP⟩ | h'
  · simp only [Bool.and_eq_true, Bool.not_eq_true', beq_eq_false_iff_ne, ne_eq] at hP
    refine ⟨hm, by simpa using List.length_pos.mp (Nat.pos_of_ne_zero hP.1), hP.2, ?_⟩
    intro r' hr' hb hm'
    refine (find_best_maximal _ _ _ _ _ h).1 r' hr' ?_
    have : r'.bytes.length ≠ 0 := Nat.pos_iff_ne_zero.mp (List.length_pos.mpr hb)
    simp [this, hm']
  · cases h'

/-- C3 witness: instantiating `c3_find_encode_to_utf8_spec` on the two-rule
table at the buffer `[0x10]`, where only the first rule matches. -/
theorem c3_witness :
    find_encode_to_utf8 [⟨[97, 98], [0x10]⟩, ⟨[120], [0x10, 0x20]⟩] [0x10]
      = some ⟨[97, 98], [0x10]⟩
    ∧ ((⟨[97, 98], [0x10]⟩ : EncodeInfo) ∈ [⟨[97, 98], [0x10]⟩, ⟨[120], [0x10, 0x20]⟩]
      ∧ (⟨[97, 98], [0x10]⟩ : EncodeInfo).bytes ≠ []
      ∧ cstrMatch [0x10] (⟨[97, 98], [0x10]⟩ : EncodeInfo).bytes = true
      ∧ ∀ r' ∈ ([⟨[97, 98], [0x10]⟩, ⟨[120], [0x10, 0x20]⟩] : List EncodeInfo),
          r'.bytes ≠ [] → cstrMatch [0x10] r'.bytes = true →
          r'.chars.length ≤ (⟨[97, 98], [0x10]⟩ : EncodeInfo).chars.length) :=
  ⟨by decide, c3_find_encode_to_utf8_spec _ _ _ (by decide)⟩

/-- C4 counterexample: the single rule's 2-character pattern extends past the
end of the 1-character input, yet `find_encode_to_game` returns it — the
comparison loop stops as soon as `i + off` reaches the end of the input with
the `found` flag still set, so a rule is accepted on a partial match at the
end of the input. -/
theorem c4_counterexample :
    find_encode_to_game [⟨[97, 98], [5]⟩] [97] = some ⟨[97, 98], [5]⟩
    ∧ ([97] : List Nat).length < (⟨[97, 98], [5]⟩ : EncodeInfo).chars.length := by
  refine ⟨by decide, by decide⟩

/-- C4 amended: a rule returned by `find_encode_to_game` has a non-empty
character pattern that matches the input *as far as the input extends*
(`boundedMatch`), and its pattern length is maximal among rules matching in
that bounded sense; contrary to the claim, a rule whose pattern runs past the
end of the input can be returned when its in-range prefix matches. -/
theorem c4_find_encode_to_game_spec (table : List EncodeInfo) (l : List Nat) (r : EncodeInfo)
    (h : find_encode_to_game table l = some r) :
    r ∈ table ∧ r.chars ≠ [] ∧ boundedMatch l r.chars = true
    ∧ ∀ r' ∈ table, r'.chars ≠ [] → boundedMatch l r'.chars = true →
        r'.chars.length ≤ r.chars.length := by
  rcases find_best_eq_some _ _ _ _ _ h with ⟨hm, hP⟩ | h'
  · simp only [Bool.and_eq_true, Bool.not_eq_true', beq_eq_false_iff_ne, ne_eq] at hP
    refine ⟨hm, by simpa using List.length_pos.mp (Nat.pos_of_ne_zero hP.1), hP.2, ?_⟩
    intro r' hr' hb hm'
    refine (find_best_maximal _ _ _ _ _ h).1 r' hr' ?_
    have : r'.chars.length ≠ 0 := Nat.pos_iff_ne_zero.mp (List.length_pos.mpr hb)
    simp [this, hm']
  · cases h'

/-- C4 witness: instantiating `c4_find_encode_to_game_spec` on a one-rule
table whose pattern fits inside the input. -/
theorem c4_witness :
    find_encode_to_game [⟨[97], [7]⟩] [97, 98] = some ⟨[97], [7]⟩
    ∧ ((⟨[97], [7]⟩ : EncodeInfo) ∈ ([⟨[97], [7]⟩] : List EncodeInfo)
      ∧ (⟨[97], [7]⟩ : EncodeInfo).chars ≠ []
      ∧ boundedMatch [97, 98] (⟨[97], [7]⟩ : EncodeInfo).chars = true
      ∧ ∀ r' ∈ ([⟨[97], [7]⟩] : List EncodeInfo),
          r'.chars ≠ [] → boundedMatch [97, 98] r'.chars = true →
          r'.chars.length ≤ (⟨[97], [7]⟩ : EncodeInfo).chars.length) :=
  ⟨by decide, c4_find_encode_to_game_spec _ _ _ (by decide)⟩

/-- C5 counterexample: for jak1-v1 the byte 0x61 is indeed outside
`valid_char_range`, but the jak1 encode table claims it (rule `撃` ↔ 0x61),
so the reverse transcoder emits `撃` (bytes 230, 146, 131) — not the escape
`\c61` (bytes 92, 99, 54, 49) the claim requires. -/
theorem c5_counterexample :
    convert_game_to_utf8 g_font_bank_jak1_v1 [0x61] false = [0xe6, 0x92, 0x83]
    ∧ convert_game_to_utf8 g_font_bank_jak1_v1 [0x61] false ≠ [0x5c, 0x63, 0x36, 0x31] := by
  refine ⟨by decide, by decide⟩

/-- C5 amended: `valid_char_range` classifies 0x61 as invalid for jak1-v1 and
jak1-v2 and as valid for jak2, and byte 0x61 passes through the jak2 reverse
transcoder unchanged; but for the jak1 banks byte 0x61 is consumed by the `撃`
encode rule and emits that rule's characters — the `\cXX` escape is produced
only for bytes with no encode rule and outside the valid range, e.g. 0x19,
which renders as `\c19`. -/
theorem c5_validity_boundary :
    valid_char_range g_font_bank_jak1_v1 0x61 = false
    ∧ valid_char_range g_font_bank_jak1_v2 0x61 = false
    ∧ valid_char_range g_font_bank_jak2 0x61 = true
    ∧ convert_game_to_utf8 g_font_bank_jak2 [0x61] false = [0x61]
    ∧ convert_game_to_utf8 g_font_bank_jak1_v1 [0x61] false = [0xe6, 0x92, 0x83]
    ∧ convert_game_to_utf8 g_font_bank_jak1_v2 [0x61] false = [0xe6, 0x92, 0x83]
    ∧ convert_game_to_utf8 g_font_bank_jak1_v1 [0x19] false = [0x5c, 0x63, 0x31, 0x39]
    ∧ convert_game_to_utf8 g_font_bank_jak1_v2 [0x19] false = [0x5c, 0x63, 0x31, 0x39] := by
  refine ⟨by decide, by decide, by decide, by decide, by decide, by decide, by decide, by decide⟩

/-- C6: with escaping enabled the forward transcoder rejects, with no byte
output, a backslash followed by anything other than `c`, `"` or `\`
(invalidEscape), a `\` or `\c` escape truncated at end of string
(incompleteEscape), and non-hexadecimal bytes after `\c` (invalidHexEscape);
the error aborts the conversion: a clean literal prefix preserves the error
(second-to-last conjunct) and any scanner error makes `convert_utf8_to_game`
return exactly that error, producing no byte output (last conjunct). -/
theorem c6_escape_errors (bank : GameTextFontBank) (rest : List Nat) (p a b : Nat) :
    (p ≠ 99 → p ≠ 34 → p ≠ 92 →
      convert_utf8_to_game bank (92 :: p :: rest) true = .error (.invalidEscape p))
    ∧ convert_utf8_to_game bank [92] true = .error .incompleteEscape
    ∧ convert_utf8_to_game bank [92, 99] true = .error .incompleteEscape
    ∧ convert_utf8_to_game bank [92, 99, a] true = .error .incompleteEscape
    ∧ (¬(hex_char a = true ∧ hex_char b = true) →
      convert_utf8_to_game bank (92 :: 99 :: a :: b :: rest) true = .error .invalidHexEscape)
    ∧ (∀ e, p ≠ 34 → p ≠ 92 → unescape_string rest = .error e →
      unescape_string (p :: rest) = .error e)
    ∧ (∀ s e, unescape_string s = .error e → convert_utf8_to_game bank s true = .error e) := by
  refine ⟨?_, rfl, rfl, rfl, ?_, ?_, ?_⟩
  · intro h99 h34 h92
    have : unescape_string (92 :: p :: rest) = .error (.invalidEscape p) := by
      simp [unescape_string, h99, h34, h92]
    simp [convert_utf8_to_game, this]
  · intro h
    have hab : (hex_char a && hex_char b) = false := by
      cases ha : hex_char a <;> cases hb : hex_char b <;> simp_all
    have : unescape_string (92 :: 99 :: a :: b :: rest) = .error .invalidHexEscape := by
      simp [unescape_string, hab]
    simp [convert_utf8_to_game, this]
  · intro e h34 h92 h
    simp [unescape_string, prependOk, h34, h92, h]
  · intro s e h
    simp [convert_utf8_to_game, h]

/-- C6 witness: concrete instances of the error cases of `c6_escape_errors`
(the letter `n` after a backslash, the non-hex byte `g` after `\c`, a lone
backslash behind a literal `a`, and the full pipeline aborting on it). -/
theorem c6_witness :
    convert_utf8_to_game g_font_bank_jak1_v1 [92, 110] true
        = .error (.invalidEscape 110)
    ∧ convert_utf8_to_game g_font_bank_jak1_v1 [92, 99, 48, 103] true
        = .error .invalidHexEscape
    ∧ unescape_string [97, 92] = .error .incompleteEscape
    ∧ convert_utf8_to_game g_font_bank_jak1_v1 [97, 92] true = .error .incompleteEscape :=
  ⟨(c6_escape_errors g_font_bank_jak1_v1 [] 110 48 103).1 (by decide) (by decide) (by decide),
   (c6_escape_errors g_font_bank_jak1_v1 [] 110 48 103).2.2.2.2.1 (by decide),
   (c6_escape_errors g_font_bank_jak1_v1 [92] 97 48 103).2.2.2.2.2.1
     EscapeError.incompleteEscape (by decide) (by decide) (by decide),
   (c6_escape_errors g_font_bank_jak1_v1 [] 110 48 103).2.2.2.2.2.2 [97, 92]
     EscapeError.incompleteEscape (by decide)⟩

/-- C7: forward-transcoding `a\c41b` with escaping enabled produces, for
every font bank, exactly the bytes of forward-transcoding `a`, chr(0x41),
`b` with escaping disabled: the escape interpreter turns `\c41` into the raw
byte 0x41 and the remaining pipeline stages coincide. -/
theorem c7_escape_hex_round_trip (bank : GameTextFontBank) :
    convert_utf8_to_game bank [97, 92, 99, 52, 49, 98] true
      = convert_utf8_to_game bank [97, 65, 98] false := rfl

/-- C8: looking a font bank up by name fails with `unknownVersion` exactly for
names registered to no version, and returns the registered version's bank for
registered names; the lookup is a pure function of the registries
(`sTextVerEnumMap`, `g_font_banks`), so no state is mutated. -/
theorem c8_get_font_bank_lookup (name : String) :
    ((∀ v : GameTextVersion, (name, v) ∉ sTextVerEnumMap) →
      get_font_bank name = .error FontBankError.unknownVersion)
    ∧ (∀ v : GameTextVersion, (name, v) ∈ sTextVerEnumMap →
      get_font_bank name = .ok (g_font_banks v)) := by
  constructor
  · intro h
    unfold get_font_bank
    cases hf : sTextVerEnumMap.find? (fun p => p.1 == name) with
    | none => rfl
    | some p =>
      have hm := List.mem_of_find?_eq_some hf
      have hp : p.1 = name := by simpa using List.find?_some hf
      exact absurd (show (name, p.2) ∈ sTextVerEnumMap by
        simpa [← hp] using hm) (h p.2)
  · intro v hv
    simp only [sTextVerEnumMap, List.mem_cons, List.not_mem_nil, or_false,
      Prod.mk.injEq] at hv
    rcases hv with ⟨h1, h2⟩ | ⟨h1, h2⟩ | ⟨h1, h2⟩ <;> subst h1 <;> subst h2 <;> rfl

/-- C8 witness: the unregistered name fails with `unknownVersion`; the
registered name `jak2` returns that version's bank. -/
theorem c8_witness :
    get_font_bank ("not-a-real-version") = .error FontBankError.unknownVersion
    ∧ get_font_bank ("jak2") = .ok (g_font_banks GameTextVersion.JAK2) :=
  ⟨(c8_get_font_bank_lookup ("not-a-real-version")).1 (by intro v; cases v <;> decide),
   (c8_get_font_bank_lookup ("jak2")).2 GameTextVersion.JAK2 (by decide)⟩

/-- C9: for every version and input tables, the constructed bank's encode
table is ordered by non-increasing byte-sequence length and its replace table
by non-increasing `from` length; and every transcoding operation and resolver
(`const` members, modelled in state-passing form) returns the bank — hence
its tables and passthrough set — unchanged, so the ordering established at
construction is an invariant preserved by every operation. -/
theorem c9_sorted_tables_invariant (v : GameTextVersion) (enc : List EncodeInfo)
    (rep : List ReplaceInfo) (pas : List Nat) :
    List.Pairwise (fun a b => b.bytes.length ≤ a.bytes.length)
      (GameTextFontBank.construct v enc rep pas).encode_info
    ∧ List.Pairwise (fun a b => b.from_.length ≤ a.from_.length)
      (GameTextFontBank.construct v enc rep pas).replace_info
    ∧ (∀ bank inp k, (convert_game_to_utf8_st bank inp k).2 = bank)
    ∧ (∀ bank s e, (convert_utf8_to_game_st bank s e).2 = bank)
    ∧ (∀ bank l, (find_encode_to_utf8_st bank l).2 = bank)
    ∧ (∀ bank l, (find_encode_to_game_st bank l).2 = bank)
    ∧ (∀ bank l, (find_replace_to_utf8_st bank l).2 = bank)
    ∧ (∀ bank l, (find_replace_to_game_st bank l).2 = bank) := by
  refine ⟨?_, ?_, fun _ _ _ => rfl, fun _ _ _ => rfl, fun _ _ => rfl, fun _ _ => rfl,
    fun _ _ => rfl, fun _ _ => rfl⟩
  · haveI : IsTotal EncodeInfo (fun a b => b.bytes.length ≤ a.bytes.length) :=
      ⟨fun a b => Nat.le_total b.bytes.length a.bytes.length⟩
    haveI : IsTrans EncodeInfo (fun a b => b.bytes.length ≤ a.bytes.length) :=
      ⟨fun _ _ _ h1 h2 => Nat.le_trans h2 h1⟩
    exact List.sorted_insertionSort _ _
  · haveI : IsTotal ReplaceInfo (fun a b => b.from_.length ≤ a.from_.length) :=
      ⟨fun a b => Nat.le_total b.from_.length a.from_.length⟩
    haveI : IsTrans ReplaceInfo (fun a b => b.from_.length ≤ a.from_.length) :=
      ⟨fun _ _ _ h1 h2 => Nat.le_trans h2 h1⟩
    exact List.sorted_insertionSort _ _

theorem cstrMatch_nil (l : List Nat) : cstrMatch l [] = true := by
  cases l <;> rfl

theorem cstrMatch_takeWhile (pat : List Nat) (hz : 0 ∉ pat) :
    ∀ l : List Nat, cstrMatch (l.takeWhile (fun c => !(c == 0))) pat = cstrMatch l pat := by
  induction pat with
  | nil => intro l; rw [cstrMatch_nil, cstrMatch_nil]
  | cons p ps ih =>
    intro l
    have hp : (0 : Nat) ≠ p := by
      rintro rfl; exact hz (List.mem_cons_self _ _)
    have hz' : 0 ∉ ps := fun h => hz (List.mem_cons_of_mem _ h)
    cases l with
    | nil => rfl
    | cons x xs =>
      by_cases hx : x = 0
      · subst hx
        rw [List.takeWhile_cons_of_neg (by simp)]
        simp [cstrMatch, beq_eq_false_iff_ne.mpr hp]
      · rw [List.takeWhile_cons_of_pos (by simp [hx])]
        simp only [cstrMatch]
        rw [ih hz' xs]

theorem takeWhile_drop_cstrMatch (pat : List Nat) (hz : 0 ∉ pat) :
    ∀ l : List Nat, cstrMatch l pat = true →
      (l.takeWhile (fun c => !(c == 0))).drop pat.length
        = (l.drop pat.length).takeWhile (fun c => !(c == 0)) := by
  induction pat with
  | nil => intro l _; simp
  | cons p ps ih =>
    intro l hm
    have hp : (0 : Nat) ≠ p := by
      rintro rfl; exact hz (List.mem_cons_self _ _)
    have hz' : 0 ∉ ps := fun h => hz (List.mem_cons_of_mem _ h)
    cases l with
    | nil =>
      simp [cstrMatch, beq_eq_false_iff_ne.mpr hp] at hm
    | cons x xs =>
      simp only [cstrMatch, Bool.and_eq_true, beq_iff_eq] at hm
      obtain ⟨hxp, hm'⟩ := hm
      subst hxp
      rw [List.takeWhile_cons_of_pos (by simp [Ne.symm hp])]
      simp only [List.length_cons, List.drop_succ_cons]
      exact ih hz' xs hm'

theorem find_encode_to_utf8_takeWhile (table : List EncodeInfo)
    (H : ∀ r ∈ table, 0 ∉ r.bytes) (l : List Nat) :
    find_encode_to_utf8 table (l.takeWhile (fun c => !(c == 0)))
      = find_encode_to_utf8 table l := by
  unfold find_encode_to_utf8
  exact find_best_congr _ _ _ table none
    (fun r hr => by rw [cstrMatch_takeWhile r.bytes (H r hr) l])

theorem convert_game_to_utf8_loop_takeWhile (bank : GameTextFontBank)
    (H : ∀ r ∈ bank.encode_info, 0 ∉ r.bytes) :
    ∀ fuel fuel' (l : List Nat), l.length ≤ fuel →
      (l.takeWhile (fun c => !(c == 0))).length ≤ fuel' →
      convert_game_to_utf8_loop bank fuel l
        = convert_game_to_utf8_loop bank fuel' (l.takeWhile (fun c => !(c == 0))) := by
  intro fuel
  induction fuel with
  | zero =>
    intro fuel' l hl hT
    have hnil : l = [] := List.length_eq_zero.mp (Nat.le_zero.mp hl)
    subst hnil
    cases fuel' <;> rfl
  | succ fuel ih =>
    intro fuel' l hl hT
    cases l with
    | nil => cases fuel' <;> rfl
    | cons c rest =>
      by_cases hc : c = 0
      · subst hc
        rw [List.takeWhile_cons_of_neg (by simp)] at hT ⊢
        cases fuel' <;> simp [convert_game_to_utf8_loop]
      · rw [List.takeWhile_cons_of_pos (by simp [hc])] at hT ⊢
        cases fuel' with
        | zero => simp at hT
        | succ fuel'' =>
          have hfind : find_encode_to_utf8 bank.encode_info
              (c :: rest.takeWhile (fun c => !(c == 0)))
              = find_encode_to_utf8 bank.encode_info (c :: rest) := by
            have h0 := find_encode_to_utf8_takeWhile bank.encode_info H (c :: rest)
            rwa [List.takeWhile_cons_of_pos (by simp [hc])] at h0
          simp only [convert_game_to_utf8_loop, beq_iff_eq, hc, if_false, hfind]
          cases hf : find_encode_to_utf8 bank.encode_info (c :: rest) with
          | none =>
            dsimp only
            simp only [List.length_cons] at hl hT
            congr 1
            exact ih fuel'' rest (by omega) (by omega)
          | some r =>
            dsimp only
            rcases find_best_eq_some _ _ _ _ _ hf with ⟨hmem, hP⟩ | habs
            · simp only [Bool.and_eq_true, Bool.not_eq_true', beq_eq_false_iff_ne,
                ne_eq] at hP
              have hk : 0 < r.bytes.length := Nat.pos_of_ne_zero hP.1
              have hmatch : cstrMatch (c :: rest) r.bytes = true := hP.2
              have hdrop : (c :: rest.takeWhile (fun c => !(c == 0))).drop r.bytes.length
                  = ((c :: rest).drop r.bytes.length).takeWhile (fun c => !(c == 0)) := by
                have h1 : (c :: rest).takeWhile (fun c => !(c == 0))
                    = c :: rest.takeWhile (fun c => !(c == 0)) :=
                  List.takeWhile_cons_of_pos (by simp [hc])
                rw [← h1]
                exact takeWhile_drop_cstrMatch r.bytes (H r hmem) (c :: rest) hmatch
              rw [hdrop]
              congr 1
              have hlen1 : ((c :: rest).drop r.bytes.length).length ≤ fuel := by
                simp only [List.length_drop, List.length_cons]
                simp only [List.length_cons] at hl
                omega
              have hlen2 : (((c :: rest).drop r.bytes.length).takeWhile
                  (fun c => !(c == 0))).length ≤ fuel'' := by
                rw [← hdrop]
                simp only [List.length_drop, List.length_cons]
                simp only [List.length_cons] at hT
                omega
              exact ih fuel'' ((c :: rest).drop r.bytes.length) hlen1 hlen2
            · cases habs

/-- C10 amended: without the Korean pre-pass, when no encode rule's byte
sequence contains a NUL (true of all three shipped tables), the reverse
transcoder depends only on the bytes strictly before the first zero byte;
moreover in both modes an input beginning with 0x00 — in particular the empty
input — yields the empty string with no error.  With the Korean pre-pass this
prefix property fails (see the counterexample), because the length byte after
a non-3 marker is skipped without a NUL check. -/
theorem c10_nul_terminates (bank : GameTextFontBank) :
    ((∀ r ∈ bank.encode_info, 0 ∉ r.bytes) → ∀ l : List Nat,
      convert_game_to_utf8 bank l false
        = convert_game_to_utf8 bank (l.takeWhile (fun c => !(c == 0))) false)
    ∧ (∀ (l : List Nat) (k : Bool), convert_game_to_utf8 bank (0 :: l) k = [])
    ∧ (∀ k : Bool, convert_game_to_utf8 bank [] k = []) := by
  refine ⟨?_, ?_, ?_⟩
  · intro H l
    have h := convert_game_to_utf8_loop_takeWhile bank H l.length
      (l.takeWhile (fun c => !(c == 0))).length l le_rfl le_rfl
    simp only [convert_game_to_utf8, Bool.false_eq_true, if_false]
    rw [h]
  · intro l k
    cases k <;> rfl
  · intro k
    cases k <;> rfl

/-- C10 counterexample: with the Korean pre-pass the output can depend on
bytes after the first zero byte.  After the non-3 marker 1, the pre-pass
skips the next byte as a length byte with no NUL check — here that byte is
the zero — so the buffers `[1, 0]` and `[1, 0, 0x41]` share the prefix `[1]`
before their first zero, yet the first decodes to the empty string and the
second (whose 0x41 becomes the glyph pair `(3, 0x41)`, the jak2 rule `<H341>`)
to the string `<H341>`. -/
theorem c10_counterexample :
    (([1, 0] : List Nat).takeWhile (fun c => !(c == 0))
        = ([1, 0, 0x41] : List Nat).takeWhile (fun c => !(c == 0)))
    ∧ convert_game_to_utf8 g_font_bank_jak2 [1, 0] true = []
    ∧ convert_game_to_utf8 g_font_bank_jak2 [1, 0, 0x41] true
        = [60, 72, 51, 52, 49, 62] := by
  refine ⟨by decide, by decide, by decide⟩

/-- C10 witness: the jak1-v1 tables contain no NUL byte in any encode rule,
and `c10_nul_terminates` applied to them shows the output on `[65, 0, 66]`
(korean disabled) coincides with the output on the prefix before the zero. -/
theorem c10_witness :
    (∀ r ∈ g_font_bank_jak1_v1.encode_info, 0 ∉ r.bytes)
    ∧ convert_game_to_utf8 g_font_bank_jak1_v1 [65, 0, 66] false
        = convert_game_to_utf8 g_font_bank_jak1_v1
            (([65, 0, 66] : List Nat).takeWhile (fun c => !(c == 0))) false :=
  ⟨by decide, (c10_nul_terminates g_font_bank_jak1_v1).1 (by decide) [65, 0, 66]⟩
